import Mathlib

/-!
# ReelAware content script: statistics aggregator, limit-alert scheduler and scanning

A shallow embedding of the class `ReelTracker` of `src/content/content.js`.

Conventions of the embedding.

* The tracker object, the extension store (`chrome.storage.local`) and the
  sequence of notification elements appended to `document.body` form one
  explicit state, `World`; every method is a function on that state.
* `Date.now()` is a natural number of milliseconds; a watch duration is a
  difference of two such readings and is an integer.  One reading of the
  clock is passed to each operation.  JavaScript numbers are taken as exact
  integers (all values stay far below `2^53`).
* `Math.random()` is an input: `Env.randomGate` is the outcome of
  `Math.random() < 0.3`, `Env.randomMessage` the index
  `Math.floor(Math.random() * 4)`.
* `async` methods are run to completion in program order.  A rejected
  `chrome.storage.local.set` is the flag `World.writeFails`; reads of the
  store do not fail.
* The pending `setInterval` and `setTimeout` timers of the tracker are a
  table of the state (`World.timers`); the tracker fields hold the handles.
  A timer fires through `timerFires`.  The auto-hide timers of notifications
  are not part of the state.
* The `video` elements of the document, their `data-reel-tracked` tag and
  their listener sets are the `Page`; what the detection reads from an
  element (`isReelVideo`, `getReelId`, the descendant selectors) is a
  parameter, `Detector`.
-/

namespace ReelAware

/-! ## Definitions -/

/-- Value of one entry of the map `watchedReels`. -/
structure ReelData where
  count : Nat
  lastWatched : Option Nat
  totalWatchTime : Int
deriving DecidableEq, Repr

/-- The object `dailyStats`. -/
structure DailyStats where
  date : String
  watchTime : Int
  reelsWatched : Nat
  reelsScrolled : Nat
deriving DecidableEq, Repr

/-- The object `settings`; the two limits are `undefined` (`none`) until
`loadSettings` has run. -/
structure Settings where
  extensionEnabled : Bool
  showNotifications : Bool
  enableLimits : Bool
  timeLimit : Option Nat
  reelLimit : Option Nat
deriving DecidableEq, Repr

/-- What a notification element appended to `document.body` presents. -/
inductive Shown where
  | repeatView (reelId : String) (count : Nat)
  | scrollMilestone (message : String)
  | limitExceeded (timeExceeded reelsExceeded : Bool)
  | positiveReinforcement (message : Fin 4)
  | snoozeStarted (minutes : ℚ)
  | snoozeEnded (minutes : ℚ)
deriving DecidableEq, Repr

/-- The element held in `notificationElement`: its `className`, what it
presents, and whether it still has a `parentNode`. -/
structure NotificationElement where
  className : String
  content : Shown
  attached : Bool
deriving DecidableEq, Repr

/-- What a timer of the tracker runs when it fires: the periodic rescan, the
status log, the repeat of the limit alert, or the resume after a snooze (its
callback captures the `minutes` argument of `snoozeAlerts`). -/
inductive TimerKind where
  | periodicCheck
  | statusLog
  | limitAlert
  | snoozeResume (minutes : ℚ)
deriving DecidableEq, Repr

/-- A pending `setInterval` or `setTimeout` of the page: the handle the call
returned, what it runs, and the delay argument it was given. -/
structure Timer where
  id : Nat
  kind : TimerKind
  delay : Nat
deriving DecidableEq, Repr

/-- Fields of a `ReelTracker` instance.  The four timer fields hold the
handle returned by `setInterval` or `setTimeout` (a positive integer), or
`null`. -/
structure Tracker where
  watchedReels : List (String × ReelData)
  activeReel : Option String
  notificationElement : Option NotificationElement
  settings : Settings
  totalReelsScrolled : Nat
  scrolledReels : List String
  dailyStats : Option DailyStats
  limitAlertInterval : Option Nat
  isShowingLimitAlert : Bool
  snoozeUntil : Option Nat
  snoozeTimeout : Option Nat
  limitAlertCount : Nat
  lastPositiveNotification : Nat
  periodicCheckInterval : Option Nat
  statusLogInterval : Option Nat
deriving DecidableEq, Repr

/-- Keys of `chrome.storage.local` used by the content script; `none` is an
absent key. -/
structure Store where
  watchedReels : Option (List (String × ReelData))
  totalReelsScrolled : Option Nat
  scrolledReels : Option (List String)
  dailyStats : Option DailyStats
  extensionEnabled : Option Bool
  showNotifications : Option Bool
  enableLimits : Option Bool
  timeLimit : Option Int
  reelLimit : Option Int
deriving DecidableEq, Repr

/-- Tracker, store, every element appended to `document.body` so far (in
order), whether `chrome.storage.local.set` rejects, the pending timers of the
page and the last timer handle handed out. -/
structure World where
  t : Tracker
  store : Store
  shown : List Shown
  writeFails : Bool
  timers : List Timer
  nextTimerId : Nat
deriving DecidableEq, Repr

/-- Inputs read from the environment during one operation. -/
structure Env where
  now : Nat
  randomGate : Bool
  randomMessage : Fin 4
deriving DecidableEq, Repr

/-- Closure variables of one `addVideoListeners` call. -/
structure Session where
  reelId : String
  playStartTime : Option Nat
  hasBeenCounted : Bool
deriving DecidableEq, Repr

/-- `Map.prototype.get`. -/
def mapGet {β : Type} : List (String × β) → String → Option β
  | [], _ => none
  | (k, v) :: rest, key => if k = key then some v else mapGet rest key

/-- `Map.prototype.set`; also the write of a mutated entry object. -/
def mapSet {β : Type} : List (String × β) → String → β → List (String × β)
  | [], key, val => [(key, val)]
  | (k, v) :: rest, key, val =>
    if k = key then (k, val) :: rest else (k, v) :: mapSet rest key val

/-- `Set.prototype.has`. -/
def setHas (s : List String) (x : String) : Bool := decide (x ∈ s)

/-- `Set.prototype.add`. -/
def setAdd (s : List String) (x : String) : List String :=
  if x ∈ s then s else s ++ [x]

/-- `new Set(array)`. -/
def setOfArray (a : List String) : List String := a.foldl setAdd []

/-- `x >= limit` where `limit` may be `undefined` (the comparison with
`undefined` or `NaN` is false). -/
def geLimit (x : Int) : Option Nat → Bool
  | none => false
  | some l => decide ((l : Int) ≤ x)

/-- `saveDailyStats`: writes `dailyStats` to the store; the second component
tells whether the method threw (it rethrows a failed write). -/
def saveDailyStats (w : World) : World × Bool :=
  if w.writeFails then (w, true)
  else ({ w with store := { w.store with dailyStats := w.t.dailyStats } }, w.t.dailyStats.isNone)

/-- `saveWatchedReels`: writes the map as an object; the second component
tells whether the method threw. -/
def saveWatchedReels (w : World) : World × Bool :=
  if w.writeFails then (w, true)
  else ({ w with store := { w.store with watchedReels := some w.t.watchedReels } }, false)

/-- The first definition of `saveScrollCounter` in the class body (lines
138-147).  The class defines the method a second time further down, so this
body is never the one that runs. -/
def saveScrollCounterShadowed (w : World) : World :=
  if w.writeFails then w
  else { w with store := { w.store with
            totalReelsScrolled := some w.t.totalReelsScrolled,
            scrolledReels := some w.t.scrolledReels } }

/-- `saveScrollCounter` as it runs: the second definition in the class body
(lines 188-194), which replaces the first. -/
def saveScrollCounter (w : World) : World :=
  if w.writeFails then w
  else { w with store := { w.store with totalReelsScrolled := some w.t.totalReelsScrolled } }

/-- `loadScrollCounter`. -/
def loadScrollCounter (w : World) : World :=
  { w with t := { w.t with
      totalReelsScrolled := w.store.totalReelsScrolled.getD 0,
      scrolledReels := setOfArray (w.store.scrolledReels.getD []) } }

/-- The aggregate `loadDailyStats` builds on a new day. -/
def freshDailyStats (today : String) : DailyStats :=
  { date := today, watchTime := 0, reelsWatched := 0, reelsScrolled := 0 }

/-- `loadDailyStats`; `today` is `new Date().toDateString()`. -/
def loadDailyStats (w : World) (today : String) : World :=
  match w.store.dailyStats with
  | some d =>
    if d.date = today then { w with t := { w.t with dailyStats := some d } }
    else (saveDailyStats { w with t := { w.t with dailyStats := some (freshDailyStats today) } }).1
  | none => (saveDailyStats { w with t := { w.t with dailyStats := some (freshDailyStats today) } }).1

/-- `hideNotification`. -/
def hideNotification (w : World) : World :=
  match w.t.notificationElement with
  | some e => if e.attached then { w with t := { w.t with notificationElement := none } } else w
  | none => w

/-- The tail of every `show...` method: the new element becomes
`notificationElement` and is appended to `document.body`. -/
def present (w : World) (className : String) (content : Shown) : World :=
  { w with
    t := { w.t with
            notificationElement :=
              some { className := className, content := content, attached := true } },
    shown := w.shown ++ [content] }

/-- `showNotification` (the repeat-view notification). -/
def showNotification (w : World) (reelId : String) : World :=
  match mapGet w.t.watchedReels reelId with
  | none => w
  | some reelData =>
    if reelData.count < 3 || !w.t.settings.showNotifications then w
    else present (hideNotification w) "limit-alert" (Shown.repeatView reelId reelData.count)

/-- The `message` computed by `showScrollMilestoneNotification`. -/
def milestoneMessage (totalScrolled : Nat) : String :=
  if totalScrolled = 5 then "You've scrolled through 5 reels."
  else if totalScrolled = 10 then "You've viewed 10 reels today."
  else if totalScrolled = 20 then "You've scrolled through 20 reels."
  else if totalScrolled = 50 then "You've viewed 50 reels today."
  else if totalScrolled % 25 = 0 ∧ totalScrolled ≥ 25 then
    "You've scrolled through " ++ toString totalScrolled ++ " reels."
  else ""

/-- `showScrollMilestoneNotification`. -/
def showScrollMilestoneNotification (w : World) (totalScrolled : Nat) : World :=
  if milestoneMessage totalScrolled ≠ "" ∧ w.t.settings.showNotifications = true then
    present (hideNotification w) "scroll-milestone-notification"
      (Shown.scrollMilestone (milestoneMessage totalScrolled))
  else w

/-- `showPositiveReinforcement`. -/
def showPositiveReinforcement (w : World) (env : Env) : World :=
  if !w.t.settings.showNotifications then w
  else if (env.now : Int) - (w.t.lastPositiveNotification : Int) < 3600000 then w
  else
    present (hideNotification { w with t := { w.t with lastPositiveNotification := env.now } })
      "" (Shown.positiveReinforcement env.randomMessage)

/-- `showOccasionalEncouragement`; its caller has checked that `dailyStats`
is not null. -/
def showOccasionalEncouragement (w : World) (env : Env) : World :=
  if !w.t.settings.showNotifications then w
  else match w.t.dailyStats with
    | none => w
    | some d =>
      if d.reelsWatched > 0 ∧ d.reelsWatched % 25 = 0 ∧ env.randomGate = true then
        if (env.now : Int) - (w.t.lastPositiveNotification : Int) > 1800000 then
          showPositiveReinforcement w env
        else w
      else w

/-- `getNotificationInterval`. -/
def getNotificationInterval : Nat := 2500

/-- `setInterval` and `setTimeout`: the timer becomes pending under a new
positive handle, which is returned. -/
def setTimer (w : World) (kind : TimerKind) (delay : Nat) : World × Nat :=
  ({ w with
      timers := w.timers ++ [{ id := w.nextTimerId + 1, kind := kind, delay := delay }],
      nextTimerId := w.nextTimerId + 1 },
   w.nextTimerId + 1)

/-- `clearInterval` and `clearTimeout`. -/
def clearTimer (w : World) (id : Nat) : World :=
  { w with timers := w.timers.filter (fun tm => decide (tm.id ≠ id)) }

/-- `stopPeriodicAlerts`. -/
def stopPeriodicAlerts (w : World) : World :=
  let w1 : World :=
    match w.t.limitAlertInterval with
    | some id =>
      let w0 := clearTimer w id
      { w0 with t := { w0.t with limitAlertInterval := none } }
    | none => w
  hideNotification { w1 with t := { w1.t with isShowingLimitAlert := false } }

/-- `timeExceeded` as computed in `checkLimitsAndStartAlerts` and in
`showLimitAlert`. -/
def timeExceeded (s : Settings) (d : DailyStats) : Bool :=
  geLimit d.watchTime (s.timeLimit.map (fun m => m * 60 * 1000))

/-- `reelsExceeded` as computed in `checkLimitsAndStartAlerts` and in
`showLimitAlert`. -/
def reelsExceeded (s : Settings) (d : DailyStats) : Bool :=
  geLimit (d.reelsScrolled : Int) s.reelLimit

/-- `showLimitAlert`. -/
def showLimitAlert (w : World) : World :=
  if !w.t.settings.enableLimits || !w.t.settings.showNotifications then w
  else match w.t.dailyStats with
    | none => w
    | some d =>
      if !timeExceeded w.t.settings d && !reelsExceeded w.t.settings d then stopPeriodicAlerts w
      else
        let alert := Shown.limitExceeded (timeExceeded w.t.settings d) (reelsExceeded w.t.settings d)
        match w.t.notificationElement with
        | some e =>
          if e.className = "limit-alert" then w
          else present (hideNotification w) "limit-alert" alert
        | none => present w "limit-alert" alert

/-- `startPeriodicAlerts`. -/
def startPeriodicAlerts (w : World) : World :=
  if w.t.limitAlertInterval.isSome then w
  else
    let w1 : World := { w with t := { w.t with isShowingLimitAlert := true, limitAlertCount := 0 } }
    let w2 : World := (setTimer w1 TimerKind.limitAlert getNotificationInterval).1
    showLimitAlert { w2 with t := { w2.t with limitAlertInterval := some (w1.nextTimerId + 1) } }

/-- `checkLimitsAndStartAlerts`. -/
def checkLimitsAndStartAlerts (w : World) (env : Env) : World :=
  if !w.t.settings.enableLimits || !w.t.settings.showNotifications then w
  else match w.t.dailyStats with
    | none => w
    | some d =>
      if (match w.t.snoozeUntil with
          | some u => decide (u ≠ 0) && decide (env.now < u)
          | none => false) then w
      else
        let te := timeExceeded w.t.settings d
        let re := reelsExceeded w.t.settings d
        if (te || re) && !w.t.isShowingLimitAlert then startPeriodicAlerts w
        else if !te && !re && w.t.limitAlertInterval.isSome then
          showPositiveReinforcement (stopPeriodicAlerts w) env
        else if !te && !re then showOccasionalEncouragement w env
        else w

/-- `recordWatch`. -/
def recordWatch (w : World) (reelId : String) (duration : Int) (env : Env) : World :=
  if !w.t.settings.extensionEnabled then w
  else if duration < 1000 then w
  else match mapGet w.t.watchedReels reelId with
    | none => w
    | some reelData =>
      let reelData1 : ReelData :=
        { count := reelData.count + 1,
          lastWatched := some env.now,
          totalWatchTime := reelData.totalWatchTime + duration }
      let w1 : World :=
        { w with t := { w.t with watchedReels := mapSet w.t.watchedReels reelId reelData1 } }
      let w2 : World :=
        match w1.t.dailyStats with
        | some d =>
          let d1 : DailyStats :=
            { d with watchTime := d.watchTime + duration, reelsWatched := d.reelsWatched + 1 }
          (saveDailyStats { w1 with t := { w1.t with dailyStats := some d1 } }).1
        | none => w1
      let w3 : World := (saveWatchedReels w2).1
      let w4 : World := if reelData1.count ≥ 3 then showNotification w3 reelId else w3
      checkLimitsAndStartAlerts w4 env

/-- The `play` listener `handlePlay` of `addVideoListeners`. -/
def handlePlay (w : World) (s : Session) (env : Env) : World × Session :=
  if !w.t.settings.extensionEnabled then (w, s)
  else
    let s1 : Session := { s with playStartTime := some env.now, hasBeenCounted := false }
    let w1 : World := { w with t := { w.t with activeReel := some s.reelId } }
    if setHas w1.t.scrolledReels s.reelId then (w1, s1)
    else
      let w2 : World :=
        { w1 with t := { w1.t with
            scrolledReels := setAdd w1.t.scrolledReels s.reelId,
            totalReelsScrolled := w1.t.totalReelsScrolled + 1 } }
      let w3 : World :=
        match w2.t.dailyStats with
        | some d =>
          let d1 : DailyStats := { d with reelsScrolled := d.reelsScrolled + 1 }
          (saveDailyStats { w2 with t := { w2.t with dailyStats := some d1 } }).1
        | none => w2
      let w4 : World := saveScrollCounter w3
      let w5 : World := showScrollMilestoneNotification w4 w4.t.totalReelsScrolled
      (checkLimitsAndStartAlerts w5 env, s1)

/-- Settings after `loadSettings` with a one-minute time limit. -/
def sampleSettings : Settings :=
  { extensionEnabled := true, showNotifications := true, enableLimits := true,
    timeLimit := some 1, reelLimit := some 100 }

/-- An aggregate dated on the fourth of November. -/
def sampleDaily : DailyStats :=
  { date := "Wed Nov 04 2026", watchTime := 5000, reelsWatched := 2, reelsScrolled := 2 }

/-- An empty store. -/
def emptyStore : Store :=
  { watchedReels := none, totalReelsScrolled := none, scrolledReels := none, dailyStats := none,
    extensionEnabled := none, showNotifications := none, enableLimits := none,
    timeLimit := none, reelLimit := none }

/-- A tracker that follows reel `A` (never watched) and reel `B` (watched
`n` times). -/
def sampleTracker (n : Nat) : Tracker :=
  { watchedReels := [("A", { count := 0, lastWatched := none, totalWatchTime := 0 }),
                     ("B", { count := n, lastWatched := some 10, totalWatchTime := 2000 * n })],
    activeReel := none, notificationElement := none, settings := sampleSettings,
    totalReelsScrolled := 2, scrolledReels := ["A", "B"], dailyStats := some sampleDaily,
    limitAlertInterval := none, isShowingLimitAlert := false, snoozeUntil := none,
    snoozeTimeout := none, limitAlertCount := 0, lastPositiveNotification := 0,
    periodicCheckInterval := some 1, statusLogInterval := some 2 }

/-- The sample tracker over an empty store with working writes; the two
periodic timers of `startPeriodicChecks` are pending. -/
def sampleWorld (n : Nat) : World :=
  { t := sampleTracker n, store := emptyStore, shown := [], writeFails := false,
    timers := [{ id := 1, kind := TimerKind.periodicCheck, delay := 5000 },
               { id := 2, kind := TimerKind.statusLog, delay := 30000 }],
    nextTimerId := 2 }

/-- A reading of the environment. -/
def sampleEnv : Env := { now := 1000000, randomGate := false, randomMessage := 0 }

/-- The part of the state that no notification or scheduler method writes:
statistics, settings, scroll bookkeeping and the store. -/
structure Frame (w w1 : World) : Prop where
  watchedReels : w1.t.watchedReels = w.t.watchedReels
  dailyStats : w1.t.dailyStats = w.t.dailyStats
  settings : w1.t.settings = w.t.settings
  totalReelsScrolled : w1.t.totalReelsScrolled = w.t.totalReelsScrolled
  scrolledReels : w1.t.scrolledReels = w.t.scrolledReels
  activeReel : w1.t.activeReel = w.t.activeReel
  store : w1.store = w.store
  writeFails : w1.writeFails = w.writeFails

/-- From `w` to `w1` the document only gained elements, each satisfying `P`. -/
def Emits (P : Shown → Prop) (w w1 : World) : Prop :=
  ∃ l : List Shown, w1.shown = w.shown ++ l ∧ ∀ x ∈ l, P x

/-- The events of the limit-alert scheduler. -/
def IsSchedulerEvent : Shown → Prop
  | Shown.limitExceeded _ _ => True
  | Shown.positiveReinforcement _ => True
  | _ => False

/-- The entry `recordWatch` writes for a reel whose entry was `r`. -/
def committed (r : ReelData) (duration : Int) (now : Nat) : ReelData :=
  { count := r.count + 1, lastWatched := some now, totalWatchTime := r.totalWatchTime + duration }

/-- The aggregate `recordWatch` writes when the aggregate was `d`. -/
def committedDaily (d : DailyStats) (duration : Int) : DailyStats :=
  { d with watchTime := d.watchTime + duration, reelsWatched := d.reelsWatched + 1 }

/-- The state of `recordWatch` just before its repeat-view check, for a
counted watch of a tracked reel. -/
def afterSaves (w : World) (reelId : String) (duration : Int) (env : Env) (r : ReelData) :
    World :=
  let w1 : World :=
    { w with t := { w.t with
        watchedReels := mapSet w.t.watchedReels reelId (committed r duration env.now) } }
  let w2 : World :=
    match w1.t.dailyStats with
    | some d =>
      (saveDailyStats { w1 with t := { w1.t with
          dailyStats := some (committedDaily d duration) } }).1
    | none => w1
  (saveWatchedReels w2).1

/-- Commits, one after the other, on the same reel. -/
def commitAll (w : World) (reelId : String) : List (Int × Env) → World
  | [] => w
  | (duration, env) :: rest => commitAll (recordWatch w reelId duration env) reelId rest

/-- Whether an element is a repeat-view notification. -/
def isRepeatView : Shown → Bool
  | Shown.repeatView _ _ => true
  | _ => false

/-- Number of repeat-view notifications presented so far. -/
def repeatViews (w : World) : Nat := w.shown.countP isRepeatView

/-- A world whose store holds the aggregate of the fourth of November. -/
def storedWorld : World :=
  { sampleWorld 0 with
    t := { sampleTracker 0 with dailyStats := none },
    store := { emptyStore with dailyStats := some sampleDaily } }

/-- The milestone condition of the specification: 5, 10, 20, 50, or a
multiple of 25 from 25 upward. -/
def IsMilestone (n : Nat) : Prop :=
  n = 5 ∨ n = 10 ∨ n = 20 ∨ n = 50 ∨ (n % 25 = 0 ∧ 25 ≤ n)

instance (n : Nat) : Decidable (IsMilestone n) := by
  unfold IsMilestone
  infer_instance

/-- Play events, one after the other, each on its own session. -/
def playAll (w : World) : List (Session × Env) → World
  | [] => w
  | (s, env) :: rest => playAll (handlePlay w s env).1 rest

/-- The aggregate after one scroll event. -/
def scrolledDaily (d : DailyStats) : DailyStats :=
  { d with reelsScrolled := d.reelsScrolled + 1 }

/-- The sample tracker with a given daily watch time and snooze deadline. -/
def limitWorld (watchTime : Int) (snoozeUntil : Option Nat) : World :=
  { sampleWorld 0 with
    t := { sampleTracker 0 with
            dailyStats := some { sampleDaily with watchTime := watchTime },
            snoozeUntil := snoozeUntil } }

/-- `showSnoozeConfirmation`. -/
def showSnoozeConfirmation (w : World) (minutes : ℚ) : World :=
  present (hideNotification w) "" (Shown.snoozeStarted minutes)

/-- `showSnoozeEndedNotification`. -/
def showSnoozeEndedNotification (w : World) (minutes : ℚ) : World :=
  present (hideNotification w) "" (Shown.snoozeEnded minutes)

/-- The delay computed in `snoozeAlerts`:
`Math.max(1, Math.floor(minutes)) * 60 * 1000`. -/
def snoozeMs (minutes : ℚ) : Nat :=
  (max 1 (Rat.floor minutes)).toNat * 60 * 1000

/-- `snoozeAlerts`; the delay recorded in the timer is the argument given to
`setTimeout`. -/
def snoozeAlerts (w : World) (minutes : ℚ) (now : Nat) : World :=
  let w1 : World := stopPeriodicAlerts w
  let ms : Nat := snoozeMs minutes
  let w2 : World := { w1 with t := { w1.t with snoozeUntil := some (now + ms) } }
  let w3 : World :=
    match w2.t.snoozeTimeout with
    | some id =>
      let w0 := clearTimer w2 id
      { w0 with t := { w0.t with snoozeTimeout := none } }
    | none => w2
  let w4 : World := (setTimer w3 (TimerKind.snoozeResume minutes) ms).1
  showSnoozeConfirmation
    { w4 with t := { w4.t with snoozeTimeout := some (w3.nextTimerId + 1) } } minutes

/-- A pending timer of the tracker fires.  The resume timer of a snooze is
one-shot: it leaves the pending set and the callback of `snoozeAlerts` runs.
The repeat interval of the limit alert stays pending and runs
`limitAlertCount++; showLimitAlert()`.  The two periodic timers do not write
the tracker (the rescan they start is `checkForReels`). -/
def timerFires (w : World) (tm : Timer) (env : Env) : World :=
  if tm ∈ w.timers then
    match tm.kind with
    | TimerKind.snoozeResume minutes =>
      let w0 : World := { w with timers := w.timers.erase tm }
      let w1 : World := { w0 with t := { w0.t with snoozeTimeout := none, snoozeUntil := none } }
      showSnoozeEndedNotification (checkLimitsAndStartAlerts w1 env) minutes
    | TimerKind.limitAlert =>
      showLimitAlert { w with t := { w.t with limitAlertCount := w.t.limitAlertCount + 1 } }
    | TimerKind.periodicCheck => w
    | TimerKind.statusLog => w
  else w

/-- `startPeriodicChecks`. -/
def startPeriodicChecks (w : World) : World :=
  let w1 : World :=
    match w.t.periodicCheckInterval with
    | some id => clearTimer w id
    | none => w
  let w2 : World :=
    match w1.t.statusLogInterval with
    | some id => clearTimer w1 id
    | none => w1
  let w3 : World := (setTimer w2 TimerKind.periodicCheck 5000).1
  let w4 : World := { w3 with t := { w3.t with periodicCheckInterval := some (w2.nextTimerId + 1) } }
  let w5 : World := (setTimer w4 TimerKind.statusLog 30000).1
  { w5 with t := { w5.t with statusLogInterval := some (w4.nextTimerId + 1) } }

/-- The statements of `stopAllTracking` that follow the removal of the
listeners: the two periodic timers are cleared, `stopPeriodicAlerts` runs and
`activeReel` is reset. -/
def stopTrackerTimers (w : World) : World :=
  let w1 : World :=
    match w.t.periodicCheckInterval with
    | some id =>
      let w0 := clearTimer w id
      { w0 with t := { w0.t with periodicCheckInterval := none } }
    | none => w
  let w2 : World :=
    match w1.t.statusLogInterval with
    | some id =>
      let w0 := clearTimer w1 id
      { w0 with t := { w0.t with statusLogInterval := none } }
    | none => w1
  let w3 : World := stopPeriodicAlerts w2
  { w3 with t := { w3.t with activeReel := none } }

/-- Truthiness of `playStartTime` (`null` and `0` are falsy). -/
def truthyTime : Option Nat → Bool
  | some t => decide (t ≠ 0)
  | none => false

/-- The `pause` listener `handlePause` of `addVideoListeners`. -/
def handlePause (w : World) (s : Session) (env : Env) : World × Session :=
  if truthyTime s.playStartTime && !s.hasBeenCounted then
    (recordWatch w s.reelId ((env.now : Int) - ((s.playStartTime.getD 0 : Nat) : Int)) env,
     { s with hasBeenCounted := true, playStartTime := none })
  else (w, { s with playStartTime := none })

/-- The `ended` listener `handleEnded` of `addVideoListeners`. -/
def handleEnded (w : World) (s : Session) (env : Env) : World × Session :=
  if truthyTime s.playStartTime && !s.hasBeenCounted then
    (recordWatch w s.reelId ((env.now : Int) - ((s.playStartTime.getD 0 : Nat) : Int)) env,
     { s with hasBeenCounted := true, playStartTime := none })
  else (w, { s with playStartTime := none })

/-- The `visibilitychange` listener `handleVisibilityChange` of
`addVideoListeners`; `hidden` is `document.hidden`. -/
def handleVisibilityChange (w : World) (s : Session) (hidden : Bool) (env : Env) :
    World × Session :=
  if hidden && truthyTime s.playStartTime && !s.hasBeenCounted then
    (recordWatch w s.reelId ((env.now : Int) - ((s.playStartTime.getD 0 : Nat) : Int)) env,
     { s with hasBeenCounted := true, playStartTime := none })
  else (w, s)

/-- An entry point of the tracker: a listener of some session running on a
playback or visibility event, a direct call of `recordWatch` or
`checkLimitsAndStartAlerts`, a timer firing, a snooze, the timer part of
`stopAllTracking`, or `startPeriodicChecks`. -/
inductive Call where
  | play (s : Session)
  | pause (s : Session)
  | ended (s : Session)
  | visibilityChange (s : Session) (hidden : Bool)
  | recordWatch (reelId : String) (duration : Int)
  | checkLimits
  | timerFires (tm : Timer)
  | snooze (minutes : ℚ)
  | stopTimers
  | startChecks
deriving DecidableEq, Repr

/-- The tracker state after one call. -/
def step (w : World) (c : Call) (env : Env) : World :=
  match c with
  | Call.play s => (handlePlay w s env).1
  | Call.pause s => (handlePause w s env).1
  | Call.ended s => (handleEnded w s env).1
  | Call.visibilityChange s hidden => (handleVisibilityChange w s hidden env).1
  | Call.recordWatch reelId duration => recordWatch w reelId duration env
  | Call.checkLimits => checkLimitsAndStartAlerts w env
  | Call.timerFires tm => timerFires w tm env
  | Call.snooze minutes => snoozeAlerts w minutes env.now
  | Call.stopTimers => stopTrackerTimers w
  | Call.startChecks => startPeriodicChecks w

/-- The tracker state after a sequence of calls. -/
def run (w : World) : List (Call × Env) → World
  | [] => w
  | (c, env) :: rest => run (step w c env) rest

/-- Whether a call is a playback or visibility listener or a direct call of
`recordWatch`. -/
def Call.isTracking : Call → Bool
  | Call.play _ => true
  | Call.pause _ => true
  | Call.ended _ => true
  | Call.visibilityChange _ _ => true
  | Call.recordWatch _ _ => true
  | _ => false

/-- Whether an element is a positive-reinforcement notification. -/
def isPositive : Shown → Bool
  | Shown.positiveReinforcement _ => true
  | _ => false

/-- Number of positive-reinforcement notifications presented so far. -/
def positives (w : World) : Nat := w.shown.countP isPositive

/-- Whether an element is a snooze-ended notification. -/
def isSnoozeEnded : Shown → Bool
  | Shown.snoozeEnded _ => true
  | _ => false

/-- The clock readings of the calls of a sequence that presented a
positive-reinforcement notification, one per notification, in order. -/
def emissionTimes (w : World) : List (Call × Env) → List Nat
  | [] => []
  | (c, env) :: rest =>
    List.replicate (positives (step w c env) - positives w) env.now ++
      emissionTimes (step w c env) rest

/-- Whether a pending timer is the resume timer of a snooze. -/
def Timer.isSnoozeResume (tm : Timer) : Bool :=
  match tm.kind with
  | TimerKind.snoozeResume _ => true
  | _ => false

/-- Whether a pending timer is the repeat interval of the limit alert. -/
def Timer.isLimitAlert (tm : Timer) : Bool :=
  match tm.kind with
  | TimerKind.limitAlert => true
  | _ => false

/-- The part of the scheduler state that the notification methods and the
positive-reinforcement methods do not write: the alerting flag, the handles,
the alert counter, the snooze deadline and the pending timers. -/
structure AlertFrame (w w1 : World) : Prop where
  isShowingLimitAlert : w1.t.isShowingLimitAlert = w.t.isShowingLimitAlert
  limitAlertInterval : w1.t.limitAlertInterval = w.t.limitAlertInterval
  limitAlertCount : w1.t.limitAlertCount = w.t.limitAlertCount
  snoozeUntil : w1.t.snoozeUntil = w.t.snoozeUntil
  snoozeTimeout : w1.t.snoozeTimeout = w.t.snoozeTimeout
  periodicCheckInterval : w1.t.periodicCheckInterval = w.t.periodicCheckInterval
  statusLogInterval : w1.t.statusLogInterval = w.t.statusLogInterval
  timers : w1.timers = w.timers
  nextTimerId : w1.nextTimerId = w.nextTimerId

/-- The scheduler is in the state `Alerting`: the flag is set, the alert
counter is `count`, and the handle of a pending repeat interval of period
2500 ms is stored. -/
def Alerting (w : World) (count : Nat) : Prop :=
  w.t.isShowingLimitAlert = true ∧ w.t.limitAlertCount = count ∧
  ∃ id, w.t.limitAlertInterval = some id ∧
    ({ id := id, kind := TimerKind.limitAlert, delay := 2500 } : Timer) ∈ w.timers

/-- The state in which `startPeriodicAlerts` calls `showLimitAlert`: flag
set, counter reset, and a new repeat interval pending under the stored
handle. -/
def armedWorld (w : World) : World :=
  { w with
    t := { w.t with
            isShowingLimitAlert := true,
            limitAlertCount := 0,
            limitAlertInterval := some (w.nextTimerId + 1) },
    timers := w.timers ++
      [{ id := w.nextTimerId + 1, kind := TimerKind.limitAlert, delay := getNotificationInterval }],
    nextTimerId := w.nextTimerId + 1 }

/-- The sample tracker in `Alerting`: flag set, repeat interval pending under
handle 3, with the daily aggregate below both limits. -/
def alertingWorld : World :=
  { sampleWorld 0 with
    t := { sampleTracker 0 with limitAlertInterval := some 3, isShowingLimitAlert := true },
    timers := [{ id := 1, kind := TimerKind.periodicCheck, delay := 5000 },
               { id := 2, kind := TimerKind.statusLog, delay := 30000 },
               { id := 3, kind := TimerKind.limitAlert, delay := 2500 }],
    nextTimerId := 3 }

/-- A reading of the environment more than an hour after the epoch, with the
random gate open. -/
def lateEnv : Env := { now := 4000000, randomGate := true, randomMessage := 1 }

/-- From `w` to `w1` no positive-reinforcement element was presented and
`lastPositiveNotification` was not written. -/
def PosQuiet (w w1 : World) : Prop :=
  w1.t.lastPositiveNotification = w.t.lastPositiveNotification ∧ positives w1 = positives w

/-- From `w` to `w1`, at clock reading `now`, either nothing happened to the
positive-reinforcement bookkeeping, or exactly one element was presented, at
least an hour after the previous `lastPositiveNotification`, and `now` was
recorded. -/
def PosStep (now : Nat) (w w1 : World) : Prop :=
  PosQuiet w w1 ∨
  (w.t.lastPositiveNotification + 3600000 ≤ now ∧
    w1.t.lastPositiveNotification = now ∧ positives w1 = positives w + 1)

/-- The sample tracker after 25 reels watched today, `last` being the clock
reading of the last positive notification. -/
def encouragementWorld (last : Nat) : World :=
  { sampleWorld 0 with
    t := { sampleTracker 0 with
            dailyStats := some { sampleDaily with reelsWatched := 25 },
            lastPositiveNotification := last } }

/-- A reading of the environment 2,000,000 ms after the epoch (more than 30
and less than 60 minutes), with the random gate open. -/
def halfHourEnv : Env := { now := 2000000, randomGate := true, randomMessage := 2 }

/-- The pending resume timers of snoozes. -/
def snoozeTimers (w : World) : List Timer := w.timers.filter Timer.isSnoozeResume

/-- At most one resume timer is pending, and a pending one is the one whose
handle is stored in `snoozeTimeout`. -/
def SnoozeInv (w : World) : Prop :=
  (snoozeTimers w).length ≤ 1 ∧ ∀ tm ∈ snoozeTimers w, w.t.snoozeTimeout = some tm.id

/-- From `w` to `w1` the handle `snoozeTimeout` was not written and no resume
timer was armed. -/
def SnoozeKeep (w w1 : World) : Prop :=
  w1.t.snoozeTimeout = w.t.snoozeTimeout ∧ (snoozeTimers w1).Sublist (snoozeTimers w)

/-- The resume timer that `snoozeAlerts(minutes)` arms when called in `w`. -/
def resumeTimer (w : World) (minutes : ℚ) : Timer :=
  { id := w.nextTimerId + 1, kind := TimerKind.snoozeResume minutes, delay := snoozeMs minutes }

/-- The state in which the callback of the resume timer `tm` calls
`checkLimitsAndStartAlerts`: the timer is consumed and `snoozeTimeout` and
`snoozeUntil` are reset. -/
def resumedWorld (w : World) (tm : Timer) : World :=
  { w with
    t := { w.t with snoozeTimeout := none, snoozeUntil := none },
    timers := w.timers.erase tm }

/-- A `video` element of the document.  `info` is everything the detection
reads from the element and its surroundings (attributes, source and poster,
ancestors, bounding box); `tracked` is the presence of the attribute
`data-reel-tracked`; `attached` are the listener sets registered for the
element by `addVideoListeners` (its `play`, `pause` and `ended` listeners and
the `visibilitychange` listener on the document), each with the state of its
closure; `reelListeners` is the set the property `_reelListeners` refers to. -/
structure Video (E : Type) where
  info : E
  tracked : Bool
  reelListeners : Option Nat
  attached : List (Nat × Session)
deriving DecidableEq, Repr

/-- The queries of the detection on an element: whether the element matches
the descendant selector number `k` of `checkForReels` (1 to 7; selector 0 is
`video` and matches every element), `isReelVideo`, and `getReelId`. -/
structure Detector (E : Type) where
  matchesSelector : Nat → E → Bool
  isReelVideo : E → Bool
  getReelId : E → String

/-- The tracker with the `video` elements of the document, in document
order; `trackCalls` lists the elements (by position) that `trackReel` was
called on, in order. -/
structure Page (E : Type) where
  w : World
  doc : List (Video E)
  trackCalls : List Nat
  nextListenerId : Nat
deriving DecidableEq, Repr

/-- `addVideoListeners` on the element at position `i`: a new listener set
with a fresh closure state is registered and stored in `_reelListeners`. -/
def addVideoListeners {E : Type} (p : Page E) (i : Nat) (reelId : String) : Page E :=
  match p.doc[i]? with
  | none => p
  | some v =>
    { p with
      doc := p.doc.set i
        { v with
          attached := v.attached ++
            [(p.nextListenerId + 1,
              { reelId := reelId, playStartTime := none, hasBeenCounted := false })],
          reelListeners := some (p.nextListenerId + 1) },
      nextListenerId := p.nextListenerId + 1 }

/-- `trackReel` on the element at position `i`. -/
def trackReel {E : Type} (det : Detector E) (p : Page E) (i : Nat) : Page E :=
  match p.doc[i]? with
  | none => p
  | some v =>
    let p1 : Page E :=
      { p with doc := p.doc.set i { v with tracked := true }, trackCalls := p.trackCalls ++ [i] }
    let reelId := det.getReelId v.info
    if reelId ≠ "" then
      let w1 : World :=
        if (mapGet p1.w.t.watchedReels reelId).isNone then
          { p1.w with t := { p1.w.t with
              watchedReels := mapSet p1.w.t.watchedReels reelId
                { count := 0, lastWatched := none, totalWatchTime := 0 } } }
        else p1.w
      let w2 : World :=
        match mapGet w1.t.watchedReels reelId with
        | some reelData => if reelData.count ≥ 3 then showNotification w1 reelId else w1
        | none => w1
      addVideoListeners { p1 with w := w2 } i reelId
    else p1

/-- Whether the selector number `k` of `checkForReels` matches an element. -/
def selectorMatches {E : Type} (det : Detector E) (k : Nat) (e : E) : Bool :=
  if k = 0 then true else det.matchesSelector k e

/-- Whether the element at position `i` lies under `rootElement`: `none` is
the document, `some l` an element whose `video` descendants are at the
positions `l`. -/
def inRoot (root : Option (List Nat)) (i : Nat) : Bool :=
  match root with
  | none => true
  | some l => decide (i ∈ l)

/-- `rootElement.querySelectorAll(selector)` for the selector number `k`:
positions of the matching elements, in document order. -/
def querySelectorAll {E : Type} (det : Detector E) (p : Page E) (root : Option (List Nat))
    (k : Nat) : List Nat :=
  (List.range p.doc.length).filter (fun i =>
    inRoot root i &&
      match p.doc[i]? with
      | some v => selectorMatches det k v.info
      | none => false)

/-- The body of the `forEach` over the elements a selector returned; the
second component is `foundVideos`. -/
def scanVideo {E : Type} (det : Detector E) (st : Page E × Nat) (i : Nat) : Page E × Nat :=
  match st.1.doc[i]? with
  | some v =>
    if !v.tracked && det.isReelVideo v.info then (trackReel det st.1 i, st.2 + 1) else st
  | none => st

/-- `checkForReels(rootElement)`: the eight selectors in order, then the
fallback over all `video` elements when the root is the document and nothing
was found. -/
def checkForReels {E : Type} (det : Detector E) (p : Page E) (root : Option (List Nat)) :
    Page E :=
  let st : Page E × Nat :=
    (List.range 8).foldl
      (fun st k => (querySelectorAll det st.1 root k).foldl (scanVideo det) st) (p, 0)
  if root.isNone && st.2 = 0 then
    ((querySelectorAll det st.1 none 0).foldl (scanVideo det) st).1
  else st.1

/-- The loop of `stopAllTracking` on one element carrying `data-reel-tracked`:
the listeners stored in `_reelListeners` are removed and the property is
reset. -/
def detachListeners {E : Type} (v : Video E) : Video E :=
  if v.tracked then
    match v.reelListeners with
    | some l =>
      { v with attached := v.attached.filter (fun a => decide (a.1 ≠ l)), reelListeners := none }
    | none => v
  else v

/-- `stopAllTracking`. -/
def stopAllTracking {E : Type} (p : Page E) : Page E :=
  { p with doc := p.doc.map detachListeners, w := stopTrackerTimers p.w }

/-- `restartTracking`. -/
def restartTracking {E : Type} (det : Detector E) (p : Page E) : Page E :=
  checkForReels det { p with w := startPeriodicChecks p.w } none

/-- The handler of the message `toggleExtension` in `setupMessageListener`. -/
def toggleExtension {E : Type} (det : Detector E) (p : Page E) (data : Bool) : Page E :=
  let p1 : Page E :=
    { p with w := { p.w with t := { p.w.t with
        settings := { p.w.t.settings with extensionEnabled := data } } } }
  if !data then
    let p2 := stopAllTracking p1
    { p2 with w := hideNotification p2.w }
  else restartTracking det p1

/-- A detector that takes every element for a reel and resolves it to the
identity stored in `info`. -/
def sampleDetector : Detector String :=
  { matchesSelector := fun _ _ => true, isReelVideo := fun _ => true, getReelId := fun e => e }

/-- A page with one untracked `video` element, resolving to reel `A`. -/
def samplePage (w : World) : Page String :=
  { w := w,
    doc := [{ info := "A", tracked := false, reelListeners := none, attached := [] }],
    trackCalls := [], nextListenerId := 0 }

/-- The sample page after a scan, with 61000 ms watched against a one-minute
limit, snoozed for 30 minutes at 1,000,000 ms and then disabled through the
popup. -/
def disabledSnoozedPage : Page String :=
  toggleExtension sampleDetector
    { checkForReels sampleDetector (samplePage (limitWorld 61000 none)) none with
      w := snoozeAlerts
        (checkForReels sampleDetector (samplePage (limitWorld 61000 none)) none).w 30 1000000 }
    false

/-- The sample tracker with the extension disabled. -/
def disabledWorld : World :=
  { sampleWorld 0 with
    t := { sampleTracker 0 with
            settings := { sampleSettings with extensionEnabled := false } } }

/-- A session of reel `C` (not yet scrolled) that started playing at
1,000 ms. -/
def playingSession : Session :=
  { reelId := "C", playStartTime := some 1000, hasBeenCounted := false }

/-- Every candidate element at position `i` carries `data-reel-tracked`. -/
def SettledAt {E : Type} (det : Detector E) (p : Page E) (i : Nat) : Prop :=
  ∀ v, p.doc[i]? = some v → det.isReelVideo v.info = true → v.tracked = true

/-- Relation between the page `p0` a scan started from and the page `p` it
has reached: the elements are the same, none lost its tag, and `trackReel`
was called on pairwise different elements, each a candidate that was
untagged in `p0` and is tagged in `p`. -/
structure ScanInv {E : Type} (det : Detector E) (p0 p : Page E) : Prop where
  length : p.doc.length = p0.doc.length
  info : ∀ (j : Nat) (v0 : Video E), p0.doc[j]? = some v0 →
    ∃ v : Video E, p.doc[j]? = some v ∧ v.info = v0.info ∧
      (v0.tracked = true → v.tracked = true)
  calls : ∃ new : List Nat, p.trackCalls = p0.trackCalls ++ new ∧ new.Nodup ∧
    ∀ i ∈ new,
      (∃ v0 : Video E, p0.doc[i]? = some v0 ∧ v0.tracked = false ∧
        det.isReelVideo v0.info = true) ∧
      (∃ v : Video E, p.doc[i]? = some v ∧ v.tracked = true)

/-- One selector pass of `checkForReels`: the elements the selector number `k`
returns are visited in order. -/
def selectorPass {E : Type} (det : Detector E) (root : Option (List Nat))
    (st : Page E × Nat) (k : Nat) : Page E × Nat :=
  (querySelectorAll det st.1 root k).foldl (scanVideo det) st

/-- `haystack.includes(needle)` on lists of characters. -/
def listIncludes (needle : List Char) : List Char → Bool
  | [] => needle.isEmpty
  | c :: cs => needle.isPrefixOf (c :: cs) || listIncludes needle cs

/-- `haystack.includes(needle)`. -/
def includes (haystack needle : String) : Bool :=
  listIncludes needle.toList haystack.toList

/-- Truthiness of an attribute value or string (`null` and `''` are falsy). -/
def truthyString : Option String → Option String
  | some s => if s = "" then none else some s
  | none => none

/-- First capture group of `text.match(/<literal>([^\/?]+)/)`: the leftmost
occurrence of `literal` that is followed by at least one character other than
`/` and `?`, and the longest run of such characters after it. -/
def regexCapture (literal : List Char) : List Char → Option (List Char)
  | [] => none
  | c :: cs =>
    if literal.isPrefixOf (c :: cs) then
      let cap := ((c :: cs).drop literal.length).takeWhile (fun ch => ch ≠ '/' ∧ ch ≠ '?')
      if cap ≠ [] then some cap else regexCapture literal cs
    else regexCapture literal cs

/-- `href.match(/\/reel\/([^\/?]+)/)`, first group. -/
def matchReelPath (href : String) : Option String :=
  (regexCapture "/reel/".toList href.toList).map String.mk

/-- `href.match(/\/p\/([^\/?]+)/)`, first group. -/
def matchPostPath (href : String) : Option String :=
  (regexCapture "/p/".toList href.toList).map String.mk

/-- `text.split(sep)` on lists of characters, for a one-character separator. -/
def splitOnChar (sep : Char) : List Char → List (List Char)
  | [] => [[]]
  | c :: cs =>
    if c = sep then [] :: splitOnChar sep cs
    else
      match splitOnChar sep cs with
      | [] => [[c]]
      | seg :: rest => (c :: seg) :: rest

/-- `pathname.split('/').filter(p => p)`. -/
def pathParts (pathname : String) : List String :=
  ((splitOnChar '/' pathname.toList).filter (fun seg => seg ≠ [])).map String.mk

/-- `src.split('?')[0]`. -/
def beforeQuery (src : String) : String :=
  String.mk (src.toList.takeWhile (fun ch => ch ≠ '?'))

/-- The base64 alphabet. -/
def b64Alphabet : List Char :=
  "ABCDEFGHIJKLMNOPQRSTUVWXYZabcdefghijklmnopqrstuvwxyz0123456789+/".toList

/-- The base64 digit of a 6-bit value. -/
def b64Char (n : Nat) : Char := b64Alphabet.getD n 'A'

/-- Base64 encoding of a list of bytes, with padding. -/
def b64Encode : List Nat → List Char
  | [] => []
  | [a] => [b64Char (a / 4), b64Char (a % 4 * 16), '=', '=']
  | [a, b] => [b64Char (a / 4), b64Char (a % 4 * 16 + b / 16), b64Char (b % 16 * 4), '=']
  | a :: b :: c :: rest =>
    b64Char (a / 4) :: b64Char (a % 4 * 16 + b / 16) :: b64Char (b % 16 * 4 + c / 64) ::
      b64Char (c % 64) :: b64Encode rest

/-- Whether every character of a string has a code of at most 255. -/
def isLatin1 (s : String) : Bool := s.toList.all (fun ch => decide (ch.toNat ≤ 255))

/-- `btoa(s)`: the base64 encoding of the character codes; it throws
`InvalidCharacterError` when a character code exceeds 255. -/
def btoa (s : String) : Except String String :=
  if isLatin1 s then Except.ok (String.mk (b64Encode (s.toList.map Char.toNat)))
  else Except.error "InvalidCharacterError"

/-- `array.join('|')`. -/
def joinBar : List String → String
  | [] => ""
  | [s] => s
  | s :: rest => s ++ "|" ++ joinBar rest

/-- `btoa(props).substring(0, 16)`. -/
def stableId (props : String) : Except String String :=
  (btoa props).map (fun s => String.mk (s.toList.take 16))

/-- `Math.round(x)`. -/
def jsRound (x : ℚ) : Int := Rat.floor (x + 1 / 2)

/-- An element on the path from a `video` element to the root: its tag name
(lower case), the attributes the detection reads (`role`, `data-testid`, `id`,
`data-id`, `data-media-id`, `data-visualcompletion`), its classes, and the
`href` of each `a[href]` element below it, in document order. -/
structure Node where
  tag : String
  role : Option String
  testid : Option String
  classes : List String
  idAttr : Option String
  dataId : Option String
  dataMediaId : Option String
  visualCompletion : Option String
  hrefs : List String
deriving DecidableEq, Repr

/-- What the detection reads from a `video` element: the element itself and
its ancestors (innermost first), the properties `src` and `poster`, the
presence of the two inline-playback attributes, the attribute `data-video-id`
and the bounding box.  Lengths are exact rationals. -/
structure ElementInfo where
  self : Node
  ancestors : List Node
  src : String
  poster : String
  playsinline : Bool
  webkitPlaysinline : Bool
  dataVideoId : Option String
  rectTop : ℚ
  rectLeft : ℚ
  rectWidth : ℚ
  rectHeight : ℚ
deriving DecidableEq, Repr

/-- A parsed URL: `pathname` and `search`. -/
structure Url where
  pathname : String
  search : String
deriving DecidableEq, Repr

/-- The URL functions of the browser: `new URL(s)` (`none` when it throws)
and `new URLSearchParams(search).get(name)`. -/
structure Browser where
  parseUrl : String → Option Url
  searchParam : String → String → Option String

/-- `element.closest(selector)` for a selector given as a test on one
element. -/
def closest (e : ElementInfo) (sel : Node → Bool) : Option Node :=
  (e.self :: e.ancestors).find? sel

/-- The selector `article`. -/
def isArticle (n : Node) : Bool := decide (n.tag = "article")

/-- The selector `[role="presentation"]`. -/
def isPresentation (n : Node) : Bool := decide (n.role = some "presentation")

/-- The selector `div`. -/
def isDiv (n : Node) : Bool := decide (n.tag = "div")

/-- The selector `[data-testid]`. -/
def hasTestid (n : Node) : Bool := n.testid.isSome

/-- The selector `[data-testid*="<part>"]`. -/
def testidIncludes (part : String) (n : Node) : Bool :=
  match n.testid with
  | some t => includes t part
  | none => false

/-- The selector `.x1lliihq`. -/
def hasInstagramClass (n : Node) : Bool := decide ("x1lliihq" ∈ n.classes)

/-- `a || b` on the results of `closest`. -/
def orElseNode (a b : Option Node) : Option Node :=
  match a with
  | some n => some n
  | none => b

/-- `isVisible` of `isReelVideo`. -/
def isVisible (e : ElementInfo) : Bool :=
  decide (0 < e.rectWidth) && decide (0 < e.rectHeight)

/-- `hasInstagramSrc` of `isReelVideo`. -/
def hasInstagramSrc (e : ElementInfo) : Bool :=
  decide (e.src ≠ "") &&
    (includes e.src "instagram.com" || includes e.src "cdninstagram.com" ||
      includes e.src "fbcdn.net")

/-- `hasReelContainer` of `isReelVideo`. -/
def hasReelContainer (e : ElementInfo) : Bool :=
  (closest e (testidIncludes "reel")).isSome || (closest e isArticle).isSome ||
    (closest e isPresentation).isSome || (closest e (testidIncludes "media")).isSome ||
    (closest e hasInstagramClass).isSome

/-- `hasInstagramAttributes` of `isReelVideo`. -/
def hasInstagramAttributes (e : ElementInfo) : Bool :=
  e.playsinline || e.webkitPlaysinline || (closest e (testidIncludes "video")).isSome

/-- `aspectRatio` of `isReelVideo`. -/
def aspectRatio (e : ElementInfo) : ℚ :=
  if 0 < e.rectWidth then e.rectHeight / e.rectWidth else 0

/-- `isReelSize` of `isReelVideo`; the bounds 1.2, 0.8 and 1.3 are taken as
the rationals 6/5, 4/5 and 13/10. -/
def isReelSize (e : ElementInfo) : Bool :=
  decide (aspectRatio e > 6 / 5) ||
    (decide (aspectRatio e > 4 / 5) && decide (aspectRatio e < 13 / 10))

/-- `isReelVideo`. -/
def isReelVideo (e : ElementInfo) : Bool :=
  isVisible e &&
    (hasInstagramSrc e || hasReelContainer e || hasInstagramAttributes e || isReelSize e)

/-- The loop over `a[href]` links of Method 1 of `getReelId`: the first link
whose `href` contains `/p/` and matches the post pattern. -/
def firstPostPath : List String → Option String
  | [] => none
  | href :: rest =>
    if decide (href ≠ "") && includes href "/p/" then
      match matchPostPath href with
      | some id => some id
      | none => firstPostPath rest
    else firstPostPath rest

/-- Method 1 of `getReelId`: URL patterns in the links of the container. -/
def idFromLinks (e : ElementInfo) : Option String :=
  match orElseNode (closest e isArticle)
      (orElseNode (closest e isPresentation) (closest e (testidIncludes "reel"))) with
  | none => none
  | some container =>
    let fromReelLink : Option String :=
      match (container.hrefs.filter (fun h => includes h "/reel/")).head? with
      | some href => matchReelPath href
      | none => none
    match fromReelLink with
    | some id => some id
    | none => firstPostPath container.hrefs

/-- Method 2 of `getReelId`: the `data-testid` of the closest element that
has one. -/
def idFromTestid (e : ElementInfo) : Option String :=
  match closest e hasTestid with
  | none => none
  | some container =>
    match truthyString container.testid with
    | some testId => if includes testId "reel" || includes testId "video" then some testId else none
    | none => none

/-- The path segment that follows the first segment `reel`, if there is
one. -/
def afterReelSegment : List String → Option String
  | [] => none
  | part :: rest => if part = "reel" then truthyString rest.head? else afterReelSegment rest

/-- Method 3 of `getReelId`: the video source URL. -/
def idFromSrc (br : Browser) (e : ElementInfo) : Option String :=
  if decide (e.src ≠ "") && includes e.src "instagram.com" then
    match br.parseUrl e.src with
    | none => none
    | some url =>
      match afterReelSegment (pathParts url.pathname) with
      | some id => some id
      | none =>
        match truthyString (br.searchParam url.search "media_id") with
        | some id => some id
        | none => truthyString (br.searchParam url.search "id")
  else none

/-- `pathParts[pathParts.length - 2] || pathParts[pathParts.length - 1]`. -/
def posterSegment (parts : List String) : Option String :=
  match truthyString (if 2 ≤ parts.length then parts[parts.length - 2]? else none) with
  | some id => some id
  | none => parts[parts.length - 1]?

/-- Method 4 of `getReelId`: the poster URL. -/
def idFromPoster (br : Browser) (e : ElementInfo) : Option String :=
  if decide (e.poster ≠ "") && includes e.poster "instagram.com" then
    match br.parseUrl e.poster with
    | none => none
    | some url =>
      if (pathParts url.pathname).length > 0 then posterSegment (pathParts url.pathname)
      else none
  else none

/-- Method 5 of `getReelId`: the attributes of the container. -/
def idFromContainer (e : ElementInfo) : Option String :=
  match orElseNode (closest e isArticle)
      (orElseNode (closest e isPresentation) (closest e isDiv)) with
  | none => none
  | some container =>
    match truthyString container.idAttr with
    | some id => some id
    | none =>
      match truthyString container.dataId with
      | some id => some id
      | none => truthyString container.dataMediaId

/-- `videoProps` of Method 6 of `getReelId`, after `filter(Boolean)`. -/
def videoProps (e : ElementInfo) : List String :=
  [truthyString (some (beforeQuery e.src)), truthyString (some e.poster),
   truthyString e.dataVideoId, truthyString e.self.dataMediaId].filterMap id

/-- Method 7 of `getReelId`: the position string. -/
def positionId (e : ElementInfo) : String :=
  "pos_" ++ toString (jsRound e.rectTop) ++ "_" ++ toString (jsRound e.rectLeft) ++ "_" ++
    toString (jsRound e.rectWidth) ++ "_" ++ toString (jsRound e.rectHeight)

/-- Methods 6 and 7 of `getReelId`: the generated id when there is a video
property, else the position string. -/
def generatedId (e : ElementInfo) : Except String String :=
  if (videoProps e).length > 0 then stableId (joinBar (videoProps e))
  else Except.ok (positionId e)

/-- `getReelId`: the first method that yields an id; an error is an exception
that leaves the function. -/
def getReelId (br : Browser) (e : ElementInfo) : Except String String :=
  match idFromLinks e with
  | some id => Except.ok id
  | none =>
    match idFromTestid e with
    | some id => Except.ok id
    | none =>
      match idFromSrc br e with
      | some id => Except.ok id
      | none =>
        match idFromPoster br e with
        | some id => Except.ok id
        | none =>
          match idFromContainer e with
          | some id => Except.ok id
          | none => generatedId e

/-- Whether the descendant selector number `k` of `checkForReels` (1 to 7)
matches a `video` element with the given ancestors. -/
def matchesDescendantSelector (k : Nat) (e : ElementInfo) : Bool :=
  match k with
  | 1 => e.ancestors.any isArticle
  | 2 => e.ancestors.any isPresentation
  | 3 => e.ancestors.any (testidIncludes "reel")
  | 4 => e.ancestors.any (testidIncludes "video")
  | 5 => e.ancestors.any (fun n => isDiv n && decide (n.role = some "button"))
  | 6 => e.ancestors.any hasInstagramClass
  | 7 => e.ancestors.any (fun n => decide (n.visualCompletion = some "media-vc"))
  | _ => false

/-- The detection of the content script as a `Detector`.  An exception of
`getReelId` is caught by `trackReel`, which then does nothing more with the
element, as for an empty id. -/
def reelDetector (br : Browser) : Detector ElementInfo :=
  { matchesSelector := matchesDescendantSelector,
    isReelVideo := isReelVideo,
    getReelId := fun e =>
      match getReelId br e with
      | Except.ok id => id
      | Except.error _ => "" }

/-- A node with a tag and nothing else. -/
def plainNode (tag : String) : Node :=
  { tag := tag, role := none, testid := none, classes := [], idAttr := none, dataId := none,
    dataMediaId := none, visualCompletion := none, hrefs := [] }

/-- A `video` element directly under `body`, with the given source, poster,
`data-video-id` and size, at the origin. -/
def bareVideo (src poster : String) (dataVideoId : Option String) (width height : ℚ) :
    ElementInfo :=
  { self := plainNode "video", ancestors := [plainNode "body", plainNode "html"],
    src := src, poster := poster, playsinline := false, webkitPlaysinline := false,
    dataVideoId := dataVideoId, rectTop := 0, rectLeft := 0, rectWidth := width,
    rectHeight := height }

/-- A browser whose URL parser accepts nothing. -/
def noUrlBrowser : Browser :=
  { parseUrl := fun _ => none, searchParam := fun _ _ => none }

/-- What `clearAllData` of the popup reads from its form: the three
checkboxes and `parseInt` of the two limit inputs (`none` is `NaN`). -/
structure PopupForm where
  extensionEnabled : Bool
  showNotifications : Bool
  enableLimits : Bool
  timeLimitInput : Option Int
  reelLimitInput : Option Int
deriving DecidableEq, Repr

/-- Truthiness of a number (`undefined`, `NaN` and `0` are falsy). -/
def truthyInt : Option Int → Option Int
  | some n => if n = 0 then none else some n
  | none => none

/-- `stored || parsed || fallback` on numbers. -/
def limitOr (stored parsed : Option Int) (fallback : Int) : Int :=
  match truthyInt stored with
  | some n => n
  | none =>
    match truthyInt parsed with
    | some n => n
    | none => fallback

/-- `clearAllData` of the popup on the store; `today` is
`new Date().toDateString()`.  When the store rejects writes, `clear()` throws
and nothing is changed. -/
def clearAllData (store : Store) (writeFails : Bool) (form : PopupForm) (today : String) :
    Store :=
  if writeFails then store
  else
    { watchedReels := none,
      totalReelsScrolled := some 0,
      scrolledReels := some [],
      dailyStats := some { date := today, watchTime := 0, reelsWatched := 0, reelsScrolled := 0 },
      extensionEnabled := some form.extensionEnabled,
      showNotifications := some form.showNotifications,
      enableLimits := some form.enableLimits,
      timeLimit := some (limitOr store.timeLimit form.timeLimitInput 60),
      reelLimit := some (limitOr store.reelLimit form.reelLimitInput 100) }

/-- An event delivered to the listeners of one `addVideoListeners` call:
`play`, `pause` or `ended` on the element, or `visibilitychange` on the
document (`hidden` is `document.hidden`). -/
inductive PlaybackEvent where
  | play
  | pause
  | ended
  | visibilityChange (hidden : Bool)
deriving DecidableEq, Repr

/-- The listener of `addVideoListeners` that runs on an event. -/
def listener (w : World) (s : Session) (ev : PlaybackEvent) (env : Env) : World × Session :=
  match ev with
  | PlaybackEvent.play => handlePlay w s env
  | PlaybackEvent.pause => handlePause w s env
  | PlaybackEvent.ended => handleEnded w s env
  | PlaybackEvent.visibilityChange hidden => handleVisibilityChange w s hidden env

/-- The `duration` argument of the `recordWatch` call that the listener makes
on an event, if it makes one. -/
def recordWatchCall (s : Session) (ev : PlaybackEvent) (env : Env) : Option Int :=
  match ev with
  | PlaybackEvent.play => none
  | PlaybackEvent.pause =>
    if truthyTime s.playStartTime && !s.hasBeenCounted then
      some ((env.now : Int) - ((s.playStartTime.getD 0 : Nat) : Int))
    else none
  | PlaybackEvent.ended =>
    if truthyTime s.playStartTime && !s.hasBeenCounted then
      some ((env.now : Int) - ((s.playStartTime.getD 0 : Nat) : Int))
    else none
  | PlaybackEvent.visibilityChange hidden =>
    if hidden && truthyTime s.playStartTime && !s.hasBeenCounted then
      some ((env.now : Int) - ((s.playStartTime.getD 0 : Nat) : Int))
    else none

/-- The listeners of one element run on a sequence of events; the second
component lists the durations of the `recordWatch` calls made, in order. -/
def playback (w : World) (s : Session) : List (PlaybackEvent × Env) → (World × Session) × List Int
  | [] => ((w, s), [])
  | (ev, env) :: rest =>
    let out := playback (listener w s ev env).1 (listener w s ev env).2 rest
    (out.1, (recordWatchCall s ev env).toList ++ out.2)

/-- Whether an event ends a play: `pause`, `ended`, or `visibilitychange` with
the document hidden. -/
def PlaybackEvent.isTerminating : PlaybackEvent → Bool
  | PlaybackEvent.pause => true
  | PlaybackEvent.ended => true
  | PlaybackEvent.visibilityChange hidden => hidden
  | PlaybackEvent.play => false

/-- A call into the scheduler: one of the calls of `Call`, or a direct call of
`startPeriodicAlerts`, `stopPeriodicAlerts` or `showLimitAlert`. -/
inductive SchedulerCall where
  | call (c : Call)
  | startAlerts
  | stopAlerts
  | showAlert
deriving DecidableEq, Repr

/-- The tracker state after one scheduler call. -/
def schedulerStep (w : World) (c : SchedulerCall) (env : Env) : World :=
  match c with
  | SchedulerCall.call c => step w c env
  | SchedulerCall.startAlerts => startPeriodicAlerts w
  | SchedulerCall.stopAlerts => stopPeriodicAlerts w
  | SchedulerCall.showAlert => showLimitAlert w

/-- The tracker state after a sequence of scheduler calls. -/
def schedulerRun (w : World) : List (SchedulerCall × Env) → World
  | [] => w
  | (c, env) :: rest => schedulerRun (schedulerStep w c env) rest

/-- The pending repeat intervals of the limit alert. -/
def limitTimers (w : World) : List Timer := w.timers.filter Timer.isLimitAlert

/-- The alerting flag is set exactly when an interval handle is stored, at
most one repeat interval is pending, and a pending one is the one whose
handle is stored. -/
def AlertInv (w : World) : Prop :=
  (w.t.isShowingLimitAlert = true ↔ w.t.limitAlertInterval.isSome = true) ∧
  (limitTimers w).length ≤ 1 ∧
  ∀ tm ∈ limitTimers w, w.t.limitAlertInterval = some tm.id

/-- The same tracker over another store. -/
def withStore (w : World) (store : Store) (writeFails : Bool) : World :=
  { w with store := store, writeFails := writeFails }

/-- A browser that parses the one poster URL of the sample element. -/
def sampleBrowser : Browser :=
  { parseUrl := fun s =>
      if s = "https://www.instagram.com/media/abc123/thumb.jpg" then
        some { pathname := "/media/abc123/thumb.jpg", search := "" }
      else if s = "https://www.instagram.com/thumb.jpg" then
        some { pathname := "/thumb.jpg", search := "" }
      else none,
    searchParam := fun _ _ => none }

/-- Equality of results of `getReelId` is decidable. -/
instance instDecidableEqExceptString : DecidableEq (Except String String) :=
  fun a b =>
    match a, b with
    | Except.ok x, Except.ok y =>
      if h : x = y then isTrue (congrArg Except.ok h)
      else isFalse (fun h2 => h (Except.ok.inj h2))
    | Except.error x, Except.error y =>
      if h : x = y then isTrue (congrArg Except.error h)
      else isFalse (fun h2 => h (Except.error.inj h2))
    | Except.ok _, Except.error _ => isFalse (fun h => Except.noConfusion h)
    | Except.error _, Except.ok _ => isFalse (fun h => Except.noConfusion h)

/-- The in-memory writes of a counted `recordWatch` on a tracked reel, without
the two saves. -/
def commitCore (w : World) (reelId : String) (duration : Int) (env : Env) (r : ReelData) :
    World :=
  { w with t := { w.t with
      watchedReels := mapSet w.t.watchedReels reelId (committed r duration env.now),
      dailyStats := w.t.dailyStats.map (fun d => committedDaily d duration) } }

/-- Two states have the same memory: they differ at most in the store and in
whether it accepts writes. -/
def SameMemory (w1 w2 : World) : Prop :=
  w1.t = w2.t ∧ w1.shown = w2.shown ∧ w1.timers = w2.timers ∧ w1.nextTimerId = w2.nextTimerId

/-- The reel and the duration of the `recordWatch` call that a call into the
tracker makes, if it makes one. -/
def commitOf (c : Call) (env : Env) : Option (String × Int) :=
  match c with
  | Call.pause s => (recordWatchCall s PlaybackEvent.pause env).map (fun d => (s.reelId, d))
  | Call.ended s => (recordWatchCall s PlaybackEvent.ended env).map (fun d => (s.reelId, d))
  | Call.visibilityChange s hidden =>
    (recordWatchCall s (PlaybackEvent.visibilityChange hidden) env).map (fun d => (s.reelId, d))
  | Call.recordWatch reelId duration => some (reelId, duration)
  | _ => none

/-- Every entry of `watchedReels` in `p` is still there, unchanged, in `p1`. -/
def KeepsRecords {E : Type} (p p1 : Page E) : Prop :=
  ∀ (id : String) (r : ReelData), mapGet p.w.t.watchedReels id = some r →
    mapGet p1.w.t.watchedReels id = some r

/-- A store with limits of 45 minutes and 80 reels and one watched reel. -/
def usedStore : Store :=
  { watchedReels := some [("B", { count := 4, lastWatched := some 10, totalWatchTime := 8000 })],
    totalReelsScrolled := some 7,
    scrolledReels := some ["A", "B"],
    dailyStats := some sampleDaily,
    extensionEnabled := some true,
    showNotifications := some true,
    enableLimits := some true,
    timeLimit := some 45,
    reelLimit := some 80 }

/-- A popup form whose limit inputs read 60 and 100. -/
def sampleForm : PopupForm :=
  { extensionEnabled := true, showNotifications := true, enableLimits := true,
    timeLimitInput := some 60, reelLimitInput := some 100 }

/-- The `recordWatch` durations expected after a play at `playedAt` followed
by the events `seg`, none of which is a play: one, at the first terminating
event, with the time since the play (none after a play at clock reading 0,
which leaves `playStartTime` falsy). -/
def expectedCommits (playedAt : Nat) (seg : List (PlaybackEvent × Env)) : List Int :=
  match seg.find? (fun e => e.1.isTerminating) with
  | some e => if playedAt = 0 then [] else [(e.2.now : Int) - (playedAt : Int)]
  | none => []

/-- A pause five seconds after `sampleEnv`, an ended and a visibility change
to hidden after it. -/
def sampleSegment : List (PlaybackEvent × Env) :=
  [(PlaybackEvent.visibilityChange false, { sampleEnv with now := 1002000 }),
   (PlaybackEvent.pause, { sampleEnv with now := 1005000 }),
   (PlaybackEvent.ended, { sampleEnv with now := 1006000 }),
   (PlaybackEvent.visibilityChange true, { sampleEnv with now := 1007000 })]

/-- The sample tracker with the daily watch time over the one-minute limit,
not alerting, and one notification element on the page. -/
def showingWorld (className : String) (content : Shown) : World :=
  { limitWorld 61000 none with
    t := { (limitWorld 61000 none).t with
            notificationElement :=
              some { className := className, content := content, attached := true } },
    shown := [content] }

/-- From `w` to `w1` the alerting flag and the interval handle were not
written and no repeat interval was armed. -/
def AlertKeep (w w1 : World) : Prop :=
  w1.t.isShowingLimitAlert = w.t.isShowingLimitAlert ∧
  w1.t.limitAlertInterval = w.t.limitAlertInterval ∧
  (limitTimers w1).Sublist (limitTimers w)

/-- The scheduler as the constructor leaves it; watch time 61000 ms is over
the one-minute limit. -/
def sampleCalls : List (SchedulerCall × Env) :=
  [(SchedulerCall.call Call.checkLimits, sampleEnv),
   (SchedulerCall.startAlerts, sampleEnv),
   (SchedulerCall.call (Call.timerFires { id := 3, kind := TimerKind.limitAlert, delay := 2500 }),
     sampleEnv),
   (SchedulerCall.call (Call.snooze 1), sampleEnv),
   (SchedulerCall.call (Call.timerFires
      { id := 4, kind := TimerKind.snoozeResume 1, delay := 60000 }), lateEnv),
   (SchedulerCall.showAlert, lateEnv)]

/-! ## Theorems -/

theorem mapGet_mapSet_same {β : Type} (m : List (String × β)) (k : String) (v : β) :
    mapGet (mapSet m k v) k = some v := by
  induction m with
  | nil => simp [mapSet, mapGet]
  | cons p rest ih =>
    obtain ⟨k1, v1⟩ := p
    by_cases h : k1 = k
    · simp [mapSet, mapGet, h]
    · simp [mapSet, mapGet, h, ih]

theorem mapGet_mapSet_ne {β : Type} (m : List (String × β)) (k k2 : String) (v : β)
    (hne : k2 ≠ k) : mapGet (mapSet m k v) k2 = mapGet m k2 := by
  induction m with
  | nil =>
    have h : ¬ k = k2 := fun e => hne e.symm
    simp [mapSet, mapGet, h]
  | cons p rest ih =>
    obtain ⟨k1, v1⟩ := p
    by_cases h : k1 = k
    · have h2 : ¬ k = k2 := fun e => hne e.symm
      simp [mapSet, mapGet, h, h2]
    · by_cases h3 : k1 = k2
      · subst h3
        simp [mapSet, mapGet, h]
      · simp [mapSet, mapGet, h, h3, ih]

theorem mapSet_length_of_mem {β : Type} (m : List (String × β)) (k : String) (v v0 : β)
    (h : mapGet m k = some v0) : (mapSet m k v).length = m.length := by
  induction m with
  | nil => simp [mapGet] at h
  | cons p rest ih =>
    obtain ⟨k1, v1⟩ := p
    by_cases hk : k1 = k
    · simp [mapSet, hk]
    · simp [mapGet, hk] at h
      simp [mapSet, hk, ih h]

theorem frame_refl (w : World) : Frame w w :=
  ⟨rfl, rfl, rfl, rfl, rfl, rfl, rfl, rfl⟩

theorem frame_trans {a b c : World} (h1 : Frame a b) (h2 : Frame b c) : Frame a c :=
  ⟨h2.watchedReels.trans h1.watchedReels, h2.dailyStats.trans h1.dailyStats,
   h2.settings.trans h1.settings, h2.totalReelsScrolled.trans h1.totalReelsScrolled,
   h2.scrolledReels.trans h1.scrolledReels, h2.activeReel.trans h1.activeReel,
   h2.store.trans h1.store, h2.writeFails.trans h1.writeFails⟩

theorem frame_hideNotification (w : World) : Frame w (hideNotification w) := by
  unfold hideNotification
  split
  · split
    · exact ⟨rfl, rfl, rfl, rfl, rfl, rfl, rfl, rfl⟩
    · exact frame_refl w
  · exact frame_refl w

theorem frame_present (w : World) (c : String) (x : Shown) : Frame w (present w c x) :=
  ⟨rfl, rfl, rfl, rfl, rfl, rfl, rfl, rfl⟩

theorem frame_showNotification (w : World) (reelId : String) :
    Frame w (showNotification w reelId) := by
  unfold showNotification
  cases mapGet w.t.watchedReels reelId with
  | none => exact frame_refl w
  | some r =>
    dsimp only
    split
    · exact frame_refl w
    · exact frame_trans (frame_hideNotification w) (frame_present _ _ _)

theorem frame_showScrollMilestoneNotification (w : World) (n : Nat) :
    Frame w (showScrollMilestoneNotification w n) := by
  unfold showScrollMilestoneNotification
  split
  · exact frame_trans (frame_hideNotification w) (frame_present _ _ _)
  · exact frame_refl w

theorem frame_showPositiveReinforcement (w : World) (env : Env) :
    Frame w (showPositiveReinforcement w env) := by
  unfold showPositiveReinforcement
  split
  · exact frame_refl w
  · split
    · exact frame_refl w
    · refine frame_trans ?_ (frame_present _ _ _)
      refine frame_trans ?_ (frame_hideNotification _)
      exact ⟨rfl, rfl, rfl, rfl, rfl, rfl, rfl, rfl⟩

theorem frame_showOccasionalEncouragement (w : World) (env : Env) :
    Frame w (showOccasionalEncouragement w env) := by
  unfold showOccasionalEncouragement
  split
  · exact frame_refl w
  · split
    · exact frame_refl w
    · split
      · split
        · exact frame_showPositiveReinforcement w env
        · exact frame_refl w
      · exact frame_refl w

theorem frame_stopPeriodicAlerts (w : World) : Frame w (stopPeriodicAlerts w) := by
  unfold stopPeriodicAlerts
  refine frame_trans ?_ (frame_hideNotification _)
  cases w.t.limitAlertInterval <;> exact ⟨rfl, rfl, rfl, rfl, rfl, rfl, rfl, rfl⟩

theorem frame_showLimitAlert (w : World) : Frame w (showLimitAlert w) := by
  unfold showLimitAlert
  split
  · exact frame_refl w
  · split
    · exact frame_refl w
    · split
      · exact frame_stopPeriodicAlerts w
      · dsimp only
        split
        · split
          · exact frame_refl w
          · exact frame_trans (frame_hideNotification w) (frame_present _ _ _)
        · exact frame_present _ _ _

theorem frame_startPeriodicAlerts (w : World) : Frame w (startPeriodicAlerts w) := by
  unfold startPeriodicAlerts
  split
  · exact frame_refl w
  · refine frame_trans ?_ (frame_showLimitAlert _)
    exact ⟨rfl, rfl, rfl, rfl, rfl, rfl, rfl, rfl⟩

theorem frame_checkLimitsAndStartAlerts (w : World) (env : Env) :
    Frame w (checkLimitsAndStartAlerts w env) := by
  unfold checkLimitsAndStartAlerts
  split
  · exact frame_refl w
  · split
    · exact frame_refl w
    · split
      · exact frame_refl w
      · dsimp only
        split
        · exact frame_startPeriodicAlerts w
        · split
          · exact frame_trans (frame_stopPeriodicAlerts w) (frame_showPositiveReinforcement _ env)
          · split
            · exact frame_showOccasionalEncouragement w env
            · exact frame_refl w

theorem emits_refl (P : Shown → Prop) (w : World) : Emits P w w :=
  ⟨[], by simp, by simp⟩

theorem emits_of_shown_eq {P : Shown → Prop} {w w1 : World} (h : w1.shown = w.shown) :
    Emits P w w1 :=
  ⟨[], by simp [h], by simp⟩

theorem emits_trans {P : Shown → Prop} {a b c : World} (h1 : Emits P a b) (h2 : Emits P b c) :
    Emits P a c := by
  obtain ⟨l1, e1, p1⟩ := h1
  obtain ⟨l2, e2, p2⟩ := h2
  refine ⟨l1 ++ l2, by rw [e2, e1, List.append_assoc], ?_⟩
  intro x hx
  rcases List.mem_append.mp hx with h | h
  · exact p1 x h
  · exact p2 x h

theorem emits_countP_eq {P : Shown → Prop} {w w1 : World} (h : Emits P w w1)
    (p : Shown → Bool) (hp : ∀ x, P x → p x = false) :
    w1.shown.countP p = w.shown.countP p := by
  obtain ⟨l, e, hl⟩ := h
  rw [e, List.countP_append]
  have : l.countP p = 0 := by
    rw [List.countP_eq_zero]
    intro x hx
    simp [hp x (hl x hx)]
  omega

theorem hideNotification_shown (w : World) : (hideNotification w).shown = w.shown := by
  unfold hideNotification
  split
  · split <;> rfl
  · rfl

theorem emits_present {P : Shown → Prop} (w : World) (c : String) (x : Shown) (hx : P x) :
    Emits P w (present w c x) :=
  ⟨[x], rfl, by simpa using hx⟩

theorem emits_showPositiveReinforcement (w : World) (env : Env) :
    Emits IsSchedulerEvent w (showPositiveReinforcement w env) := by
  unfold showPositiveReinforcement
  split
  · exact emits_refl _ w
  · split
    · exact emits_refl _ w
    · refine emits_trans ?_ (emits_present _ _ _ trivial)
      exact emits_of_shown_eq (hideNotification_shown _)

theorem emits_showOccasionalEncouragement (w : World) (env : Env) :
    Emits IsSchedulerEvent w (showOccasionalEncouragement w env) := by
  unfold showOccasionalEncouragement
  split
  · exact emits_refl _ w
  · split
    · exact emits_refl _ w
    · split
      · split
        · exact emits_showPositiveReinforcement w env
        · exact emits_refl _ w
      · exact emits_refl _ w

theorem stopPeriodicAlerts_shown (w : World) : (stopPeriodicAlerts w).shown = w.shown := by
  unfold stopPeriodicAlerts
  rw [hideNotification_shown]
  cases w.t.limitAlertInterval <;> rfl

theorem emits_showLimitAlert (w : World) : Emits IsSchedulerEvent w (showLimitAlert w) := by
  unfold showLimitAlert
  split
  · exact emits_refl _ w
  · split
    · exact emits_refl _ w
    · split
      · exact emits_of_shown_eq (stopPeriodicAlerts_shown w)
      · dsimp only
        split
        · split
          · exact emits_refl _ w
          · refine emits_trans ?_ (emits_present _ _ _ trivial)
            exact emits_of_shown_eq (hideNotification_shown _)
        · exact emits_present _ _ _ trivial

theorem emits_startPeriodicAlerts (w : World) :
    Emits IsSchedulerEvent w (startPeriodicAlerts w) := by
  unfold startPeriodicAlerts
  split
  · exact emits_refl _ w
  · refine emits_trans ?_ (emits_showLimitAlert _)
    exact emits_of_shown_eq rfl

theorem emits_checkLimitsAndStartAlerts (w : World) (env : Env) :
    Emits IsSchedulerEvent w (checkLimitsAndStartAlerts w env) := by
  unfold checkLimitsAndStartAlerts
  split
  · exact emits_refl _ w
  · split
    · exact emits_refl _ w
    · split
      · exact emits_refl _ w
      · dsimp only
        split
        · exact emits_startPeriodicAlerts w
        · split
          · refine emits_trans ?_ (emits_showPositiveReinforcement _ env)
            exact emits_of_shown_eq (stopPeriodicAlerts_shown w)
          · split
            · exact emits_showOccasionalEncouragement w env
            · exact emits_refl _ w

theorem saveDailyStats_t (w : World) : (saveDailyStats w).1.t = w.t := by
  unfold saveDailyStats
  split <;> rfl

theorem saveDailyStats_shown (w : World) : (saveDailyStats w).1.shown = w.shown := by
  unfold saveDailyStats
  split <;> rfl

theorem saveDailyStats_writeFails (w : World) :
    (saveDailyStats w).1.writeFails = w.writeFails := by
  unfold saveDailyStats
  split <;> rfl

theorem saveWatchedReels_t (w : World) : (saveWatchedReels w).1.t = w.t := by
  unfold saveWatchedReels
  split <;> rfl

theorem saveWatchedReels_shown (w : World) : (saveWatchedReels w).1.shown = w.shown := by
  unfold saveWatchedReels
  split <;> rfl

theorem saveWatchedReels_writeFails (w : World) :
    (saveWatchedReels w).1.writeFails = w.writeFails := by
  unfold saveWatchedReels
  split <;> rfl

theorem saveScrollCounter_t (w : World) : (saveScrollCounter w).t = w.t := by
  unfold saveScrollCounter
  split <;> rfl

theorem saveScrollCounter_shown (w : World) : (saveScrollCounter w).shown = w.shown := by
  unfold saveScrollCounter
  split <;> rfl

theorem recordWatch_counted (w : World) (reelId : String) (duration : Int) (env : Env)
    (r : ReelData) (hen : w.t.settings.extensionEnabled = true) (hd : 1000 ≤ duration)
    (hr : mapGet w.t.watchedReels reelId = some r) :
    recordWatch w reelId duration env =
      checkLimitsAndStartAlerts
        (if r.count + 1 ≥ 3 then showNotification (afterSaves w reelId duration env r) reelId
         else afterSaves w reelId duration env r) env := by
  unfold recordWatch
  have h1 : ¬ duration < 1000 := not_lt.mpr hd
  simp only [hen, Bool.not_true, Bool.false_eq_true, if_false, h1, hr]
  rfl

theorem afterSaves_watchedReels (w : World) (reelId : String) (duration : Int) (env : Env)
    (r : ReelData) :
    (afterSaves w reelId duration env r).t.watchedReels =
      mapSet w.t.watchedReels reelId (committed r duration env.now) := by
  unfold afterSaves
  simp only [saveWatchedReels_t]
  cases h : w.t.dailyStats <;> simp [h, saveDailyStats_t]

theorem afterSaves_dailyStats (w : World) (reelId : String) (duration : Int) (env : Env)
    (r : ReelData) :
    (afterSaves w reelId duration env r).t.dailyStats =
      w.t.dailyStats.map (fun d => committedDaily d duration) := by
  unfold afterSaves
  simp only [saveWatchedReels_t]
  cases h : w.t.dailyStats <;> simp [h, saveDailyStats_t]

theorem afterSaves_settings (w : World) (reelId : String) (duration : Int) (env : Env)
    (r : ReelData) :
    (afterSaves w reelId duration env r).t.settings = w.t.settings := by
  unfold afterSaves
  simp only [saveWatchedReels_t]
  cases h : w.t.dailyStats <;> simp [h, saveDailyStats_t]

theorem afterSaves_shown (w : World) (reelId : String) (duration : Int) (env : Env)
    (r : ReelData) :
    (afterSaves w reelId duration env r).shown = w.shown := by
  unfold afterSaves
  simp only [saveWatchedReels_shown]
  cases h : w.t.dailyStats <;> simp [h, saveDailyStats_shown]

theorem recordWatch_watchedReels (w : World) (reelId : String) (duration : Int) (env : Env)
    (r : ReelData) (hen : w.t.settings.extensionEnabled = true) (hd : 1000 ≤ duration)
    (hr : mapGet w.t.watchedReels reelId = some r) :
    (recordWatch w reelId duration env).t.watchedReels =
      mapSet w.t.watchedReels reelId (committed r duration env.now) := by
  rw [recordWatch_counted w reelId duration env r hen hd hr,
    (frame_checkLimitsAndStartAlerts _ env).watchedReels]
  split
  · rw [(frame_showNotification _ reelId).watchedReels, afterSaves_watchedReels]
  · rw [afterSaves_watchedReels]

theorem recordWatch_dailyStats (w : World) (reelId : String) (duration : Int) (env : Env)
    (r : ReelData) (hen : w.t.settings.extensionEnabled = true) (hd : 1000 ≤ duration)
    (hr : mapGet w.t.watchedReels reelId = some r) :
    (recordWatch w reelId duration env).t.dailyStats =
      w.t.dailyStats.map (fun d => committedDaily d duration) := by
  rw [recordWatch_counted w reelId duration env r hen hd hr,
    (frame_checkLimitsAndStartAlerts _ env).dailyStats]
  split
  · rw [(frame_showNotification _ reelId).dailyStats, afterSaves_dailyStats]
  · rw [afterSaves_dailyStats]

theorem recordWatch_settings (w : World) (reelId : String) (duration : Int) (env : Env) :
    (recordWatch w reelId duration env).t.settings = w.t.settings := by
  by_cases hen : w.t.settings.extensionEnabled = true
  · by_cases hd : 1000 ≤ duration
    · cases hr : mapGet w.t.watchedReels reelId with
      | none =>
        unfold recordWatch
        simp [hen, not_lt.mpr hd, hr]
      | some r =>
        rw [recordWatch_counted w reelId duration env r hen hd hr,
          (frame_checkLimitsAndStartAlerts _ env).settings]
        split
        · rw [(frame_showNotification _ reelId).settings, afterSaves_settings]
        · rw [afterSaves_settings]
    · unfold recordWatch
      simp [hen, not_le.mp hd]
  · unfold recordWatch
    simp [hen]

theorem commitAll_accumulates (reelId : String) (evs : List (Int × Env)) :
    ∀ (w : World) (r : ReelData) (d : DailyStats),
      w.t.settings.extensionEnabled = true →
      mapGet w.t.watchedReels reelId = some r →
      w.t.dailyStats = some d →
      (∀ e ∈ evs, 1000 ≤ e.1) →
      ∃ r1 d1,
        mapGet (commitAll w reelId evs).t.watchedReels reelId = some r1 ∧
        r1.count = r.count + evs.length ∧
        r1.totalWatchTime = r.totalWatchTime + (evs.map Prod.fst).sum ∧
        (commitAll w reelId evs).t.dailyStats = some d1 ∧
        d1.reelsWatched = d.reelsWatched + evs.length ∧
        d1.watchTime = d.watchTime + (evs.map Prod.fst).sum ∧
        d1.date = d.date ∧ d1.reelsScrolled = d.reelsScrolled := by
  induction evs with
  | nil =>
    intro w r d _ hr hds _
    exact ⟨r, d, by simpa [commitAll] using hr, by simp, by simp, by simpa [commitAll] using hds,
      by simp, by simp, rfl, rfl⟩
  | cons e rest ih =>
    intro w r d hen hr hds hall
    obtain ⟨duration, env⟩ := e
    have hd : 1000 ≤ duration := hall (duration, env) (List.mem_cons_self _ _)
    have hrest : ∀ e ∈ rest, 1000 ≤ e.1 := fun e he => hall e (List.mem_cons_of_mem _ he)
    have hen1 : (recordWatch w reelId duration env).t.settings.extensionEnabled = true := by
      rw [recordWatch_settings]; exact hen
    have hr1 : mapGet (recordWatch w reelId duration env).t.watchedReels reelId =
        some (committed r duration env.now) := by
      rw [recordWatch_watchedReels w reelId duration env r hen hd hr, mapGet_mapSet_same]
    have hds1 : (recordWatch w reelId duration env).t.dailyStats =
        some (committedDaily d duration) := by
      rw [recordWatch_dailyStats w reelId duration env r hen hd hr, hds]; rfl
    obtain ⟨r1, d1, h1, h2, h3, h4, h5, h6, h7, h8⟩ := ih _ _ _ hen1 hr1 hds1 hrest
    refine ⟨r1, d1, by simpa [commitAll] using h1, ?_, ?_, by simpa [commitAll] using h4,
      ?_, ?_, ?_, ?_⟩
    · simp only [committed] at h2; simp only [List.length_cons]; omega
    · simp only [committed] at h3; simp only [List.map_cons, List.sum_cons]; omega
    · simp only [committedDaily] at h5; simp only [List.length_cons]; omega
    · simp only [committedDaily] at h6; simp only [List.map_cons, List.sum_cons]; omega
    · simpa [committedDaily] using h7
    · simpa [committedDaily] using h8

/-- C1 (noise filter).  With the extension enabled, a tracked reel and a
daily aggregate present, `recordWatch` with a duration below 1000 ms changes
nothing at all (so count, totalWatchTime, reelsWatched and watchTime are
unchanged), and with a duration of at least 1000 ms it adds exactly 1 to the
count of the reel and to `dailyStats.reelsWatched`, and the duration to both
watch times. -/
theorem recordWatch_noise_filter (w : World) (reelId : String) (duration : Int) (env : Env)
    (r : ReelData) (d : DailyStats)
    (hen : w.t.settings.extensionEnabled = true)
    (hr : mapGet w.t.watchedReels reelId = some r)
    (hds : w.t.dailyStats = some d) :
    (duration < 1000 → recordWatch w reelId duration env = w) ∧
    (1000 ≤ duration →
      mapGet (recordWatch w reelId duration env).t.watchedReels reelId =
        some { count := r.count + 1, lastWatched := some env.now,
               totalWatchTime := r.totalWatchTime + duration } ∧
      (recordWatch w reelId duration env).t.dailyStats =
        some { date := d.date, watchTime := d.watchTime + duration,
               reelsWatched := d.reelsWatched + 1, reelsScrolled := d.reelsScrolled }) := by
  constructor
  · intro hlt
    unfold recordWatch
    simp [hen, hlt]
  · intro hd
    constructor
    · rw [recordWatch_watchedReels w reelId duration env r hen hd hr, mapGet_mapSet_same]
      rfl
    · rw [recordWatch_dailyStats w reelId duration env r hen hd hr, hds]
      rfl

/-- C1 at the boundary: 999 ms changes nothing, 1000 ms increments the count
of reel `A` from 0 to 1 and `reelsWatched` from 2 to 3. -/
theorem recordWatch_noise_filter_witness :
    recordWatch (sampleWorld 0) "A" 999 sampleEnv = sampleWorld 0 ∧
    mapGet (recordWatch (sampleWorld 0) "A" 1000 sampleEnv).t.watchedReels "A" =
      some { count := 1, lastWatched := some 1000000, totalWatchTime := 1000 } ∧
    (recordWatch (sampleWorld 0) "A" 1000 sampleEnv).t.dailyStats =
      some { date := "Wed Nov 04 2026", watchTime := 6000, reelsWatched := 3,
             reelsScrolled := 2 } :=
  ⟨(recordWatch_noise_filter (sampleWorld 0) "A" 999 sampleEnv
      { count := 0, lastWatched := none, totalWatchTime := 0 } sampleDaily rfl rfl rfl).1
      (by decide),
   (recordWatch_noise_filter (sampleWorld 0) "A" 1000 sampleEnv
      { count := 0, lastWatched := none, totalWatchTime := 0 } sampleDaily rfl rfl rfl).2
      (by decide)⟩

/-- C2 (commit accumulation).  `k` commits of durations `d_1..d_k`, each at
least 1000 ms, on one tracked reel whose entry starts at count 0 and
totalWatchTime 0, end with count `k` and totalWatchTime `d_1+...+d_k`; the
daily aggregate has gained `k` reelsWatched and `d_1+...+d_k` watchTime. -/
theorem commitAll_from_zero (w : World) (reelId : String) (evs : List (Int × Env))
    (r : ReelData) (d : DailyStats)
    (hen : w.t.settings.extensionEnabled = true)
    (hr : mapGet w.t.watchedReels reelId = some r)
    (hcount : r.count = 0) (htotal : r.totalWatchTime = 0)
    (hds : w.t.dailyStats = some d)
    (hall : ∀ e ∈ evs, 1000 ≤ e.1) :
    ∃ r1 d1,
      mapGet (commitAll w reelId evs).t.watchedReels reelId = some r1 ∧
      r1.count = evs.length ∧
      r1.totalWatchTime = (evs.map Prod.fst).sum ∧
      (commitAll w reelId evs).t.dailyStats = some d1 ∧
      d1.reelsWatched = d.reelsWatched + evs.length ∧
      d1.watchTime = d.watchTime + (evs.map Prod.fst).sum := by
  obtain ⟨r1, d1, h1, h2, h3, h4, h5, h6, _, _⟩ :=
    commitAll_accumulates reelId evs w r d hen hr hds hall
  exact ⟨r1, d1, h1, by omega, by omega, h4, h5, h6⟩

/-- C2 on the scenario of the specification: three commits of 1500 ms on reel
`A` give count 3, total 4500 and three more reels watched. -/
theorem commitAll_from_zero_witness :
    ∃ r1 d1,
      mapGet (commitAll (sampleWorld 0) "A"
        [(1500, sampleEnv), (1500, sampleEnv), (1500, sampleEnv)]).t.watchedReels "A" = some r1 ∧
      r1.count = 3 ∧ r1.totalWatchTime = 4500 ∧
      (commitAll (sampleWorld 0) "A"
        [(1500, sampleEnv), (1500, sampleEnv), (1500, sampleEnv)]).t.dailyStats = some d1 ∧
      d1.reelsWatched = 2 + 3 ∧ d1.watchTime = 5000 + 4500 :=
  commitAll_from_zero (sampleWorld 0) "A"
    [(1500, sampleEnv), (1500, sampleEnv), (1500, sampleEnv)]
    { count := 0, lastWatched := none, totalWatchTime := 0 } sampleDaily rfl rfl rfl rfl rfl
    (by decide)

theorem isRepeatView_of_scheduler (x : Shown) (h : IsSchedulerEvent x) :
    isRepeatView x = false := by
  cases x <;> simp_all [IsSchedulerEvent, isRepeatView]

/-- C3, as the code has it.  With notifications enabled, a counted commit
that moves the count of a reel from `n` to `n + 1` presents exactly one
repeat-view notification whenever `n + 1 ≥ 3` (from 2 to 3, and again from 3
to 4 and on every later commit), and none when `n + 1 < 3`. -/
theorem recordWatch_repeat_view (w : World) (reelId : String) (duration : Int) (env : Env)
    (r : ReelData)
    (hen : w.t.settings.extensionEnabled = true)
    (hn : w.t.settings.showNotifications = true)
    (hd : 1000 ≤ duration)
    (hr : mapGet w.t.watchedReels reelId = some r) :
    repeatViews (recordWatch w reelId duration env) =
      repeatViews w + (if 3 ≤ r.count + 1 then 1 else 0) := by
  unfold repeatViews
  rw [recordWatch_counted w reelId duration env r hen hd hr,
    emits_countP_eq (emits_checkLimitsAndStartAlerts _ env) isRepeatView isRepeatView_of_scheduler]
  by_cases h3 : 3 ≤ r.count + 1
  · have hget : mapGet (afterSaves w reelId duration env r).t.watchedReels reelId =
        some (committed r duration env.now) := by
      rw [afterSaves_watchedReels, mapGet_mapSet_same]
    have hc : ¬ (committed r duration env.now).count < 3 := by
      simp only [committed]; omega
    have hs : (afterSaves w reelId duration env r).t.settings.showNotifications = true := by
      rw [afterSaves_settings]; exact hn
    simp only [ge_iff_le, h3, if_true]
    unfold showNotification
    simp only [hget, hs, hc, decide_False, Bool.not_true, Bool.or_self, Bool.false_eq_true,
      if_false]
    simp [present, hideNotification_shown, afterSaves_shown, isRepeatView]
  · simp only [ge_iff_le, h3, if_false, afterSaves_shown, Nat.add_zero]

/-- C3 (amended) at counts 2 and 3: both the commit from 2 to 3 and the commit
from 3 to 4 present one repeat-view notification. -/
theorem recordWatch_repeat_view_witness :
    repeatViews (recordWatch (sampleWorld 2) "B" 1500 sampleEnv) = 0 + 1 ∧
    repeatViews (recordWatch (sampleWorld 3) "B" 1500 sampleEnv) = 0 + 1 :=
  ⟨recordWatch_repeat_view (sampleWorld 2) "B" 1500 sampleEnv
      { count := 2, lastWatched := some 10, totalWatchTime := 4000 } rfl rfl (by decide) rfl,
   recordWatch_repeat_view (sampleWorld 3) "B" 1500 sampleEnv
      { count := 3, lastWatched := some 10, totalWatchTime := 6000 } rfl rfl (by decide) rfl⟩

/-- C3 as stated fails: reel `B` has count 3, the commit moves it to 4, and a
repeat-view notification (for count 4) is presented. -/
theorem repeat_view_on_fourth_watch :
    (mapGet (sampleWorld 3).t.watchedReels "B").map ReelData.count = some 3 ∧
    (mapGet (recordWatch (sampleWorld 3) "B" 1500 sampleEnv).t.watchedReels "B").map
      ReelData.count = some 4 ∧
    (recordWatch (sampleWorld 3) "B" 1500 sampleEnv).shown = [Shown.repeatView "B" 4] ∧
    repeatViews (recordWatch (sampleWorld 3) "B" 1500 sampleEnv) ≠ 0 := by
  decide

/-- C4 (daily rollover).  When the store holds an aggregate dated `today`,
`loadDailyStats` makes it the in-memory aggregate and leaves the store as it
was; otherwise (no stored aggregate, or one of another day) the in-memory
aggregate becomes the zeroed aggregate dated `today`, and that value is
written under the key `dailyStats` (the other keys are untouched) provided
the store accepts the write. -/
theorem loadDailyStats_rollover (w : World) (today : String) :
    (∀ d, w.store.dailyStats = some d → d.date = today →
      (loadDailyStats w today).t.dailyStats = some d ∧
      (loadDailyStats w today).store = w.store) ∧
    ((∀ d, w.store.dailyStats = some d → d.date ≠ today) →
      (loadDailyStats w today).t.dailyStats =
        some { date := today, watchTime := 0, reelsWatched := 0, reelsScrolled := 0 } ∧
      (w.writeFails = false →
        (loadDailyStats w today).store =
          { w.store with
            dailyStats :=
              some { date := today, watchTime := 0, reelsWatched := 0, reelsScrolled := 0 } })) := by
  constructor
  · intro d hd hdate
    unfold loadDailyStats
    simp [hd, hdate]
  · intro hstale
    unfold loadDailyStats
    cases hs : w.store.dailyStats with
    | none =>
      simp only [saveDailyStats_t]
      refine ⟨rfl, ?_⟩
      intro hw
      simp [saveDailyStats, hw, freshDailyStats]
    | some d =>
      have hne : ¬ d.date = today := hstale d hs
      simp only [hne, if_false, saveDailyStats_t]
      refine ⟨rfl, ?_⟩
      intro hw
      simp [saveDailyStats, hw, freshDailyStats]

/-- C4 on an aggregate stored the day before: the fifth of November starts
from zero, in memory and in the store; on the fourth the stored aggregate is
kept. -/
theorem loadDailyStats_rollover_witness :
    ((loadDailyStats storedWorld "Wed Nov 04 2026").t.dailyStats = some sampleDaily ∧
     (loadDailyStats storedWorld "Wed Nov 04 2026").store = storedWorld.store) ∧
    (loadDailyStats storedWorld "Thu Nov 05 2026").t.dailyStats =
      some { date := "Thu Nov 05 2026", watchTime := 0, reelsWatched := 0, reelsScrolled := 0 } ∧
    (loadDailyStats storedWorld "Thu Nov 05 2026").store =
      { storedWorld.store with
        dailyStats :=
          some { date := "Thu Nov 05 2026", watchTime := 0, reelsWatched := 0,
                 reelsScrolled := 0 } } :=
  ⟨(loadDailyStats_rollover storedWorld "Wed Nov 04 2026").1 sampleDaily rfl rfl,
   ((loadDailyStats_rollover storedWorld "Thu Nov 05 2026").2 (by decide)).1,
   ((loadDailyStats_rollover storedWorld "Thu Nov 05 2026").2 (by decide)).2 rfl⟩

/-- C5, the code at the failing input.  The tracker was initialised on the
fourth of November; a commit and a scroll event that happen on the fifth (when
`loadDailyStats` would start a new aggregate) are added to the aggregate of
the fourth, whose date is left as it is. -/
theorem stale_aggregate_is_mutated :
    (loadDailyStats storedWorld "Thu Nov 05 2026").t.dailyStats =
      some { date := "Thu Nov 05 2026", watchTime := 0, reelsWatched := 0, reelsScrolled := 0 } ∧
    (recordWatch (sampleWorld 0) "A" 1500 sampleEnv).t.dailyStats =
      some { date := "Wed Nov 04 2026", watchTime := 6500, reelsWatched := 3,
             reelsScrolled := 2 } ∧
    (handlePlay (sampleWorld 0) { reelId := "C", playStartTime := none, hasBeenCounted := false }
        sampleEnv).1.t.dailyStats =
      some { date := "Wed Nov 04 2026", watchTime := 5000, reelsWatched := 2,
             reelsScrolled := 3 } := by
  decide

theorem milestoneMessage_ne_empty_iff (n : Nat) : milestoneMessage n ≠ "" ↔ IsMilestone n := by
  unfold milestoneMessage IsMilestone
  by_cases h5 : n = 5
  · simp only [h5, if_true]; decide
  by_cases h10 : n = 10
  · simp only [h10, if_true]; decide
  by_cases h20 : n = 20
  · simp only [h20, if_true]; decide
  by_cases h50 : n = 50
  · simp only [h50, if_true]; decide
  by_cases h25 : n % 25 = 0 ∧ n ≥ 25
  · simp only [h5, h10, h20, h50, h25, if_false, if_true, and_self, or_true, iff_true]
    intro h
    have h1 := congrArg String.length h
    simp only [String.length_append] at h1
    have h2 : (" reels." : String).length = 7 := by decide
    have h3 : ("" : String).length = 0 := by decide
    omega
  · simp only [h5, h10, h20, h50, h25, if_false, false_or, ne_eq, not_true_eq_false, false_iff]

/-- C6 (milestone exactness).  With notifications enabled,
`showScrollMilestoneNotification n` presents a milestone element exactly when
`n` is 5, 10, 20, 50 or a multiple of 25 with `n ≥ 25`, and otherwise changes
nothing; so over 1..26 it presents one only at 5, 10, 20 and 25. -/
theorem showScrollMilestoneNotification_exact (w : World)
    (hn : w.t.settings.showNotifications = true) :
    (∀ n, IsMilestone n →
      (showScrollMilestoneNotification w n).shown =
        w.shown ++ [Shown.scrollMilestone (milestoneMessage n)]) ∧
    (∀ n, ¬ IsMilestone n → showScrollMilestoneNotification w n = w) ∧
    (∀ n, 1 ≤ n → n ≤ 26 →
      ((showScrollMilestoneNotification w n).shown ≠ w.shown ↔
        (n = 5 ∨ n = 10 ∨ n = 20 ∨ n = 25))) := by
  have hyes : ∀ n, IsMilestone n →
      (showScrollMilestoneNotification w n).shown =
        w.shown ++ [Shown.scrollMilestone (milestoneMessage n)] := by
    intro n hm
    have h := (milestoneMessage_ne_empty_iff n).mpr hm
    unfold showScrollMilestoneNotification
    rw [if_pos ⟨h, hn⟩]
    simp [present, hideNotification_shown]
  have hno : ∀ n, ¬ IsMilestone n → showScrollMilestoneNotification w n = w := by
    intro n hm
    have h : ¬ (milestoneMessage n ≠ "") := fun h => hm ((milestoneMessage_ne_empty_iff n).mp h)
    unfold showScrollMilestoneNotification
    rw [if_neg (fun hc => h hc.1)]
  refine ⟨hyes, hno, ?_⟩
  intro n h1 h26
  by_cases hm : IsMilestone n
  · rw [hyes n hm]
    have hcases : n = 5 ∨ n = 10 ∨ n = 20 ∨ n = 25 := by
      unfold IsMilestone at hm
      omega
    simp [hcases]
  · rw [hno n hm]
    have hcases : ¬ (n = 5 ∨ n = 10 ∨ n = 20 ∨ n = 25) := by
      unfold IsMilestone at hm
      omega
    simp [hcases]

/-- C6 on the sample tracker: a milestone at 25 and at 75, none at 6, 11, 21
and 26. -/
theorem showScrollMilestoneNotification_exact_witness :
    (showScrollMilestoneNotification (sampleWorld 0) 25).shown =
      [] ++ [Shown.scrollMilestone (milestoneMessage 25)] ∧
    (showScrollMilestoneNotification (sampleWorld 0) 75).shown =
      [] ++ [Shown.scrollMilestone (milestoneMessage 75)] ∧
    showScrollMilestoneNotification (sampleWorld 0) 6 = sampleWorld 0 ∧
    showScrollMilestoneNotification (sampleWorld 0) 11 = sampleWorld 0 ∧
    showScrollMilestoneNotification (sampleWorld 0) 21 = sampleWorld 0 ∧
    showScrollMilestoneNotification (sampleWorld 0) 26 = sampleWorld 0 :=
  ⟨(showScrollMilestoneNotification_exact (sampleWorld 0) rfl).1 25 (by decide),
   (showScrollMilestoneNotification_exact (sampleWorld 0) rfl).1 75 (by decide),
   (showScrollMilestoneNotification_exact (sampleWorld 0) rfl).2.1 6 (by decide),
   (showScrollMilestoneNotification_exact (sampleWorld 0) rfl).2.1 11 (by decide),
   (showScrollMilestoneNotification_exact (sampleWorld 0) rfl).2.1 21 (by decide),
   (showScrollMilestoneNotification_exact (sampleWorld 0) rfl).2.1 26 (by decide)⟩

theorem handlePlay_settings (w : World) (s : Session) (env : Env) :
    (handlePlay w s env).1.t.settings = w.t.settings := by
  unfold handlePlay
  split
  · rfl
  · dsimp only
    split
    · rfl
    · rw [(frame_checkLimitsAndStartAlerts _ env).settings,
        (frame_showScrollMilestoneNotification _ _).settings, saveScrollCounter_t]
      cases h : w.t.dailyStats <;> simp [saveDailyStats_t]

theorem handlePlay_seen (w : World) (s : Session) (env : Env)
    (hmem : s.reelId ∈ w.t.scrolledReels) :
    (handlePlay w s env).1.t.scrolledReels = w.t.scrolledReels ∧
    (handlePlay w s env).1.t.totalReelsScrolled = w.t.totalReelsScrolled ∧
    (handlePlay w s env).1.t.dailyStats = w.t.dailyStats := by
  unfold handlePlay
  split
  · exact ⟨rfl, rfl, rfl⟩
  · simp [setHas, hmem]

theorem handlePlay_unseen (w : World) (s : Session) (env : Env)
    (hen : w.t.settings.extensionEnabled = true)
    (hnew : s.reelId ∉ w.t.scrolledReels) :
    (handlePlay w s env).1.t.scrolledReels = w.t.scrolledReels ++ [s.reelId] ∧
    (handlePlay w s env).1.t.totalReelsScrolled = w.t.totalReelsScrolled + 1 ∧
    (handlePlay w s env).1.t.dailyStats = w.t.dailyStats.map scrolledDaily := by
  unfold handlePlay
  simp only [hen, Bool.not_true, Bool.false_eq_true, if_false, setHas, hnew, decide_False]
  refine ⟨?_, ?_, ?_⟩
  · rw [(frame_checkLimitsAndStartAlerts _ env).scrolledReels,
      (frame_showScrollMilestoneNotification _ _).scrolledReels, saveScrollCounter_t]
    cases h : w.t.dailyStats <;> simp [saveDailyStats_t, setAdd, hnew]
  · rw [(frame_checkLimitsAndStartAlerts _ env).totalReelsScrolled,
      (frame_showScrollMilestoneNotification _ _).totalReelsScrolled, saveScrollCounter_t]
    cases h : w.t.dailyStats <;> simp [saveDailyStats_t]
  · rw [(frame_checkLimitsAndStartAlerts _ env).dailyStats,
      (frame_showScrollMilestoneNotification _ _).dailyStats, saveScrollCounter_t]
    cases h : w.t.dailyStats <;> simp [saveDailyStats_t, scrolledDaily]

theorem playAll_counts (evs : List (Session × Env)) :
    ∀ w : World, w.t.settings.extensionEnabled = true →
      ∃ added : List String,
        (playAll w evs).t.scrolledReels = w.t.scrolledReels ++ added ∧
        (playAll w evs).t.totalReelsScrolled = w.t.totalReelsScrolled + added.length ∧
        added.Nodup ∧ ∀ x ∈ added, x ∉ w.t.scrolledReels := by
  induction evs with
  | nil =>
    intro w _
    exact ⟨[], by simp [playAll], by simp [playAll], List.nodup_nil, by simp⟩
  | cons e rest ih =>
    intro w hen
    obtain ⟨s, env⟩ := e
    have hen1 : (handlePlay w s env).1.t.settings.extensionEnabled = true := by
      rw [handlePlay_settings]; exact hen
    obtain ⟨added, h1, h2, h3, h4⟩ := ih (handlePlay w s env).1 hen1
    by_cases hmem : s.reelId ∈ w.t.scrolledReels
    · obtain ⟨e1, e2, _⟩ := handlePlay_seen w s env hmem
      refine ⟨added, ?_, ?_, h3, ?_⟩
      · simpa [playAll, e1] using h1
      · simpa [playAll, e2] using h2
      · intro x hx; have := h4 x hx; rwa [e1] at this
    · obtain ⟨e1, e2, _⟩ := handlePlay_unseen w s env hen hmem
      refine ⟨s.reelId :: added, ?_, ?_, ?_, ?_⟩
      · simpa [playAll, e1] using h1
      · simp only [playAll, h2, e2, List.length_cons]; omega
      · refine List.nodup_cons.mpr ⟨?_, h3⟩
        intro hx
        have := h4 _ hx
        rw [e1] at this
        simp at this
      · intro x hx
        rcases List.mem_cons.mp hx with h | h
        · rw [h]; exact hmem
        · have := h4 x h
          rw [e1] at this
          intro hxw
          exact this (List.mem_append_left _ hxw)

/-- C7 (scroll event).  With the extension enabled, a play event on a reel
not yet in `scrolledReels` adds its id and adds exactly 1 to
`totalReelsScrolled` and to `dailyStats.reelsScrolled`; a play event on a reel
already in `scrolledReels` leaves the three unchanged; and over any sequence
of play events `totalReelsScrolled` grows by the number of ids added to
`scrolledReels`, which are pairwise distinct and were not in it before. -/
theorem handlePlay_scroll_event (w : World)
    (hen : w.t.settings.extensionEnabled = true) :
    (∀ (s : Session) (env : Env), s.reelId ∉ w.t.scrolledReels →
      (handlePlay w s env).1.t.scrolledReels = w.t.scrolledReels ++ [s.reelId] ∧
      (handlePlay w s env).1.t.totalReelsScrolled = w.t.totalReelsScrolled + 1 ∧
      (handlePlay w s env).1.t.dailyStats =
        w.t.dailyStats.map (fun d => { d with reelsScrolled := d.reelsScrolled + 1 })) ∧
    (∀ (s : Session) (env : Env), s.reelId ∈ w.t.scrolledReels →
      (handlePlay w s env).1.t.scrolledReels = w.t.scrolledReels ∧
      (handlePlay w s env).1.t.totalReelsScrolled = w.t.totalReelsScrolled ∧
      (handlePlay w s env).1.t.dailyStats = w.t.dailyStats) ∧
    (∀ evs : List (Session × Env), ∃ added : List String,
      (playAll w evs).t.scrolledReels = w.t.scrolledReels ++ added ∧
      (playAll w evs).t.totalReelsScrolled = w.t.totalReelsScrolled + added.length ∧
      added.Nodup ∧ ∀ x ∈ added, x ∉ w.t.scrolledReels) :=
  ⟨fun s env h => handlePlay_unseen w s env hen h,
   fun s env h => handlePlay_seen w s env h,
   fun evs => playAll_counts evs w hen⟩

/-- C7 on the sample tracker, which has seen `A` and `B`: a play of `C`
counts, a play of `A` does not. -/
theorem handlePlay_scroll_event_witness :
    ((handlePlay (sampleWorld 0) { reelId := "C", playStartTime := none, hasBeenCounted := false }
        sampleEnv).1.t.scrolledReels = ["A", "B"] ++ ["C"] ∧
     (handlePlay (sampleWorld 0) { reelId := "C", playStartTime := none, hasBeenCounted := false }
        sampleEnv).1.t.totalReelsScrolled = 2 + 1 ∧
     (handlePlay (sampleWorld 0) { reelId := "C", playStartTime := none, hasBeenCounted := false }
        sampleEnv).1.t.dailyStats =
      some { date := "Wed Nov 04 2026", watchTime := 5000, reelsWatched := 2,
             reelsScrolled := 3 }) ∧
    ((handlePlay (sampleWorld 0) { reelId := "A", playStartTime := none, hasBeenCounted := false }
        sampleEnv).1.t.scrolledReels = ["A", "B"] ∧
     (handlePlay (sampleWorld 0) { reelId := "A", playStartTime := none, hasBeenCounted := false }
        sampleEnv).1.t.totalReelsScrolled = 2 ∧
     (handlePlay (sampleWorld 0) { reelId := "A", playStartTime := none, hasBeenCounted := false }
        sampleEnv).1.t.dailyStats = some sampleDaily) :=
  ⟨(handlePlay_scroll_event (sampleWorld 0) rfl).1
      { reelId := "C", playStartTime := none, hasBeenCounted := false } sampleEnv (by decide),
   (handlePlay_scroll_event (sampleWorld 0) rfl).2.1
      { reelId := "A", playStartTime := none, hasBeenCounted := false } sampleEnv (by decide)⟩

theorem foldl_setAdd_of_nodup (l : List String) :
    ∀ acc : List String, l.Nodup → (∀ x ∈ l, x ∉ acc) → l.foldl setAdd acc = acc ++ l := by
  induction l with
  | nil => intro acc _ _; simp
  | cons a rest ih =>
    intro acc hnd hdis
    have ha : a ∉ acc := hdis a (List.mem_cons_self _ _)
    have hnd1 := List.nodup_cons.mp hnd
    simp only [List.foldl_cons, setAdd, ha, if_false]
    rw [ih (acc ++ [a]) hnd1.2]
    · simp
    · intro x hx hmem
      rcases List.mem_append.mp hmem with h | h
      · exact hdis x (List.mem_cons_of_mem _ hx) h
      · simp only [List.mem_singleton] at h
        rw [h] at hx
        exact hnd1.1 hx

/-- With the first definition of `saveScrollCounter` (the one the class body
overrides) the round trip through the store would restore both the set and
the counter. -/
theorem shadowed_save_round_trip (w : World) (hw : w.writeFails = false)
    (hnd : w.t.scrolledReels.Nodup) :
    (loadScrollCounter (saveScrollCounterShadowed w)).t.scrolledReels = w.t.scrolledReels ∧
    (loadScrollCounter (saveScrollCounterShadowed w)).t.totalReelsScrolled =
      w.t.totalReelsScrolled := by
  unfold loadScrollCounter saveScrollCounterShadowed
  simp only [hw, Bool.false_eq_true, if_false, Option.getD_some, setOfArray]
  rw [foldl_setAdd_of_nodup _ [] hnd (by simp)]
  simp

/-- C8, the code at the failing input.  The tracker has counted `A` and `B`
(counter 2).  After `saveScrollCounter` and `loadScrollCounter` on the same
store the counter is 2 but `scrolledReels` is empty (the key `scrolledReels`
was never written), and a play event on `A` counts it a second time. -/
theorem scrolledReels_lost_on_reload :
    (sampleWorld 0).t.scrolledReels = ["A", "B"] ∧
    (saveScrollCounter (sampleWorld 0)).store.scrolledReels = none ∧
    (loadScrollCounter (saveScrollCounter (sampleWorld 0))).t.totalReelsScrolled = 2 ∧
    (loadScrollCounter (saveScrollCounter (sampleWorld 0))).t.scrolledReels = [] ∧
    (handlePlay (loadScrollCounter (saveScrollCounter (sampleWorld 0)))
        { reelId := "A", playStartTime := none, hasBeenCounted := false }
        sampleEnv).1.t.totalReelsScrolled = 3 := by
  decide

/-- C9 (suppressed evaluation).  When `enableLimits` is false, or
`showNotifications` is false, or there is no daily aggregate, or a snooze
deadline lies in the future, `checkLimitsAndStartAlerts` returns the state it
was given: the scheduler fields are unchanged and nothing is presented,
whatever the aggregate and the limits are. -/
theorem checkLimitsAndStartAlerts_suppressed (w : World) (env : Env)
    (h : w.t.settings.enableLimits = false ∨ w.t.settings.showNotifications = false ∨
      w.t.dailyStats = none ∨ ∃ u, w.t.snoozeUntil = some u ∧ env.now < u) :
    checkLimitsAndStartAlerts w env = w := by
  unfold checkLimitsAndStartAlerts
  rcases h with h | h | h | ⟨u, hu, hlt⟩
  · simp [h]
  · simp [h]
  · simp [h]
  · have hu0 : u ≠ 0 := by omega
    split
    · rfl
    · split
      · rfl
      · simp [hu, hu0, hlt]

/-- C9 with the time limit exceeded (61000 ms against one minute) and a snooze
deadline in the future. -/
theorem checkLimitsAndStartAlerts_suppressed_witness :
    checkLimitsAndStartAlerts (limitWorld 61000 (some 2000000)) sampleEnv =
      limitWorld 61000 (some 2000000) :=
  checkLimitsAndStartAlerts_suppressed (limitWorld 61000 (some 2000000)) sampleEnv
    (Or.inr (Or.inr (Or.inr ⟨2000000, rfl, by decide⟩)))

@[simp]
theorem hideNotification_settings (w : World) :
    (hideNotification w).t.settings = w.t.settings := by
  unfold hideNotification
  split
  · split <;> rfl
  · rfl

@[simp]
theorem hideNotification_dailyStats (w : World) :
    (hideNotification w).t.dailyStats = w.t.dailyStats := by
  unfold hideNotification
  split
  · split <;> rfl
  · rfl

@[simp]
theorem hideNotification_watchedReels (w : World) :
    (hideNotification w).t.watchedReels = w.t.watchedReels := by
  unfold hideNotification
  split
  · split <;> rfl
  · rfl

@[simp]
theorem hideNotification_isShowingLimitAlert (w : World) :
    (hideNotification w).t.isShowingLimitAlert = w.t.isShowingLimitAlert := by
  unfold hideNotification
  split
  · split <;> rfl
  · rfl

@[simp]
theorem hideNotification_limitAlertInterval (w : World) :
    (hideNotification w).t.limitAlertInterval = w.t.limitAlertInterval := by
  unfold hideNotification
  split
  · split <;> rfl
  · rfl

@[simp]
theorem hideNotification_limitAlertCount (w : World) :
    (hideNotification w).t.limitAlertCount = w.t.limitAlertCount := by
  unfold hideNotification
  split
  · split <;> rfl
  · rfl

@[simp]
theorem hideNotification_snoozeUntil (w : World) :
    (hideNotification w).t.snoozeUntil = w.t.snoozeUntil := by
  unfold hideNotification
  split
  · split <;> rfl
  · rfl

@[simp]
theorem hideNotification_snoozeTimeout (w : World) :
    (hideNotification w).t.snoozeTimeout = w.t.snoozeTimeout := by
  unfold hideNotification
  split
  · split <;> rfl
  · rfl

@[simp]
theorem hideNotification_lastPositiveNotification (w : World) :
    (hideNotification w).t.lastPositiveNotification = w.t.lastPositiveNotification := by
  unfold hideNotification
  split
  · split <;> rfl
  · rfl

@[simp]
theorem hideNotification_periodicCheckInterval (w : World) :
    (hideNotification w).t.periodicCheckInterval = w.t.periodicCheckInterval := by
  unfold hideNotification
  split
  · split <;> rfl
  · rfl

@[simp]
theorem hideNotification_statusLogInterval (w : World) :
    (hideNotification w).t.statusLogInterval = w.t.statusLogInterval := by
  unfold hideNotification
  split
  · split <;> rfl
  · rfl

@[simp]
theorem hideNotification_activeReel (w : World) :
    (hideNotification w).t.activeReel = w.t.activeReel := by
  unfold hideNotification
  split
  · split <;> rfl
  · rfl

@[simp]
theorem hideNotification_scrolledReels (w : World) :
    (hideNotification w).t.scrolledReels = w.t.scrolledReels := by
  unfold hideNotification
  split
  · split <;> rfl
  · rfl

@[simp]
theorem hideNotification_totalReelsScrolled (w : World) :
    (hideNotification w).t.totalReelsScrolled = w.t.totalReelsScrolled := by
  unfold hideNotification
  split
  · split <;> rfl
  · rfl

@[simp]
theorem hideNotification_timers (w : World) :
    (hideNotification w).timers = w.timers := by
  unfold hideNotification
  split
  · split <;> rfl
  · rfl

@[simp]
theorem hideNotification_nextTimerId (w : World) :
    (hideNotification w).nextTimerId = w.nextTimerId := by
  unfold hideNotification
  split
  · split <;> rfl
  · rfl

@[simp]
theorem hideNotification_store (w : World) :
    (hideNotification w).store = w.store := by
  unfold hideNotification
  split
  · split <;> rfl
  · rfl

@[simp]
theorem hideNotification_writeFails (w : World) :
    (hideNotification w).writeFails = w.writeFails := by
  unfold hideNotification
  split
  · split <;> rfl
  · rfl

theorem alertFrame_refl (w : World) : AlertFrame w w :=
  ⟨rfl, rfl, rfl, rfl, rfl, rfl, rfl, rfl, rfl⟩

theorem alertFrame_trans {a b c : World} (h1 : AlertFrame a b) (h2 : AlertFrame b c) :
    AlertFrame a c :=
  ⟨h2.isShowingLimitAlert.trans h1.isShowingLimitAlert,
   h2.limitAlertInterval.trans h1.limitAlertInterval,
   h2.limitAlertCount.trans h1.limitAlertCount,
   h2.snoozeUntil.trans h1.snoozeUntil,
   h2.snoozeTimeout.trans h1.snoozeTimeout,
   h2.periodicCheckInterval.trans h1.periodicCheckInterval,
   h2.statusLogInterval.trans h1.statusLogInterval,
   h2.timers.trans h1.timers,
   h2.nextTimerId.trans h1.nextTimerId⟩

theorem alertFrame_hideNotification (w : World) : AlertFrame w (hideNotification w) :=
  ⟨by simp, by simp, by simp, by simp, by simp, by simp, by simp, by simp, by simp⟩

theorem alertFrame_present (w : World) (c : String) (x : Shown) :
    AlertFrame w (present w c x) :=
  ⟨rfl, rfl, rfl, rfl, rfl, rfl, rfl, rfl, rfl⟩

theorem alertFrame_showNotification (w : World) (reelId : String) :
    AlertFrame w (showNotification w reelId) := by
  unfold showNotification
  cases mapGet w.t.watchedReels reelId with
  | none => exact alertFrame_refl w
  | some r =>
    dsimp only
    split
    · exact alertFrame_refl w
    · exact alertFrame_trans (alertFrame_hideNotification w) (alertFrame_present _ _ _)

theorem alertFrame_showScrollMilestoneNotification (w : World) (n : Nat) :
    AlertFrame w (showScrollMilestoneNotification w n) := by
  unfold showScrollMilestoneNotification
  split
  · exact alertFrame_trans (alertFrame_hideNotification w) (alertFrame_present _ _ _)
  · exact alertFrame_refl w

theorem alertFrame_showPositiveReinforcement (w : World) (env : Env) :
    AlertFrame w (showPositiveReinforcement w env) := by
  unfold showPositiveReinforcement
  split
  · exact alertFrame_refl w
  · split
    · exact alertFrame_refl w
    · refine alertFrame_trans ?_ (alertFrame_present _ _ _)
      refine alertFrame_trans ?_ (alertFrame_hideNotification _)
      exact ⟨rfl, rfl, rfl, rfl, rfl, rfl, rfl, rfl, rfl⟩

theorem alertFrame_showOccasionalEncouragement (w : World) (env : Env) :
    AlertFrame w (showOccasionalEncouragement w env) := by
  unfold showOccasionalEncouragement
  split
  · exact alertFrame_refl w
  · split
    · exact alertFrame_refl w
    · split
      · split
        · exact alertFrame_showPositiveReinforcement w env
        · exact alertFrame_refl w
      · exact alertFrame_refl w

theorem alertFrame_showSnoozeConfirmation (w : World) (minutes : ℚ) :
    AlertFrame w (showSnoozeConfirmation w minutes) :=
  alertFrame_trans (alertFrame_hideNotification w) (alertFrame_present _ _ _)

theorem alertFrame_showSnoozeEndedNotification (w : World) (minutes : ℚ) :
    AlertFrame w (showSnoozeEndedNotification w minutes) :=
  alertFrame_trans (alertFrame_hideNotification w) (alertFrame_present _ _ _)

theorem alertFrame_showLimitAlert (w : World) (d : DailyStats)
    (hds : w.t.dailyStats = some d)
    (hex : (timeExceeded w.t.settings d || reelsExceeded w.t.settings d) = true) :
    AlertFrame w (showLimitAlert w) := by
  have hne : ¬ ((!timeExceeded w.t.settings d && !reelsExceeded w.t.settings d) = true) := by
    cases h1 : timeExceeded w.t.settings d <;> cases h2 : reelsExceeded w.t.settings d <;>
      simp_all
  unfold showLimitAlert
  by_cases h0 : (!w.t.settings.enableLimits || !w.t.settings.showNotifications) = true
  · rw [if_pos h0]
    exact alertFrame_refl w
  · rw [if_neg h0]
    simp only [hds]
    rw [if_neg hne]
    cases w.t.notificationElement with
    | none => exact alertFrame_present _ _ _
    | some e =>
      dsimp only
      split
      · exact alertFrame_refl w
      · exact alertFrame_trans (alertFrame_hideNotification w) (alertFrame_present _ _ _)

theorem timeExceeded_iff (s : Settings) (d : DailyStats) (tl : Nat)
    (htl : s.timeLimit = some tl) :
    timeExceeded s d = true ↔ (tl : Int) * 60000 ≤ d.watchTime := by
  unfold timeExceeded geLimit
  simp only [htl, Option.map_some', decide_eq_true_eq]
  push_cast
  constructor <;> intro h <;> omega

theorem reelsExceeded_iff (s : Settings) (d : DailyStats) (rl : Nat)
    (hrl : s.reelLimit = some rl) :
    reelsExceeded s d = true ↔ rl ≤ d.reelsScrolled := by
  unfold reelsExceeded geLimit
  simp only [hrl, decide_eq_true_eq]
  omega

theorem snooze_inactive (w : World) (env : Env)
    (hsn : ∀ u, w.t.snoozeUntil = some u → u ≤ env.now) :
    (match w.t.snoozeUntil with
      | some u => decide (u ≠ 0) && decide (env.now < u)
      | none => false) = false := by
  cases h : w.t.snoozeUntil with
  | none => rfl
  | some u =>
    have := hsn u h
    simp only [Bool.and_eq_false_imp, decide_eq_true_eq, decide_eq_false_iff_not, not_lt]
    intro _
    exact this

/-- What `checkLimitsAndStartAlerts` does when it is not suppressed. -/
theorem checkLimitsAndStartAlerts_active (w : World) (env : Env) (d : DailyStats)
    (hl : w.t.settings.enableLimits = true)
    (hn : w.t.settings.showNotifications = true)
    (hds : w.t.dailyStats = some d)
    (hsn : ∀ u, w.t.snoozeUntil = some u → u ≤ env.now) :
    checkLimitsAndStartAlerts w env =
      if (timeExceeded w.t.settings d || reelsExceeded w.t.settings d) &&
          !w.t.isShowingLimitAlert then startPeriodicAlerts w
      else if !timeExceeded w.t.settings d && !reelsExceeded w.t.settings d &&
          w.t.limitAlertInterval.isSome then
        showPositiveReinforcement (stopPeriodicAlerts w) env
      else if !timeExceeded w.t.settings d && !reelsExceeded w.t.settings d then
        showOccasionalEncouragement w env
      else w := by
  unfold checkLimitsAndStartAlerts
  simp only [hl, hn, hds, snooze_inactive w env hsn, Bool.not_true, Bool.or_self,
    Bool.false_eq_true, if_false]

theorem startPeriodicAlerts_eq (w : World) (hint : w.t.limitAlertInterval = none) :
    startPeriodicAlerts w = showLimitAlert (armedWorld w) := by
  unfold startPeriodicAlerts
  simp only [hint, Option.isSome_none, Bool.false_eq_true, if_false]
  rfl

theorem startPeriodicAlerts_alerting (w : World) (d : DailyStats)
    (hds : w.t.dailyStats = some d)
    (hex : (timeExceeded w.t.settings d || reelsExceeded w.t.settings d) = true)
    (hint : w.t.limitAlertInterval = none) :
    Alerting (startPeriodicAlerts w) 0 ∧
    (startPeriodicAlerts w).timers =
      w.timers ++ [{ id := w.nextTimerId + 1, kind := TimerKind.limitAlert, delay := 2500 }] ∧
    (startPeriodicAlerts w).t.limitAlertInterval = some (w.nextTimerId + 1) := by
  rw [startPeriodicAlerts_eq w hint]
  have hf := alertFrame_showLimitAlert (armedWorld w) d hds hex
  refine ⟨⟨?_, ?_, ?_⟩, ?_, ?_⟩
  · rw [hf.isShowingLimitAlert]; rfl
  · rw [hf.limitAlertCount]; rfl
  · refine ⟨w.nextTimerId + 1, ?_, ?_⟩
    · rw [hf.limitAlertInterval]; rfl
    · rw [hf.timers]
      simp [armedWorld, getNotificationInterval]
  · rw [hf.timers]
    simp [armedWorld, getNotificationInterval]
  · rw [hf.limitAlertInterval]; rfl

/-- When the scheduler is in `Normal` and the limit check is not suppressed,
it ends in `Alerting` exactly when a limit is reached. -/
theorem enters_alerting_iff (w : World) (env : Env) (d : DailyStats)
    (tl rl : Nat)
    (hl : w.t.settings.enableLimits = true)
    (hn : w.t.settings.showNotifications = true)
    (hds : w.t.dailyStats = some d)
    (htl : w.t.settings.timeLimit = some tl)
    (hrl : w.t.settings.reelLimit = some rl)
    (hsn : ∀ u, w.t.snoozeUntil = some u → u ≤ env.now)
    (hflag : w.t.isShowingLimitAlert = false)
    (hint : w.t.limitAlertInterval = none) :
    Alerting (checkLimitsAndStartAlerts w env) 0 ↔
      ((tl : Int) * 60000 ≤ d.watchTime ∨ rl ≤ d.reelsScrolled) := by
  rw [checkLimitsAndStartAlerts_active w env d hl hn hds hsn,
    ← timeExceeded_iff w.t.settings d tl htl, ← reelsExceeded_iff w.t.settings d rl hrl]
  by_cases hex : (timeExceeded w.t.settings d || reelsExceeded w.t.settings d) = true
  · simp only [hex, hflag, Bool.not_false, Bool.and_self, if_true]
    have h := (startPeriodicAlerts_alerting w d hds hex hint).1
    simp only [Bool.or_eq_true] at hex
    exact ⟨fun _ => hex, fun _ => h⟩
  · have hte : timeExceeded w.t.settings d = false := by
      cases h1 : timeExceeded w.t.settings d <;> simp_all
    have hre : reelsExceeded w.t.settings d = false := by
      cases h1 : reelsExceeded w.t.settings d <;> simp_all
    simp only [hte, hre, hint, Bool.or_self, Bool.false_and, Bool.false_eq_true, if_false,
      Bool.not_false, Bool.and_self, Option.isSome_none, Bool.and_false, if_true, or_self,
      iff_false]
    intro hal
    have := (alertFrame_showOccasionalEncouragement w env).isShowingLimitAlert
    rw [hal.1, hflag] at this
    exact absurd this (by decide)

/-- C10 (entering Alerting).  With limits and notifications enabled, a daily
aggregate present, defined limits, no snooze deadline in the future and the
scheduler not alerting (flag clear, no interval handle),
`checkLimitsAndStartAlerts` leaves the scheduler in `Alerting` (flag set,
repeat interval of 2500 ms pending under the stored handle, alert counter 0)
exactly when `watchTime ≥ timeLimit * 60000` or `reelsScrolled ≥ reelLimit`. -/
theorem checkLimitsAndStartAlerts_enters (w : World) (env : Env) (d : DailyStats)
    (tl rl : Nat)
    (hl : w.t.settings.enableLimits = true)
    (hn : w.t.settings.showNotifications = true)
    (hds : w.t.dailyStats = some d)
    (htl : w.t.settings.timeLimit = some tl)
    (hrl : w.t.settings.reelLimit = some rl)
    (hsn : ∀ u, w.t.snoozeUntil = some u → u ≤ env.now)
    (hflag : w.t.isShowingLimitAlert = false)
    (hint : w.t.limitAlertInterval = none) :
    Alerting (checkLimitsAndStartAlerts w env) 0 ↔
      ((tl : Int) * 60000 ≤ d.watchTime ∨ rl ≤ d.reelsScrolled) :=
  enters_alerting_iff w env d tl rl hl hn hds htl hrl hsn hflag hint

/-- C10 on the scenario of the specification: a one-minute limit and 61000 ms
of watch time enter `Alerting`; 59999 ms with 2 of 100 reels do not. -/
theorem checkLimitsAndStartAlerts_enters_witness :
    Alerting (checkLimitsAndStartAlerts (limitWorld 61000 none) sampleEnv) 0 ∧
    ¬ Alerting (checkLimitsAndStartAlerts (limitWorld 59999 none) sampleEnv) 0 :=
  ⟨(checkLimitsAndStartAlerts_enters (limitWorld 61000 none) sampleEnv
      { sampleDaily with watchTime := 61000 } 1 100 rfl rfl rfl rfl rfl
      (by intro u h; cases h) rfl rfl).2 (Or.inl (by decide)),
   fun h => absurd
    ((checkLimitsAndStartAlerts_enters (limitWorld 59999 none) sampleEnv
      { sampleDaily with watchTime := 59999 } 1 100 rfl rfl rfl rfl rfl
      (by intro u h; cases h) rfl rfl).1 h) (by decide)⟩

theorem stopPeriodicAlerts_flag (w : World) :
    (stopPeriodicAlerts w).t.isShowingLimitAlert = false := by
  unfold stopPeriodicAlerts
  simp

theorem stopPeriodicAlerts_interval (w : World) :
    (stopPeriodicAlerts w).t.limitAlertInterval = none := by
  unfold stopPeriodicAlerts
  cases h : w.t.limitAlertInterval <;> simp [h]

theorem stopPeriodicAlerts_timers (w : World) :
    (stopPeriodicAlerts w).timers =
      match w.t.limitAlertInterval with
      | some id => w.timers.filter (fun tm => decide (tm.id ≠ id))
      | none => w.timers := by
  unfold stopPeriodicAlerts
  cases h : w.t.limitAlertInterval <;> simp [clearTimer]

theorem stopPeriodicAlerts_lastPositive (w : World) :
    (stopPeriodicAlerts w).t.lastPositiveNotification = w.t.lastPositiveNotification := by
  unfold stopPeriodicAlerts
  cases h : w.t.limitAlertInterval <;> simp [clearTimer]

theorem stopPeriodicAlerts_snoozeUntil (w : World) :
    (stopPeriodicAlerts w).t.snoozeUntil = w.t.snoozeUntil := by
  unfold stopPeriodicAlerts
  cases h : w.t.limitAlertInterval <;> simp [clearTimer]

theorem stopPeriodicAlerts_snoozeTimeout (w : World) :
    (stopPeriodicAlerts w).t.snoozeTimeout = w.t.snoozeTimeout := by
  unfold stopPeriodicAlerts
  cases h : w.t.limitAlertInterval <;> simp [clearTimer]

theorem stopPeriodicAlerts_nextTimerId (w : World) :
    (stopPeriodicAlerts w).nextTimerId = w.nextTimerId := by
  unfold stopPeriodicAlerts
  cases h : w.t.limitAlertInterval <;> simp [clearTimer]

theorem stopPeriodicAlerts_periodicCheckInterval (w : World) :
    (stopPeriodicAlerts w).t.periodicCheckInterval = w.t.periodicCheckInterval := by
  unfold stopPeriodicAlerts
  cases h : w.t.limitAlertInterval <;> simp [clearTimer]

theorem stopPeriodicAlerts_statusLogInterval (w : World) :
    (stopPeriodicAlerts w).t.statusLogInterval = w.t.statusLogInterval := by
  unfold stopPeriodicAlerts
  cases h : w.t.limitAlertInterval <;> simp [clearTimer]

/-- What `showPositiveReinforcement` presents and records, with notifications
enabled: one element and the clock reading when at least an hour has passed
since `lastPositiveNotification`, nothing otherwise. -/
theorem showPositiveReinforcement_spec (w : World) (env : Env)
    (hn : w.t.settings.showNotifications = true) :
    (w.t.lastPositiveNotification + 3600000 ≤ env.now →
      (showPositiveReinforcement w env).shown =
        w.shown ++ [Shown.positiveReinforcement env.randomMessage] ∧
      (showPositiveReinforcement w env).t.lastPositiveNotification = env.now) ∧
    (env.now < w.t.lastPositiveNotification + 3600000 →
      showPositiveReinforcement w env = w) := by
  unfold showPositiveReinforcement
  constructor
  · intro h
    have h1 : ¬ ((env.now : Int) - (w.t.lastPositiveNotification : Int) < 3600000) := by omega
    simp only [hn, Bool.not_true, Bool.false_eq_true, if_false, h1]
    simp [present, hideNotification_shown]
  · intro h
    have h1 : (env.now : Int) - (w.t.lastPositiveNotification : Int) < 3600000 := by omega
    simp only [hn, Bool.not_true, Bool.false_eq_true, if_false, h1, if_true]

/-- C11 (leaving Alerting).  With limits and notifications enabled, a daily
aggregate present, defined limits, no snooze deadline in the future, an
interval handle stored and neither limit reached,
`checkLimitsAndStartAlerts` clears the repeat interval (handle reset, no
timer pending under it), clears the alerting flag, and presents a
positive-reinforcement element when at least an hour has passed since the
last one (recording the clock reading), and none otherwise. -/
theorem checkLimitsAndStartAlerts_leaves (w : World) (env : Env) (d : DailyStats)
    (tl rl id : Nat)
    (hl : w.t.settings.enableLimits = true)
    (hn : w.t.settings.showNotifications = true)
    (hds : w.t.dailyStats = some d)
    (htl : w.t.settings.timeLimit = some tl)
    (hrl : w.t.settings.reelLimit = some rl)
    (hsn : ∀ u, w.t.snoozeUntil = some u → u ≤ env.now)
    (hint : w.t.limitAlertInterval = some id)
    (htime : d.watchTime < (tl : Int) * 60000)
    (hreels : d.reelsScrolled < rl) :
    (checkLimitsAndStartAlerts w env).t.limitAlertInterval = none ∧
    (∀ tm ∈ (checkLimitsAndStartAlerts w env).timers, tm.id ≠ id) ∧
    (checkLimitsAndStartAlerts w env).t.isShowingLimitAlert = false ∧
    (w.t.lastPositiveNotification + 3600000 ≤ env.now →
      (checkLimitsAndStartAlerts w env).shown =
        w.shown ++ [Shown.positiveReinforcement env.randomMessage] ∧
      (checkLimitsAndStartAlerts w env).t.lastPositiveNotification = env.now) ∧
    (env.now < w.t.lastPositiveNotification + 3600000 →
      (checkLimitsAndStartAlerts w env).shown = w.shown ∧
      (checkLimitsAndStartAlerts w env).t.lastPositiveNotification =
        w.t.lastPositiveNotification) := by
  have hte : timeExceeded w.t.settings d = false := by
    cases h : timeExceeded w.t.settings d
    · rfl
    · have := (timeExceeded_iff w.t.settings d tl htl).mp h
      omega
  have hre : reelsExceeded w.t.settings d = false := by
    cases h : reelsExceeded w.t.settings d
    · rfl
    · have := (reelsExceeded_iff w.t.settings d rl hrl).mp h
      omega
  rw [checkLimitsAndStartAlerts_active w env d hl hn hds hsn]
  simp only [hte, hre, hint, Bool.or_self, Bool.false_and, Bool.false_eq_true, if_false,
    Bool.not_false, Bool.and_self, Option.isSome_some, if_true]
  have hf := alertFrame_showPositiveReinforcement (stopPeriodicAlerts w) env
  have hn1 : (stopPeriodicAlerts w).t.settings.showNotifications = true := by
    rw [(frame_stopPeriodicAlerts w).settings]; exact hn
  have hsp := showPositiveReinforcement_spec (stopPeriodicAlerts w) env hn1
  rw [stopPeriodicAlerts_lastPositive, stopPeriodicAlerts_shown] at hsp
  refine ⟨?_, ?_, ?_, hsp.1, ?_⟩
  · rw [hf.limitAlertInterval, stopPeriodicAlerts_interval]
  · rw [hf.timers, stopPeriodicAlerts_timers, hint]
    intro tm htm
    simpa using (List.mem_filter.mp htm).2
  · rw [hf.isShowingLimitAlert, stopPeriodicAlerts_flag]
  · intro hlt
    rw [hsp.2 hlt]
    exact ⟨stopPeriodicAlerts_shown w, stopPeriodicAlerts_lastPositive w⟩

/-- C11 on the sample tracker in `Alerting` with 5000 ms watched against a
one-minute limit: the interval and the flag are cleared and, more than an hour
after the last positive notification, one is presented. -/
theorem checkLimitsAndStartAlerts_leaves_witness :
    (checkLimitsAndStartAlerts alertingWorld lateEnv).t.limitAlertInterval = none ∧
    (checkLimitsAndStartAlerts alertingWorld lateEnv).t.isShowingLimitAlert = false ∧
    (checkLimitsAndStartAlerts alertingWorld lateEnv).shown =
      [] ++ [Shown.positiveReinforcement 1] :=
  ⟨(checkLimitsAndStartAlerts_leaves alertingWorld lateEnv sampleDaily 1 100 3 rfl rfl rfl rfl
      rfl (by intro u h; cases h) rfl (by decide) (by decide)).1,
   (checkLimitsAndStartAlerts_leaves alertingWorld lateEnv sampleDaily 1 100 3 rfl rfl rfl rfl
      rfl (by intro u h; cases h) rfl (by decide) (by decide)).2.2.1,
   ((checkLimitsAndStartAlerts_leaves alertingWorld lateEnv sampleDaily 1 100 3 rfl rfl rfl rfl
      rfl (by intro u h; cases h) rfl (by decide) (by decide)).2.2.2.1 (by decide)).1⟩

theorem posQuiet_refl (w : World) : PosQuiet w w := ⟨rfl, rfl⟩

theorem posQuiet_trans {a b c : World} (h1 : PosQuiet a b) (h2 : PosQuiet b c) :
    PosQuiet a c :=
  ⟨h2.1.trans h1.1, h2.2.trans h1.2⟩

theorem posQuiet_of_eq {w w1 : World}
    (h1 : w1.t.lastPositiveNotification = w.t.lastPositiveNotification)
    (h2 : w1.shown = w.shown) : PosQuiet w w1 :=
  ⟨h1, by unfold positives; rw [h2]⟩

theorem posStep_of_quiet {now : Nat} {w w1 : World} (h : PosQuiet w w1) : PosStep now w w1 :=
  Or.inl h

theorem posStep_trans {now : Nat} {a b c : World} (h1 : PosStep now a b)
    (h2 : PosStep now b c) : PosStep now a c := by
  rcases h1 with q1 | ⟨e1, l1, p1⟩
  · rcases h2 with q2 | ⟨e2, l2, p2⟩
    · exact Or.inl (posQuiet_trans q1 q2)
    · refine Or.inr ⟨?_, l2, ?_⟩
      · rw [← q1.1]; exact e2
      · rw [p2, q1.2]
  · rcases h2 with q2 | ⟨e2, _, _⟩
    · exact Or.inr ⟨e1, q2.1.trans l1, by rw [q2.2, p1]⟩
    · rw [l1] at e2
      omega

theorem posQuiet_hideNotification (w : World) : PosQuiet w (hideNotification w) :=
  posQuiet_of_eq (by simp) (hideNotification_shown w)

theorem posQuiet_present (w : World) (c : String) (x : Shown) (hx : isPositive x = false) :
    PosQuiet w (present w c x) :=
  ⟨rfl, by simp [positives, present, hx]⟩

theorem posQuiet_showNotification (w : World) (reelId : String) :
    PosQuiet w (showNotification w reelId) := by
  unfold showNotification
  cases mapGet w.t.watchedReels reelId with
  | none => exact posQuiet_refl w
  | some r =>
    dsimp only
    split
    · exact posQuiet_refl w
    · exact posQuiet_trans (posQuiet_hideNotification w) (posQuiet_present _ _ _ rfl)

theorem posQuiet_showScrollMilestoneNotification (w : World) (n : Nat) :
    PosQuiet w (showScrollMilestoneNotification w n) := by
  unfold showScrollMilestoneNotification
  split
  · exact posQuiet_trans (posQuiet_hideNotification w) (posQuiet_present _ _ _ rfl)
  · exact posQuiet_refl w

theorem posQuiet_showSnoozeConfirmation (w : World) (minutes : ℚ) :
    PosQuiet w (showSnoozeConfirmation w minutes) :=
  posQuiet_trans (posQuiet_hideNotification w) (posQuiet_present _ _ _ rfl)

theorem posQuiet_showSnoozeEndedNotification (w : World) (minutes : ℚ) :
    PosQuiet w (showSnoozeEndedNotification w minutes) :=
  posQuiet_trans (posQuiet_hideNotification w) (posQuiet_present _ _ _ rfl)

theorem posQuiet_stopPeriodicAlerts (w : World) : PosQuiet w (stopPeriodicAlerts w) :=
  posQuiet_of_eq (stopPeriodicAlerts_lastPositive w) (stopPeriodicAlerts_shown w)

theorem posQuiet_showLimitAlert (w : World) : PosQuiet w (showLimitAlert w) := by
  unfold showLimitAlert
  split
  · exact posQuiet_refl w
  · split
    · exact posQuiet_refl w
    · split
      · exact posQuiet_stopPeriodicAlerts w
      · dsimp only
        split
        · split
          · exact posQuiet_refl w
          · exact posQuiet_trans (posQuiet_hideNotification w) (posQuiet_present _ _ _ rfl)
        · exact posQuiet_present _ _ _ rfl

theorem posQuiet_startPeriodicAlerts (w : World) : PosQuiet w (startPeriodicAlerts w) := by
  unfold startPeriodicAlerts
  split
  · exact posQuiet_refl w
  · refine posQuiet_trans ?_ (posQuiet_showLimitAlert _)
    exact ⟨rfl, rfl⟩

theorem posStep_showPositiveReinforcement (w : World) (env : Env) :
    PosStep env.now w (showPositiveReinforcement w env) := by
  unfold showPositiveReinforcement
  split
  · exact Or.inl (posQuiet_refl w)
  · split
    · exact Or.inl (posQuiet_refl w)
    · rename_i h
      refine Or.inr ⟨by omega, ?_, ?_⟩
      · simp [present]
      · simp [positives, present, hideNotification_shown, isPositive]

theorem posStep_showOccasionalEncouragement (w : World) (env : Env) :
    PosStep env.now w (showOccasionalEncouragement w env) := by
  unfold showOccasionalEncouragement
  split
  · exact Or.inl (posQuiet_refl w)
  · split
    · exact Or.inl (posQuiet_refl w)
    · split
      · split
        · exact posStep_showPositiveReinforcement w env
        · exact Or.inl (posQuiet_refl w)
      · exact Or.inl (posQuiet_refl w)

theorem posStep_checkLimitsAndStartAlerts (w : World) (env : Env) :
    PosStep env.now w (checkLimitsAndStartAlerts w env) := by
  unfold checkLimitsAndStartAlerts
  split
  · exact Or.inl (posQuiet_refl w)
  · split
    · exact Or.inl (posQuiet_refl w)
    · split
      · exact Or.inl (posQuiet_refl w)
      · dsimp only
        split
        · exact Or.inl (posQuiet_startPeriodicAlerts w)
        · split
          · exact posStep_trans (Or.inl (posQuiet_stopPeriodicAlerts w))
              (posStep_showPositiveReinforcement _ env)
          · split
            · exact posStep_showOccasionalEncouragement w env
            · exact Or.inl (posQuiet_refl w)

theorem posQuiet_afterSaves (w : World) (reelId : String) (duration : Int) (env : Env)
    (r : ReelData) : PosQuiet w (afterSaves w reelId duration env r) := by
  refine posQuiet_of_eq ?_ (afterSaves_shown w reelId duration env r)
  unfold afterSaves
  simp only [saveWatchedReels_t]
  cases h : w.t.dailyStats <;> simp [h, saveDailyStats_t]

theorem posStep_recordWatch (w : World) (reelId : String) (duration : Int) (env : Env) :
    PosStep env.now w (recordWatch w reelId duration env) := by
  by_cases hen : w.t.settings.extensionEnabled = true
  · by_cases hd : 1000 ≤ duration
    · cases hr : mapGet w.t.watchedReels reelId with
      | none =>
        have : recordWatch w reelId duration env = w := by
          unfold recordWatch
          simp [hen, not_lt.mpr hd, hr]
        rw [this]
        exact Or.inl (posQuiet_refl w)
      | some r =>
        rw [recordWatch_counted w reelId duration env r hen hd hr]
        refine posStep_trans (Or.inl ?_) (posStep_checkLimitsAndStartAlerts _ env)
        split
        · exact posQuiet_trans (posQuiet_afterSaves w reelId duration env r)
            (posQuiet_showNotification _ reelId)
        · exact posQuiet_afterSaves w reelId duration env r
    · have : recordWatch w reelId duration env = w := by
        unfold recordWatch
        simp [hen, not_le.mp hd]
      rw [this]
      exact Or.inl (posQuiet_refl w)
  · have : recordWatch w reelId duration env = w := by
      unfold recordWatch
      simp [hen]
    rw [this]
    exact Or.inl (posQuiet_refl w)

theorem posStep_handlePlay (w : World) (s : Session) (env : Env) :
    PosStep env.now w (handlePlay w s env).1 := by
  unfold handlePlay
  split
  · exact Or.inl (posQuiet_refl w)
  · dsimp only
    split
    · exact Or.inl ⟨rfl, rfl⟩
    · refine posStep_trans (Or.inl ?_) (posStep_checkLimitsAndStartAlerts _ env)
      refine posQuiet_trans ?_ (posQuiet_showScrollMilestoneNotification _ _)
      refine posQuiet_of_eq ?_ ?_
      · rw [saveScrollCounter_t]
        cases h : w.t.dailyStats <;> simp [saveDailyStats_t]
      · rw [saveScrollCounter_shown]
        cases h : w.t.dailyStats <;> simp [saveDailyStats_shown]

theorem posStep_handlePause (w : World) (s : Session) (env : Env) :
    PosStep env.now w (handlePause w s env).1 := by
  unfold handlePause
  split
  · exact posStep_recordWatch _ _ _ _
  · exact Or.inl (posQuiet_refl w)

theorem posStep_handleEnded (w : World) (s : Session) (env : Env) :
    PosStep env.now w (handleEnded w s env).1 := by
  unfold handleEnded
  split
  · exact posStep_recordWatch _ _ _ _
  · exact Or.inl (posQuiet_refl w)

theorem posStep_handleVisibilityChange (w : World) (s : Session) (hidden : Bool) (env : Env) :
    PosStep env.now w (handleVisibilityChange w s hidden env).1 := by
  unfold handleVisibilityChange
  split
  · exact posStep_recordWatch _ _ _ _
  · exact Or.inl (posQuiet_refl w)

theorem posQuiet_snoozeAlerts (w : World) (minutes : ℚ) (now : Nat) :
    PosQuiet w (snoozeAlerts w minutes now) := by
  unfold snoozeAlerts
  refine posQuiet_trans ?_ (posQuiet_showSnoozeConfirmation _ _)
  refine posQuiet_of_eq ?_ ?_
  · dsimp only
    cases h : (stopPeriodicAlerts w).t.snoozeTimeout <;>
      simp [setTimer, clearTimer, stopPeriodicAlerts_lastPositive]
  · dsimp only
    cases h : (stopPeriodicAlerts w).t.snoozeTimeout <;>
      simp [setTimer, clearTimer, stopPeriodicAlerts_shown]

theorem posQuiet_stopTrackerTimers (w : World) : PosQuiet w (stopTrackerTimers w) := by
  unfold stopTrackerTimers
  refine posQuiet_of_eq ?_ ?_
  · dsimp only
    rw [stopPeriodicAlerts_lastPositive]
    cases h1 : w.t.periodicCheckInterval <;> cases h2 : w.t.statusLogInterval <;>
      simp [clearTimer, h2]
  · dsimp only
    rw [stopPeriodicAlerts_shown]
    cases h1 : w.t.periodicCheckInterval <;> cases h2 : w.t.statusLogInterval <;>
      simp [clearTimer, h2]

theorem posQuiet_startPeriodicChecks (w : World) : PosQuiet w (startPeriodicChecks w) := by
  unfold startPeriodicChecks
  refine posQuiet_of_eq ?_ ?_
  · dsimp only
    cases h1 : w.t.periodicCheckInterval <;> cases h2 : w.t.statusLogInterval <;>
      simp [clearTimer, setTimer, h2]
  · dsimp only
    cases h1 : w.t.periodicCheckInterval <;> cases h2 : w.t.statusLogInterval <;>
      simp [clearTimer, setTimer, h2]

theorem posStep_timerFires (w : World) (tm : Timer) (env : Env) :
    PosStep env.now w (timerFires w tm env) := by
  unfold timerFires
  split
  · split
    · refine posStep_trans (posStep_trans (Or.inl ?_) (posStep_checkLimitsAndStartAlerts _ env))
        (Or.inl (posQuiet_showSnoozeEndedNotification _ _))
      exact ⟨rfl, rfl⟩
    · refine Or.inl (posQuiet_trans ?_ (posQuiet_showLimitAlert _))
      exact ⟨rfl, rfl⟩
    · exact Or.inl (posQuiet_refl w)
    · exact Or.inl (posQuiet_refl w)
  · exact Or.inl (posQuiet_refl w)

theorem posStep_step (w : World) (c : Call) (env : Env) :
    PosStep env.now w (step w c env) := by
  cases c with
  | play s => exact posStep_handlePlay w s env
  | pause s => exact posStep_handlePause w s env
  | ended s => exact posStep_handleEnded w s env
  | visibilityChange s hidden => exact posStep_handleVisibilityChange w s hidden env
  | recordWatch reelId duration => exact posStep_recordWatch w reelId duration env
  | checkLimits => exact posStep_checkLimitsAndStartAlerts w env
  | timerFires tm => exact posStep_timerFires w tm env
  | snooze minutes => exact Or.inl (posQuiet_snoozeAlerts w minutes env.now)
  | stopTimers => exact Or.inl (posQuiet_stopTrackerTimers w)
  | startChecks => exact Or.inl (posQuiet_startPeriodicChecks w)

theorem emissionTimes_spaced (calls : List (Call × Env)) :
    ∀ w : World,
      (∀ t ∈ emissionTimes w calls, w.t.lastPositiveNotification + 3600000 ≤ t) ∧
      (emissionTimes w calls).Pairwise (fun a b => a + 3600000 ≤ b) ∧
      (run w calls).t.lastPositiveNotification =
        (emissionTimes w calls).getLastD w.t.lastPositiveNotification := by
  induction calls with
  | nil =>
    intro w
    simp [emissionTimes, run]
  | cons e rest ih =>
    intro w
    obtain ⟨c, env⟩ := e
    obtain ⟨ih1, ih2, ih3⟩ := ih (step w c env)
    rcases posStep_step w c env with ⟨hl, hp⟩ | ⟨hle, hl, hp⟩
    · have hz : positives (step w c env) - positives w = 0 := by omega
      simp only [emissionTimes, run, hz, List.replicate_zero, List.nil_append]
      rw [hl] at ih1 ih3
      exact ⟨ih1, ih2, ih3⟩
    · have hz : positives (step w c env) - positives w = 1 := by omega
      simp only [emissionTimes, run, hz, List.replicate_one, List.singleton_append]
      rw [hl] at ih1 ih3
      refine ⟨?_, ?_, ?_⟩
      · intro t ht
        rcases List.mem_cons.mp ht with h | h
        · omega
        · have := ih1 t h
          omega
      · exact List.pairwise_cons.mpr ⟨ih1, ih2⟩
      · rw [ih3]
        cases emissionTimes (step w c env) rest <;> simp [List.getLastD]

/-- C12 (positive-reinforcement rate limit).  Over every sequence of calls
into the tracker (listeners, commits, limit checks, timers firing, snoozes,
stopping and restarting the periodic timers), whatever the clock readings,
any two positive-reinforcement notifications are presented at least
3,600,000 ms apart, and once one has been presented
`lastPositiveNotification` is the clock reading of the most recent one. -/
theorem positive_reinforcement_rate_limit (w : World) (calls : List (Call × Env)) :
    (emissionTimes w calls).Pairwise (fun a b => a + 3600000 ≤ b) ∧
    (∀ t, (emissionTimes w calls).getLast? = some t →
      (run w calls).t.lastPositiveNotification = t) := by
  obtain ⟨_, h2, h3⟩ := emissionTimes_spaced calls w
  refine ⟨h2, ?_⟩
  intro t ht
  rw [h3]
  cases hl : emissionTimes w calls with
  | nil => rw [hl] at ht; simp at ht
  | cons a l =>
    rw [hl] at ht
    rw [List.getLast?_eq_getLast _ (List.cons_ne_nil a l)] at ht
    simp only [Option.some.injEq] at ht
    rw [← ht, List.getLast_eq_getLastD]
    cases l <;> simp [List.getLastD]

/-- C12 on the sample tracker in `Alerting`: the limit check made at
4,000,000 ms presents a positive notification and records that reading. -/
theorem positive_reinforcement_rate_limit_witness :
    (run alertingWorld [(Call.checkLimits, lateEnv)]).t.lastPositiveNotification = 4000000 :=
  (positive_reinforcement_rate_limit alertingWorld [(Call.checkLimits, lateEnv)]).2 4000000
    (by decide)

/-- C13, as the code has it.  With notifications enabled and a daily
aggregate present, `showOccasionalEncouragement` presents a
positive-reinforcement element when `reelsWatched` is a positive multiple of
25, the random gate passes and at least 3,600,000 ms have passed since the
last positive notification; when the count is not a positive multiple of 25,
or the gate fails, or less than 3,600,000 ms have passed, it changes
nothing. -/
theorem showOccasionalEncouragement_spec (w : World) (env : Env) (d : DailyStats)
    (hn : w.t.settings.showNotifications = true)
    (hds : w.t.dailyStats = some d) :
    (0 < d.reelsWatched → d.reelsWatched % 25 = 0 → env.randomGate = true →
      w.t.lastPositiveNotification + 3600000 ≤ env.now →
      (showOccasionalEncouragement w env).shown =
        w.shown ++ [Shown.positiveReinforcement env.randomMessage] ∧
      (showOccasionalEncouragement w env).t.lastPositiveNotification = env.now) ∧
    (¬ (0 < d.reelsWatched ∧ d.reelsWatched % 25 = 0) ∨ env.randomGate = false ∨
        env.now < w.t.lastPositiveNotification + 3600000 →
      showOccasionalEncouragement w env = w) := by
  unfold showOccasionalEncouragement
  simp only [hn, hds, Bool.not_true, Bool.false_eq_true, if_false]
  constructor
  · intro h0 h25 hg hlate
    have h1 : (env.now : Int) - (w.t.lastPositiveNotification : Int) > 1800000 := by omega
    simp only [h0, h25, hg, and_self, if_true, h1, gt_iff_lt]
    exact (showPositiveReinforcement_spec w env hn).1 hlate
  · intro h
    by_cases hc : d.reelsWatched > 0 ∧ d.reelsWatched % 25 = 0 ∧ env.randomGate = true
    · rw [if_pos hc]
      have hearly : env.now < w.t.lastPositiveNotification + 3600000 := by
        rcases h with h | h | h
        · exact absurd ⟨hc.1, hc.2.1⟩ h
        · rw [hc.2.2] at h; exact absurd h (by decide)
        · exact h
      split
      · exact (showPositiveReinforcement_spec w env hn).2 hearly
      · rfl
    · rw [if_neg hc]

/-- C13 (amended) on 25 reels watched with the gate open: an hour after the
last positive notification one is presented; with the gate closed nothing
changes. -/
theorem showOccasionalEncouragement_spec_witness :
    (showOccasionalEncouragement (encouragementWorld 0) lateEnv).shown =
      [] ++ [Shown.positiveReinforcement 1] ∧
    showOccasionalEncouragement (encouragementWorld 0) sampleEnv = encouragementWorld 0 :=
  ⟨((showOccasionalEncouragement_spec (encouragementWorld 0) lateEnv
      { sampleDaily with reelsWatched := 25 } rfl rfl).1
      (by decide) (by decide) rfl (by decide)).1,
   (showOccasionalEncouragement_spec (encouragementWorld 0) sampleEnv
      { sampleDaily with reelsWatched := 25 } rfl rfl).2 (Or.inr (Or.inl rfl))⟩

/-- C13 as stated fails: 25 reels watched, the gate open and 2,000,000 ms
(more than 30 minutes) since the last positive notification, yet nothing is
presented and `lastPositiveNotification` is not written. -/
theorem no_encouragement_after_half_hour :
    (halfHourEnv.now : Int) - ((encouragementWorld 0).t.lastPositiveNotification : Int) >
      1800000 ∧
    halfHourEnv.randomGate = true ∧
    (encouragementWorld 0).t.dailyStats.map DailyStats.reelsWatched = some 25 ∧
    showOccasionalEncouragement (encouragementWorld 0) halfHourEnv = encouragementWorld 0 ∧
    (showOccasionalEncouragement (encouragementWorld 0) halfHourEnv).shown = [] := by
  decide

theorem snoozeMs_of_nat (m : Nat) (hm : 1 ≤ m) : snoozeMs (m : ℚ) = m * 60000 := by
  unfold snoozeMs
  have h : Rat.floor (m : ℚ) = (m : Int) := by
    show ⌊(m : ℚ)⌋ = (m : Int)
    exact Int.floor_natCast m
  rw [h]
  have h1 : max (1 : Int) (m : Int) = (m : Int) := by omega
  rw [h1, Int.toNat_ofNat]
  omega

theorem snoozeMs_of_lt_one (minutes : ℚ) (h : minutes < 1) : snoozeMs minutes = 60000 := by
  unfold snoozeMs
  have h0 : Rat.floor minutes < 1 := by
    show ⌊minutes⌋ < 1
    rw [Int.floor_lt]
    exact_mod_cast h
  have h1 : max (1 : Int) (Rat.floor minutes) = 1 := by omega
  rw [h1]
  rfl

theorem snoozeAlerts_fields (w : World) (minutes : ℚ) (now : Nat) :
    (snoozeAlerts w minutes now).t.isShowingLimitAlert = false ∧
    (snoozeAlerts w minutes now).t.limitAlertInterval = none ∧
    (snoozeAlerts w minutes now).t.snoozeUntil = some (now + snoozeMs minutes) ∧
    (snoozeAlerts w minutes now).t.snoozeTimeout = some (w.nextTimerId + 1) ∧
    (snoozeAlerts w minutes now).timers =
      ((stopPeriodicAlerts w).timers.filter
        (fun tm => match w.t.snoozeTimeout with
          | some id => decide (tm.id ≠ id)
          | none => true)) ++
      [{ id := w.nextTimerId + 1, kind := TimerKind.snoozeResume minutes,
         delay := snoozeMs minutes }] := by
  unfold snoozeAlerts
  have hf := fun x => alertFrame_showSnoozeConfirmation x minutes
  refine ⟨?_, ?_, ?_, ?_, ?_⟩
  · rw [(hf _).isShowingLimitAlert]
    dsimp only
    cases h : (stopPeriodicAlerts w).t.snoozeTimeout <;>
      simp [setTimer, clearTimer, stopPeriodicAlerts_flag]
  · rw [(hf _).limitAlertInterval]
    dsimp only
    cases h : (stopPeriodicAlerts w).t.snoozeTimeout <;>
      simp [setTimer, clearTimer, stopPeriodicAlerts_interval]
  · rw [(hf _).snoozeUntil]
    dsimp only
    cases h : (stopPeriodicAlerts w).t.snoozeTimeout <;>
      simp [setTimer, clearTimer]
  · rw [(hf _).snoozeTimeout]
    dsimp only
    cases h : (stopPeriodicAlerts w).t.snoozeTimeout <;>
      simp [setTimer, clearTimer, stopPeriodicAlerts_nextTimerId]
  · rw [(hf _).timers]
    dsimp only
    have hst := stopPeriodicAlerts_snoozeTimeout w
    cases h : (stopPeriodicAlerts w).t.snoozeTimeout <;>
      simp [setTimer, clearTimer, stopPeriodicAlerts_nextTimerId, ← hst, h]

/-- C14 (snooze).  From every state and for every `minutes`,
`snoozeAlerts(minutes)` at clock reading `now` leaves the alerting flag clear
and the interval handle reset, with no limit-alert timer pending under the
former handle; `snoozeUntil` is `now + minutes * 60000` for every integer
`minutes ≥ 1` and `now + 60000` for every `minutes < 1`; and the resume timer
pending under the stored handle was armed with the delay `snoozeUntil - now`. -/
theorem snoozeAlerts_spec (w : World) (minutes : ℚ) (now : Nat) :
    (snoozeAlerts w minutes now).t.isShowingLimitAlert = false ∧
    (snoozeAlerts w minutes now).t.limitAlertInterval = none ∧
    (∀ id, w.t.limitAlertInterval = some id →
      ∀ tm ∈ (snoozeAlerts w minutes now).timers, tm.isLimitAlert = true → tm.id ≠ id) ∧
    (∀ m : Nat, 1 ≤ m → minutes = (m : ℚ) →
      (snoozeAlerts w minutes now).t.snoozeUntil = some (now + m * 60000)) ∧
    (minutes < 1 → (snoozeAlerts w minutes now).t.snoozeUntil = some (now + 60000)) ∧
    (∃ u id, (snoozeAlerts w minutes now).t.snoozeUntil = some u ∧
      (snoozeAlerts w minutes now).t.snoozeTimeout = some id ∧
      ({ id := id, kind := TimerKind.snoozeResume minutes, delay := u - now } : Timer) ∈
        (snoozeAlerts w minutes now).timers) := by
  obtain ⟨h1, h2, h3, h4, h5⟩ := snoozeAlerts_fields w minutes now
  refine ⟨h1, h2, ?_, ?_, ?_, ?_⟩
  · intro id hid tm htm hkind
    rw [h5] at htm
    rcases List.mem_append.mp htm with h | h
    · have hmem := (List.mem_filter.mp h).1
      rw [stopPeriodicAlerts_timers, hid] at hmem
      simpa using (List.mem_filter.mp hmem).2
    · simp only [List.mem_singleton] at h
      rw [h] at hkind
      simp [Timer.isLimitAlert] at hkind
  · intro m hm heq
    rw [h3, heq, snoozeMs_of_nat m hm]
  · intro hlt
    rw [h3, snoozeMs_of_lt_one minutes hlt]
  · refine ⟨now + snoozeMs minutes, w.nextTimerId + 1, h3, h4, ?_⟩
    rw [h5]
    simp

/-- C14 on the sample tracker in `Alerting`: a snooze of 30 minutes at
1,000,000 ms sets the deadline 1,800,000 ms later; a snooze of half a minute
sets it 60,000 ms later. -/
theorem snoozeAlerts_spec_witness :
    (snoozeAlerts alertingWorld 30 1000000).t.snoozeUntil = some (1000000 + 30 * 60000) ∧
    (snoozeAlerts alertingWorld (1 / 2) 1000000).t.snoozeUntil = some (1000000 + 60000) :=
  ⟨(snoozeAlerts_spec alertingWorld 30 1000000).2.2.2.1 30 (by decide) (by norm_num),
   (snoozeAlerts_spec alertingWorld (1 / 2) 1000000).2.2.2.2.1 (by norm_num)⟩

theorem snoozeKeep_refl (w : World) : SnoozeKeep w w := ⟨rfl, List.Sublist.refl _⟩

theorem snoozeKeep_trans {a b c : World} (h1 : SnoozeKeep a b) (h2 : SnoozeKeep b c) :
    SnoozeKeep a c :=
  ⟨h2.1.trans h1.1, h2.2.trans h1.2⟩

theorem snoozeKeep_of_alertFrame {w w1 : World} (h : AlertFrame w w1) : SnoozeKeep w w1 :=
  ⟨h.snoozeTimeout, by unfold snoozeTimers; rw [h.timers]⟩

theorem snoozeInv_of_keep {w w1 : World} (h : SnoozeKeep w w1) (hi : SnoozeInv w) :
    SnoozeInv w1 := by
  refine ⟨le_trans h.2.length_le hi.1, ?_⟩
  intro tm htm
  rw [h.1]
  exact hi.2 tm (h.2.subset htm)

theorem alertFrame_saveDailyStats (w : World) : AlertFrame w (saveDailyStats w).1 := by
  unfold saveDailyStats
  split <;> exact ⟨rfl, rfl, rfl, rfl, rfl, rfl, rfl, rfl, rfl⟩

theorem alertFrame_saveWatchedReels (w : World) : AlertFrame w (saveWatchedReels w).1 := by
  unfold saveWatchedReels
  split <;> exact ⟨rfl, rfl, rfl, rfl, rfl, rfl, rfl, rfl, rfl⟩

theorem alertFrame_saveScrollCounter (w : World) : AlertFrame w (saveScrollCounter w) := by
  unfold saveScrollCounter
  split <;> exact ⟨rfl, rfl, rfl, rfl, rfl, rfl, rfl, rfl, rfl⟩

theorem alertFrame_afterSaves (w : World) (reelId : String) (duration : Int) (env : Env)
    (r : ReelData) : AlertFrame w (afterSaves w reelId duration env r) := by
  unfold afterSaves
  refine alertFrame_trans ?_ (alertFrame_saveWatchedReels _)
  dsimp only
  cases w.t.dailyStats with
  | none => exact ⟨rfl, rfl, rfl, rfl, rfl, rfl, rfl, rfl, rfl⟩
  | some d =>
    refine alertFrame_trans ?_ (alertFrame_saveDailyStats _)
    exact ⟨rfl, rfl, rfl, rfl, rfl, rfl, rfl, rfl, rfl⟩

theorem snoozeKeep_stopPeriodicAlerts (w : World) : SnoozeKeep w (stopPeriodicAlerts w) := by
  refine ⟨stopPeriodicAlerts_snoozeTimeout w, ?_⟩
  unfold snoozeTimers
  rw [stopPeriodicAlerts_timers]
  cases w.t.limitAlertInterval with
  | none => exact List.Sublist.refl _
  | some id => exact (List.filter_sublist _).filter _

theorem snoozeKeep_showLimitAlert (w : World) : SnoozeKeep w (showLimitAlert w) := by
  unfold showLimitAlert
  split
  · exact snoozeKeep_refl w
  · split
    · exact snoozeKeep_refl w
    · split
      · exact snoozeKeep_stopPeriodicAlerts w
      · dsimp only
        split
        · split
          · exact snoozeKeep_refl w
          · exact snoozeKeep_of_alertFrame
              (alertFrame_trans (alertFrame_hideNotification w) (alertFrame_present _ _ _))
        · exact snoozeKeep_of_alertFrame (alertFrame_present _ _ _)

theorem snoozeKeep_startPeriodicAlerts (w : World) : SnoozeKeep w (startPeriodicAlerts w) := by
  unfold startPeriodicAlerts
  split
  · exact snoozeKeep_refl w
  · refine snoozeKeep_trans ?_ (snoozeKeep_showLimitAlert _)
    refine ⟨rfl, ?_⟩
    simp [snoozeTimers, setTimer, Timer.isSnoozeResume]

theorem snoozeKeep_checkLimitsAndStartAlerts (w : World) (env : Env) :
    SnoozeKeep w (checkLimitsAndStartAlerts w env) := by
  unfold checkLimitsAndStartAlerts
  split
  · exact snoozeKeep_refl w
  · split
    · exact snoozeKeep_refl w
    · split
      · exact snoozeKeep_refl w
      · dsimp only
        split
        · exact snoozeKeep_startPeriodicAlerts w
        · split
          · exact snoozeKeep_trans (snoozeKeep_stopPeriodicAlerts w)
              (snoozeKeep_of_alertFrame (alertFrame_showPositiveReinforcement _ env))
          · split
            · exact snoozeKeep_of_alertFrame (alertFrame_showOccasionalEncouragement w env)
            · exact snoozeKeep_refl w

theorem snoozeKeep_recordWatch (w : World) (reelId : String) (duration : Int) (env : Env) :
    SnoozeKeep w (recordWatch w reelId duration env) := by
  by_cases hen : w.t.settings.extensionEnabled = true
  · by_cases hd : 1000 ≤ duration
    · cases hr : mapGet w.t.watchedReels reelId with
      | none =>
        have : recordWatch w reelId duration env = w := by
          unfold recordWatch
          simp [hen, not_lt.mpr hd, hr]
        rw [this]
        exact snoozeKeep_refl w
      | some r =>
        rw [recordWatch_counted w reelId duration env r hen hd hr]
        refine snoozeKeep_trans ?_ (snoozeKeep_checkLimitsAndStartAlerts _ env)
        split
        · exact snoozeKeep_of_alertFrame
            (alertFrame_trans (alertFrame_afterSaves w reelId duration env r)
              (alertFrame_showNotification _ reelId))
        · exact snoozeKeep_of_alertFrame (alertFrame_afterSaves w reelId duration env r)
    · have : recordWatch w reelId duration env = w := by
        unfold recordWatch
        simp [hen, not_le.mp hd]
      rw [this]
      exact snoozeKeep_refl w
  · have : recordWatch w reelId duration env = w := by
      unfold recordWatch
      simp [hen]
    rw [this]
    exact snoozeKeep_refl w

theorem snoozeKeep_handlePlay (w : World) (s : Session) (env : Env) :
    SnoozeKeep w (handlePlay w s env).1 := by
  unfold handlePlay
  split
  · exact snoozeKeep_refl w
  · dsimp only
    split
    · exact ⟨rfl, List.Sublist.refl _⟩
    · refine snoozeKeep_trans ?_ (snoozeKeep_checkLimitsAndStartAlerts _ env)
      refine snoozeKeep_of_alertFrame ?_
      refine alertFrame_trans ?_ (alertFrame_showScrollMilestoneNotification _ _)
      refine alertFrame_trans ?_ (alertFrame_saveScrollCounter _)
      cases w.t.dailyStats with
      | none => exact ⟨rfl, rfl, rfl, rfl, rfl, rfl, rfl, rfl, rfl⟩
      | some d =>
        refine alertFrame_trans ?_ (alertFrame_saveDailyStats _)
        exact ⟨rfl, rfl, rfl, rfl, rfl, rfl, rfl, rfl, rfl⟩

theorem snoozeKeep_handlePause (w : World) (s : Session) (env : Env) :
    SnoozeKeep w (handlePause w s env).1 := by
  unfold handlePause
  split
  · exact snoozeKeep_recordWatch _ _ _ _
  · exact snoozeKeep_refl w

theorem snoozeKeep_handleEnded (w : World) (s : Session) (env : Env) :
    SnoozeKeep w (handleEnded w s env).1 := by
  unfold handleEnded
  split
  · exact snoozeKeep_recordWatch _ _ _ _
  · exact snoozeKeep_refl w

theorem snoozeKeep_handleVisibilityChange (w : World) (s : Session) (hidden : Bool)
    (env : Env) : SnoozeKeep w (handleVisibilityChange w s hidden env).1 := by
  unfold handleVisibilityChange
  split
  · exact snoozeKeep_recordWatch _ _ _ _
  · exact snoozeKeep_refl w

theorem snoozeKeep_clearTimer (w : World) (id : Nat) : SnoozeKeep w (clearTimer w id) :=
  ⟨rfl, (List.filter_sublist _).filter _⟩

theorem snoozeKeep_stopTrackerTimers (w : World) : SnoozeKeep w (stopTrackerTimers w) := by
  unfold stopTrackerTimers
  dsimp only
  refine snoozeKeep_trans (snoozeKeep_trans ?_ (snoozeKeep_stopPeriodicAlerts _))
    ⟨rfl, List.Sublist.refl _⟩
  have h1 : SnoozeKeep w
      (match w.t.periodicCheckInterval with
        | some id =>
          let w0 := clearTimer w id
          { w0 with t := { w0.t with periodicCheckInterval := none } }
        | none => w) := by
    cases w.t.periodicCheckInterval with
    | none => exact snoozeKeep_refl w
    | some id => exact snoozeKeep_trans (snoozeKeep_clearTimer w id) ⟨rfl, List.Sublist.refl _⟩
  refine snoozeKeep_trans h1 ?_
  generalize (match w.t.periodicCheckInterval with
        | some id =>
          let w0 := clearTimer w id
          { w0 with t := { w0.t with periodicCheckInterval := none } }
        | none => w) = v
  cases v.t.statusLogInterval with
  | none => exact snoozeKeep_refl v
  | some id => exact snoozeKeep_trans (snoozeKeep_clearTimer v id) ⟨rfl, List.Sublist.refl _⟩

theorem snoozeKeep_setTimer (w : World) (kind : TimerKind) (delay : Nat)
    (hk : ∀ m, kind ≠ TimerKind.snoozeResume m) :
    SnoozeKeep w (setTimer w kind delay).1 := by
  refine ⟨rfl, ?_⟩
  have : Timer.isSnoozeResume { id := w.nextTimerId + 1, kind := kind, delay := delay } = false := by
    cases kind <;> simp_all [Timer.isSnoozeResume]
  simp [snoozeTimers, setTimer, this]

theorem snoozeKeep_startPeriodicChecks (w : World) : SnoozeKeep w (startPeriodicChecks w) := by
  unfold startPeriodicChecks
  dsimp only
  have h1 : SnoozeKeep w
      (match w.t.periodicCheckInterval with
        | some id => clearTimer w id
        | none => w) := by
    cases w.t.periodicCheckInterval with
    | none => exact snoozeKeep_refl w
    | some id => exact snoozeKeep_clearTimer w id
  generalize (match w.t.periodicCheckInterval with
        | some id => clearTimer w id
        | none => w) = v at h1 ⊢
  have h2 : SnoozeKeep v
      (match v.t.statusLogInterval with
        | some id => clearTimer v id
        | none => v) := by
    cases v.t.statusLogInterval with
    | none => exact snoozeKeep_refl v
    | some id => exact snoozeKeep_clearTimer v id
  generalize (match v.t.statusLogInterval with
        | some id => clearTimer v id
        | none => v) = u at h2 ⊢
  refine snoozeKeep_trans (snoozeKeep_trans h1 h2) ?_
  refine snoozeKeep_trans (snoozeKeep_setTimer u TimerKind.periodicCheck 5000 (by simp)) ?_
  refine snoozeKeep_trans ⟨rfl, List.Sublist.refl _⟩
    (snoozeKeep_trans (snoozeKeep_setTimer _ TimerKind.statusLog 30000 (by simp))
      ⟨rfl, List.Sublist.refl _⟩)

theorem snoozeTimers_snoozeAlerts (w : World) (minutes : ℚ) (now : Nat) (hi : SnoozeInv w) :
    snoozeTimers (snoozeAlerts w minutes now) =
      [{ id := w.nextTimerId + 1, kind := TimerKind.snoozeResume minutes,
         delay := snoozeMs minutes }] := by
  unfold snoozeTimers
  rw [(snoozeAlerts_fields w minutes now).2.2.2.2, List.filter_append]
  have hnil : List.filter Timer.isSnoozeResume
      ((stopPeriodicAlerts w).timers.filter
        (fun tm => match w.t.snoozeTimeout with
          | some id => decide (tm.id ≠ id)
          | none => true)) = [] := by
    rw [List.filter_eq_nil_iff]
    intro tm htm hs
    have hmem := List.mem_filter.mp htm
    have hin : tm ∈ snoozeTimers w := by
      have hsub := (snoozeKeep_stopPeriodicAlerts w).2
      exact hsub.subset (List.mem_filter.mpr ⟨hmem.1, hs⟩)
    have hh := hi.2 tm hin
    have hg := hmem.2
    rw [hh] at hg
    simp at hg
  rw [hnil]
  simp [Timer.isSnoozeResume]

theorem snoozeInv_snoozeAlerts (w : World) (minutes : ℚ) (now : Nat) (hi : SnoozeInv w) :
    SnoozeInv (snoozeAlerts w minutes now) := by
  unfold SnoozeInv
  rw [snoozeTimers_snoozeAlerts w minutes now hi]
  refine ⟨by simp, ?_⟩
  intro tm htm
  simp only [List.mem_singleton] at htm
  rw [htm, (snoozeAlerts_fields w minutes now).2.2.2.1]

theorem snoozeInv_timerFires (w : World) (tm : Timer) (env : Env) (hi : SnoozeInv w) :
    SnoozeInv (timerFires w tm env) := by
  unfold timerFires
  split
  · rename_i hmem
    split
    · rename_i minutes hk
      refine snoozeInv_of_keep
        (snoozeKeep_trans (snoozeKeep_checkLimitsAndStartAlerts _ env)
          (snoozeKeep_of_alertFrame (alertFrame_showSnoozeEndedNotification _ minutes))) ?_
      have hs : tm.isSnoozeResume = true := by simp [Timer.isSnoozeResume, hk]
      have hin : tm ∈ snoozeTimers w := List.mem_filter.mpr ⟨hmem, hs⟩
      have hnil : List.filter Timer.isSnoozeResume (w.timers.erase tm) = [] := by
        rw [← List.erase_filter]
        have hlen := hi.1
        unfold snoozeTimers at hin hlen
        cases hl : List.filter Timer.isSnoozeResume w.timers with
        | nil => rfl
        | cons a rest =>
          rw [hl] at hin hlen
          have hrest : rest = [] := by
            cases rest with
            | nil => rfl
            | cons b r => simp at hlen
          subst hrest
          simp only [List.mem_singleton] at hin
          subst hin
          simp
      refine ⟨?_, ?_⟩
      · show (List.filter Timer.isSnoozeResume (w.timers.erase tm)).length ≤ 1
        rw [hnil]
        simp
      · intro x hx
        have : x ∈ List.filter Timer.isSnoozeResume (w.timers.erase tm) := hx
        rw [hnil] at this
        cases this
    · refine snoozeInv_of_keep (snoozeKeep_trans ⟨rfl, List.Sublist.refl _⟩
        (snoozeKeep_showLimitAlert _)) hi
    · exact hi
    · exact hi
  · exact hi

theorem snoozeInv_step (w : World) (c : Call) (env : Env) (hi : SnoozeInv w) :
    SnoozeInv (step w c env) := by
  cases c with
  | play s => exact snoozeInv_of_keep (snoozeKeep_handlePlay w s env) hi
  | pause s => exact snoozeInv_of_keep (snoozeKeep_handlePause w s env) hi
  | ended s => exact snoozeInv_of_keep (snoozeKeep_handleEnded w s env) hi
  | visibilityChange s hidden =>
    exact snoozeInv_of_keep (snoozeKeep_handleVisibilityChange w s hidden env) hi
  | recordWatch reelId duration =>
    exact snoozeInv_of_keep (snoozeKeep_recordWatch w reelId duration env) hi
  | checkLimits => exact snoozeInv_of_keep (snoozeKeep_checkLimitsAndStartAlerts w env) hi
  | timerFires tm => exact snoozeInv_timerFires w tm env hi
  | snooze minutes => exact snoozeInv_snoozeAlerts w minutes env.now hi
  | stopTimers => exact snoozeInv_of_keep (snoozeKeep_stopTrackerTimers w) hi
  | startChecks => exact snoozeInv_of_keep (snoozeKeep_startPeriodicChecks w) hi

theorem snoozeInv_run (calls : List (Call × Env)) :
    ∀ w : World, SnoozeInv w → SnoozeInv (run w calls) := by
  induction calls with
  | nil => intro w hi; exact hi
  | cons e rest ih =>
    intro w hi
    obtain ⟨c, env⟩ := e
    exact ih _ (snoozeInv_step w c env hi)

theorem timerFires_not_pending (w : World) (tm : Timer) (env : Env) (h : tm ∉ w.timers) :
    timerFires w tm env = w := by
  unfold timerFires
  rw [if_neg h]

/-- C15 (re-snooze replaces).  Start from a state with no resume timer
pending.  After every sequence of calls into the tracker (snoozes, timers
firing, and every other call) at most one resume timer is pending, and a
pending one is the one whose handle is in `snoozeTimeout`.  A further
`snoozeAlerts` leaves exactly the timer it arms pending, under the stored
handle, so that any other resume timer (one armed by an earlier call) is no
longer pending and its firing does nothing. -/
theorem resnooze_replaces (w : World) (calls : List (Call × Env))
    (h0 : snoozeTimers w = []) :
    (snoozeTimers (run w calls)).length ≤ 1 ∧
    (∀ tm ∈ snoozeTimers (run w calls), (run w calls).t.snoozeTimeout = some tm.id) ∧
    (∀ (minutes : ℚ) (now : Nat),
      snoozeTimers (snoozeAlerts (run w calls) minutes now) =
        [{ id := (run w calls).nextTimerId + 1, kind := TimerKind.snoozeResume minutes,
           delay := snoozeMs minutes }] ∧
      (snoozeAlerts (run w calls) minutes now).t.snoozeTimeout =
        some ((run w calls).nextTimerId + 1) ∧
      ∀ (tm : Timer) (env : Env), tm.isSnoozeResume = true →
        tm ≠ { id := (run w calls).nextTimerId + 1, kind := TimerKind.snoozeResume minutes,
               delay := snoozeMs minutes } →
        timerFires (snoozeAlerts (run w calls) minutes now) tm env =
          snoozeAlerts (run w calls) minutes now) := by
  have hi0 : SnoozeInv w := by
    unfold SnoozeInv
    rw [h0]
    exact ⟨by simp, by simp⟩
  have hi := snoozeInv_run calls w hi0
  refine ⟨hi.1, hi.2, ?_⟩
  intro minutes now
  have hs := snoozeTimers_snoozeAlerts (run w calls) minutes now hi
  refine ⟨hs, (snoozeAlerts_fields (run w calls) minutes now).2.2.2.1, ?_⟩
  intro tm env hk hne
  apply timerFires_not_pending
  intro hmem
  have hin : tm ∈ snoozeTimers (snoozeAlerts (run w calls) minutes now) :=
    List.mem_filter.mpr ⟨hmem, hk⟩
  rw [hs] at hin
  simp only [List.mem_singleton] at hin
  exact hne hin

/-- C15 on the sample tracker: after a snooze of 30 minutes and a second one
of 5 minutes at most one resume timer is pending. -/
theorem resnooze_replaces_witness :
    (snoozeTimers (run (sampleWorld 0)
      [(Call.snooze 30, sampleEnv), (Call.snooze 5, lateEnv)])).length ≤ 1 :=
  (resnooze_replaces (sampleWorld 0) [(Call.snooze 30, sampleEnv), (Call.snooze 5, lateEnv)]
    rfl).1

theorem frame_snoozeAlerts (w : World) (minutes : ℚ) (now : Nat) :
    Frame w (snoozeAlerts w minutes now) := by
  unfold snoozeAlerts
  refine frame_trans ?_ (frame_trans (frame_hideNotification _) (frame_present _ _ _))
  refine frame_trans (frame_stopPeriodicAlerts w) ?_
  dsimp only
  cases (stopPeriodicAlerts w).t.snoozeTimeout <;>
    exact ⟨rfl, rfl, rfl, rfl, rfl, rfl, rfl, rfl⟩

theorem snoozeAlerts_shown (w : World) (minutes : ℚ) (now : Nat) :
    (snoozeAlerts w minutes now).shown = w.shown ++ [Shown.snoozeStarted minutes] := by
  unfold snoozeAlerts
  dsimp only
  cases h : (stopPeriodicAlerts w).t.snoozeTimeout <;>
    simp [showSnoozeConfirmation, present, hideNotification_shown, setTimer, clearTimer,
      stopPeriodicAlerts_shown]

theorem isSnoozeEnded_of_scheduler (x : Shown) (h : IsSchedulerEvent x) :
    isSnoozeEnded x = false := by
  cases x <;> simp_all [IsSchedulerEvent, isSnoozeEnded]

theorem alerting_of_alertFrame {w w1 : World} {n : Nat} (h : AlertFrame w w1) :
    Alerting w1 n ↔ Alerting w n := by
  unfold Alerting
  rw [h.isShowingLimitAlert, h.limitAlertCount, h.limitAlertInterval, h.timers]

theorem checkLimitsAndStartAlerts_snoozeUntil_none (w : World) (env : Env)
    (h : w.t.snoozeUntil = none) : (checkLimitsAndStartAlerts w env).t.snoozeUntil = none := by
  have hstop : ∀ v : World, (stopPeriodicAlerts v).t.snoozeUntil = v.t.snoozeUntil :=
    stopPeriodicAlerts_snoozeUntil
  have hshow : ∀ v : World, (showLimitAlert v).t.snoozeUntil = v.t.snoozeUntil := by
    intro v
    unfold showLimitAlert
    split
    · rfl
    · split
      · rfl
      · split
        · exact hstop v
        · dsimp only
          split
          · split
            · rfl
            · simp [present]
          · rfl
  unfold checkLimitsAndStartAlerts
  split
  · exact h
  · split
    · exact h
    · split
      · exact h
      · dsimp only
        split
        · unfold startPeriodicAlerts
          split
          · exact h
          · rw [hshow]; exact h
        · split
          · rw [(alertFrame_showPositiveReinforcement _ env).snoozeUntil, hstop]; exact h
          · split
            · rw [(alertFrame_showOccasionalEncouragement w env).snoozeUntil]; exact h
            · exact h

theorem resumeTimer_pending (w : World) (minutes : ℚ) (now : Nat) :
    resumeTimer w minutes ∈ (snoozeAlerts w minutes now).timers := by
  rw [(snoozeAlerts_fields w minutes now).2.2.2.2]
  simp [resumeTimer]

theorem snooze_expiry_eq (w : World) (minutes : ℚ) (now : Nat) (env : Env) :
    timerFires (snoozeAlerts w minutes now) (resumeTimer w minutes) env =
      showSnoozeEndedNotification
        (checkLimitsAndStartAlerts
          (resumedWorld (snoozeAlerts w minutes now) (resumeTimer w minutes)) env) minutes := by
  unfold timerFires
  rw [if_pos (resumeTimer_pending w minutes now)]
  rfl

/-- C16 (snooze lifecycle).  With limits and notifications enabled, defined
limits and a daily aggregate present, `snoozeAlerts(1)` followed by the firing
of the resume timer it armed (due after 60,000 ms, so expired once the clock
has advanced by 60,001 ms) leaves `snoozeUntil` and `snoozeTimeout` null, the
scheduler in `Alerting` exactly when the time limit or the reel limit is
reached, and exactly one more snooze-ended notification presented. -/
theorem snooze_lifecycle (w : World) (now : Nat) (env : Env) (d : DailyStats) (tl rl : Nat)
    (hl : w.t.settings.enableLimits = true)
    (hn : w.t.settings.showNotifications = true)
    (hds : w.t.dailyStats = some d)
    (htl : w.t.settings.timeLimit = some tl)
    (hrl : w.t.settings.reelLimit = some rl) :
    (resumeTimer w 1).delay = 60000 ∧
    (timerFires (snoozeAlerts w 1 now) (resumeTimer w 1) env).t.snoozeUntil = none ∧
    (timerFires (snoozeAlerts w 1 now) (resumeTimer w 1) env).t.snoozeTimeout = none ∧
    (Alerting (timerFires (snoozeAlerts w 1 now) (resumeTimer w 1) env) 0 ↔
      ((tl : Int) * 60000 ≤ d.watchTime ∨ rl ≤ d.reelsScrolled)) ∧
    (timerFires (snoozeAlerts w 1 now) (resumeTimer w 1) env).shown.countP isSnoozeEnded =
      w.shown.countP isSnoozeEnded + 1 := by
  rw [snooze_expiry_eq]
  have hfr := frame_snoozeAlerts w 1 now
  have hfields := snoozeAlerts_fields w 1 now
  have hend := fun v => alertFrame_showSnoozeEndedNotification v (1 : ℚ)
  refine ⟨rfl, ?_, ?_, ?_, ?_⟩
  · rw [(hend _).snoozeUntil]
    exact checkLimitsAndStartAlerts_snoozeUntil_none _ env rfl
  · rw [(hend _).snoozeTimeout, (snoozeKeep_checkLimitsAndStartAlerts _ env).1]
    rfl
  · rw [alerting_of_alertFrame (hend _)]
    refine enters_alerting_iff _ env d tl rl ?_ ?_ ?_ ?_ ?_ ?_ ?_ ?_
    · show (snoozeAlerts w 1 now).t.settings.enableLimits = true
      rw [hfr.settings]; exact hl
    · show (snoozeAlerts w 1 now).t.settings.showNotifications = true
      rw [hfr.settings]; exact hn
    · show (snoozeAlerts w 1 now).t.dailyStats = some d
      rw [hfr.dailyStats]; exact hds
    · show (snoozeAlerts w 1 now).t.settings.timeLimit = some tl
      rw [hfr.settings]; exact htl
    · show (snoozeAlerts w 1 now).t.settings.reelLimit = some rl
      rw [hfr.settings]; exact hrl
    · intro u hu
      cases hu
    · exact hfields.1
    · exact hfields.2.1
  · have hshown : ∀ v : World, (showSnoozeEndedNotification v 1).shown =
        v.shown ++ [Shown.snoozeEnded 1] := by
      intro v
      simp [showSnoozeEndedNotification, present, hideNotification_shown]
    rw [hshown, List.countP_append,
      emits_countP_eq (emits_checkLimitsAndStartAlerts _ env) isSnoozeEnded
        isSnoozeEnded_of_scheduler]
    show List.countP isSnoozeEnded (snoozeAlerts w 1 now).shown + _ = _
    rw [snoozeAlerts_shown, List.countP_append]
    simp [isSnoozeEnded]

/-- C16 on the scenario of the specification: with 61000 ms watched against a
one-minute limit the expiry re-enters `Alerting`; with 5000 ms it does not;
in both cases one snooze-ended notification is presented. -/
theorem snooze_lifecycle_witness :
    Alerting (timerFires (snoozeAlerts (limitWorld 61000 none) 1 1000000)
      (resumeTimer (limitWorld 61000 none) 1)
      { now := 1060001, randomGate := false, randomMessage := 0 }) 0 ∧
    ¬ Alerting (timerFires (snoozeAlerts (limitWorld 5000 none) 1 1000000)
      (resumeTimer (limitWorld 5000 none) 1)
      { now := 1060001, randomGate := false, randomMessage := 0 }) 0 ∧
    (timerFires (snoozeAlerts (limitWorld 61000 none) 1 1000000)
      (resumeTimer (limitWorld 61000 none) 1)
      { now := 1060001, randomGate := false, randomMessage := 0 }).shown.countP isSnoozeEnded =
        0 + 1 :=
  ⟨(snooze_lifecycle (limitWorld 61000 none) 1000000
      { now := 1060001, randomGate := false, randomMessage := 0 }
      { sampleDaily with watchTime := 61000 } 1 100 rfl rfl rfl rfl rfl).2.2.2.1.2
      (Or.inl (by decide)),
   fun h => absurd
    ((snooze_lifecycle (limitWorld 5000 none) 1000000
      { now := 1060001, randomGate := false, randomMessage := 0 }
      { sampleDaily with watchTime := 5000 } 1 100 rfl rfl rfl rfl rfl).2.2.2.1.1 h)
    (by decide),
   (snooze_lifecycle (limitWorld 61000 none) 1000000
      { now := 1060001, randomGate := false, randomMessage := 0 }
      { sampleDaily with watchTime := 61000 } 1 100 rfl rfl rfl rfl rfl).2.2.2.2⟩

/-- C17, the code at the failing input.  After `stopAllTracking` (extension
disabled through the popup) the two periodic timers and the repeat interval
are cleared, but the resume timer armed by an earlier snooze is still pending
and its handle is still stored; when it fires, with the extension disabled,
the scheduler enters `Alerting` and presents a limit alert. -/
theorem snooze_timer_survives_disable :
    disabledSnoozedPage.w.t.settings.extensionEnabled = false ∧
    disabledSnoozedPage.w.t.periodicCheckInterval = none ∧
    disabledSnoozedPage.w.t.statusLogInterval = none ∧
    disabledSnoozedPage.w.t.limitAlertInterval = none ∧
    disabledSnoozedPage.w.t.snoozeTimeout = some 3 ∧
    disabledSnoozedPage.w.timers =
      [{ id := 3, kind := TimerKind.snoozeResume 30, delay := 1800000 }] ∧
    (timerFires disabledSnoozedPage.w
        { id := 3, kind := TimerKind.snoozeResume 30, delay := 1800000 }
        { now := 2800001, randomGate := false, randomMessage := 0 }).t.isShowingLimitAlert =
      true ∧
    (timerFires disabledSnoozedPage.w
        { id := 3, kind := TimerKind.snoozeResume 30, delay := 1800000 }
        { now := 2800001, randomGate := false, randomMessage := 0 }).timers =
      [{ id := 4, kind := TimerKind.limitAlert, delay := 2500 }] ∧
    (timerFires disabledSnoozedPage.w
        { id := 3, kind := TimerKind.snoozeResume 30, delay := 1800000 }
        { now := 2800001, randomGate := false, randomMessage := 0 }).shown =
      [Shown.snoozeStarted 30, Shown.limitExceeded true false, Shown.snoozeEnded 30] := by
  decide

theorem recordWatch_disabled (w : World) (reelId : String) (duration : Int) (env : Env)
    (h : w.t.settings.extensionEnabled = false) : recordWatch w reelId duration env = w := by
  unfold recordWatch
  simp [h]

theorem step_tracking_disabled (w : World) (c : Call) (env : Env)
    (h : w.t.settings.extensionEnabled = false) (hc : c.isTracking = true) :
    step w c env = w := by
  cases c with
  | play s =>
    unfold step handlePlay
    simp [h]
  | pause s =>
    unfold step handlePause
    dsimp only
    split
    · exact recordWatch_disabled w _ _ env h
    · rfl
  | ended s =>
    unfold step handleEnded
    dsimp only
    split
    · exact recordWatch_disabled w _ _ env h
    · rfl
  | visibilityChange s hidden =>
    unfold step handleVisibilityChange
    dsimp only
    split
    · exact recordWatch_disabled w _ _ env h
    · rfl
  | recordWatch reelId duration => exact recordWatch_disabled w reelId duration env h
  | checkLimits => simp [Call.isTracking] at hc
  | timerFires tm => simp [Call.isTracking] at hc
  | snooze minutes => simp [Call.isTracking] at hc
  | stopTimers => simp [Call.isTracking] at hc
  | startChecks => simp [Call.isTracking] at hc

/-- C18 (no tracking while disabled).  With `extensionEnabled` false, every
sequence of play, pause, ended and visibility-change listeners (of any
sessions, in any closure state) and of `recordWatch` calls leaves the whole
state as it was: `watchedReels`, `scrolledReels`, `totalReelsScrolled`,
`dailyStats`, `activeReel`, the scheduler fields, the timers, the store and
the presented notifications. -/
theorem no_tracking_while_disabled (w : World) (calls : List (Call × Env))
    (h : w.t.settings.extensionEnabled = false)
    (hc : ∀ c ∈ calls, c.1.isTracking = true) :
    run w calls = w := by
  induction calls with
  | nil => rfl
  | cons e rest ih =>
    obtain ⟨c, env⟩ := e
    have h1 : step w c env = w :=
      step_tracking_disabled w c env h (hc (c, env) (List.mem_cons_self _ _))
    simp only [run, h1]
    exact ih (fun c hcm => hc c (List.mem_cons_of_mem _ hcm))

/-- C18 on the sample tracker, disabled: a play of an unseen reel, a pause
after 999,000 ms, a hidden tab and a direct commit change nothing. -/
theorem no_tracking_while_disabled_witness :
    run disabledWorld
      [(Call.play playingSession, sampleEnv), (Call.pause playingSession, sampleEnv),
       (Call.visibilityChange playingSession true, sampleEnv),
       (Call.recordWatch "A" 5000, sampleEnv)] = disabledWorld :=
  no_tracking_while_disabled disabledWorld
    [(Call.play playingSession, sampleEnv), (Call.pause playingSession, sampleEnv),
     (Call.visibilityChange playingSession true, sampleEnv),
     (Call.recordWatch "A" 5000, sampleEnv)] rfl (by decide)

/-- C19, the code at the failing input.  The element is tracked by the first
scan (one listener set attached); after `toggleExtension(false)` and
`toggleExtension(true)` the two periodic timers are armed again, but the
element, which still carries `data-reel-tracked`, was skipped by the re-scan:
`trackReel` was not called again and no listener is attached. -/
theorem stale_tag_blocks_rescan :
    (checkForReels sampleDetector (samplePage (sampleWorld 0)) none).doc =
      [{ info := "A", tracked := true, reelListeners := some 1,
         attached := [(1, { reelId := "A", playStartTime := none, hasBeenCounted := false })] }] ∧
    (toggleExtension sampleDetector
      (toggleExtension sampleDetector
        (checkForReels sampleDetector (samplePage (sampleWorld 0)) none) false) true).doc =
      [{ info := "A", tracked := true, reelListeners := none, attached := [] }] ∧
    (toggleExtension sampleDetector
      (toggleExtension sampleDetector
        (checkForReels sampleDetector (samplePage (sampleWorld 0)) none) false) true).trackCalls =
      [0] ∧
    (toggleExtension sampleDetector
      (toggleExtension sampleDetector
        (checkForReels sampleDetector (samplePage (sampleWorld 0)) none) false) true).w.timers =
      [{ id := 3, kind := TimerKind.periodicCheck, delay := 5000 },
       { id := 4, kind := TimerKind.statusLog, delay := 30000 }] ∧
    (toggleExtension sampleDetector
      (toggleExtension sampleDetector
        (checkForReels sampleDetector (samplePage (sampleWorld 0)) none) false)
        true).w.t.settings.extensionEnabled = true := by
  decide

theorem trackReel_doc {E : Type} (det : Detector E) (p : Page E) (i : Nat) (v : Video E)
    (hv : p.doc[i]? = some v) :
    ∃ v1 : Video E, (trackReel det p i).doc = p.doc.set i v1 ∧
      v1.info = v.info ∧ v1.tracked = true ∧
      (trackReel det p i).trackCalls = p.trackCalls ++ [i] := by
  have hlt : i < p.doc.length := by
    rcases Nat.lt_or_ge i p.doc.length with h | h
    · exact h
    · rw [List.getElem?_eq_none h] at hv
      cases hv
  unfold trackReel
  simp only [hv]
  split
  · unfold addVideoListeners
    simp only [List.getElem?_set_self hlt, List.set_set]
    exact ⟨_, rfl, rfl, rfl, trivial⟩
  · exact ⟨_, rfl, rfl, rfl, rfl⟩

theorem scanInv_refl {E : Type} (det : Detector E) (p : Page E) : ScanInv det p p :=
  ⟨rfl, fun _ v0 h => ⟨v0, h, rfl, fun t => t⟩, ⟨[], by simp, List.nodup_nil, by simp⟩⟩

theorem scanInv_trackReel {E : Type} (det : Detector E) (p0 p : Page E) (i : Nat)
    (v : Video E) (hinv : ScanInv det p0 p) (hv : p.doc[i]? = some v)
    (hun : v.tracked = false) (hreel : det.isReelVideo v.info = true) :
    ScanInv det p0 (trackReel det p i) ∧
    ∃ v1, (trackReel det p i).doc[i]? = some v1 ∧ v1.tracked = true := by
  have hlt : i < p.doc.length := by
    rcases Nat.lt_or_ge i p.doc.length with h | h
    · exact h
    · rw [List.getElem?_eq_none h] at hv
      cases hv
  obtain ⟨v1, hdoc, hinfo, htr, hcalls⟩ := trackReel_doc det p i v hv
  have hget : ∀ j, (trackReel det p i).doc[j]? = if i = j then some v1 else p.doc[j]? := by
    intro j
    rw [hdoc, List.getElem?_set]
    simp [hlt]
  refine ⟨⟨?_, ?_, ?_⟩, ⟨v1, by rw [hget]; simp, htr⟩⟩
  · rw [hdoc, List.length_set]
    exact hinv.length
  · intro j v0 hj
    obtain ⟨u, hu, hui, hut⟩ := hinv.info j v0 hj
    rw [hget]
    by_cases hij : i = j
    · subst hij
      rw [hv] at hu
      cases hu
      exact ⟨v1, by simp, by rw [hinfo, hui], fun _ => htr⟩
    · exact ⟨u, by simp [hij, hu], hui, hut⟩
  · obtain ⟨new, hnew, hnd, hall⟩ := hinv.calls
    have hi0 : ∃ v0, p0.doc[i]? = some v0 ∧ v0.tracked = false ∧
        det.isReelVideo v0.info = true := by
      have hlt0 : i < p0.doc.length := by rw [← hinv.length]; exact hlt
      have h0 : p0.doc[i]? = some p0.doc[i] := List.getElem?_eq_getElem hlt0
      obtain ⟨u, hu, hui, hut⟩ := hinv.info i _ h0
      rw [hv] at hu
      cases hu
      refine ⟨_, h0, ?_, by rw [← hui]; exact hreel⟩
      cases ht : (p0.doc[i]).tracked
      · rfl
      · have := hut ht
        rw [hun] at this
        cases this
    have hnotin : i ∉ new := by
      intro hin
      obtain ⟨u, hu, hut⟩ := (hall i hin).2
      rw [hv] at hu
      cases hu
      rw [hun] at hut
      cases hut
    refine ⟨new ++ [i], by rw [hcalls, hnew, List.append_assoc], ?_, ?_⟩
    · rw [List.nodup_append]
      refine ⟨hnd, List.nodup_singleton i, ?_⟩
      intro a ha hb
      simp only [List.mem_singleton] at hb
      subst hb
      exact hnotin ha
    · intro j hj
      rcases List.mem_append.mp hj with h | h
      · refine ⟨(hall j h).1, ?_⟩
        obtain ⟨u, hu, hut⟩ := (hall j h).2
        rw [hget]
        by_cases hij : i = j
        · exact ⟨v1, by simp [hij], htr⟩
        · exact ⟨u, by simp [hij, hu], hut⟩
      · simp only [List.mem_singleton] at h
        subst h
        exact ⟨hi0, v1, by rw [hget]; simp, htr⟩

theorem settledAt_of_scanInv {E : Type} (det : Detector E) (p0 p : Page E) (i : Nat)
    (hinv : ScanInv det p0 p) (hs : SettledAt det p0 i) : SettledAt det p i := by
  intro v hv hreel
  have hlt : i < p.doc.length := by
    rcases Nat.lt_or_ge i p.doc.length with h | h
    · exact h
    · rw [List.getElem?_eq_none h] at hv
      cases hv
  have hlt0 : i < p0.doc.length := by rw [← hinv.length]; exact hlt
  have h0 : p0.doc[i]? = some p0.doc[i] := List.getElem?_eq_getElem hlt0
  obtain ⟨u, hu, hui, hut⟩ := hinv.info i _ h0
  rw [hv] at hu
  cases hu
  exact hut (hs _ h0 (by rw [← hui]; exact hreel))

theorem scanInv_trans {E : Type} (det : Detector E) {a b c : Page E}
    (h1 : ScanInv det a b) (h2 : ScanInv det b c) : ScanInv det a c := by
  refine ⟨h2.length.trans h1.length, ?_, ?_⟩
  · intro j v0 hj
    obtain ⟨u, hu, hui, hut⟩ := h1.info j v0 hj
    obtain ⟨x, hx, hxi, hxt⟩ := h2.info j u hu
    exact ⟨x, hx, hxi.trans hui, fun t => hxt (hut t)⟩
  · obtain ⟨n1, e1, nd1, a1⟩ := h1.calls
    obtain ⟨n2, e2, nd2, a2⟩ := h2.calls
    refine ⟨n1 ++ n2, by rw [e2, e1, List.append_assoc], ?_, ?_⟩
    · rw [List.nodup_append]
      refine ⟨nd1, nd2, ?_⟩
      intro i hi1 hi2
      obtain ⟨u, hu, hut⟩ := (a1 i hi1).2
      obtain ⟨u0, hu0, hun, _⟩ := (a2 i hi2).1
      rw [hu] at hu0
      cases hu0
      rw [hut] at hun
      cases hun
    · intro i hi
      rcases List.mem_append.mp hi with h | h
      · refine ⟨(a1 i h).1, ?_⟩
        obtain ⟨u, hu, hut⟩ := (a1 i h).2
        obtain ⟨x, hx, _, hxt⟩ := h2.info i u hu
        exact ⟨x, hx, hxt hut⟩
      · refine ⟨?_, (a2 i h).2⟩
        obtain ⟨u, hu, hun, hreel⟩ := (a2 i h).1
        have hltb : i < b.doc.length := by
          rcases Nat.lt_or_ge i b.doc.length with h' | h'
          · exact h'
          · rw [List.getElem?_eq_none h'] at hu
            cases hu
        have hlta : i < a.doc.length := by rw [← h1.length]; exact hltb
        have h0 : a.doc[i]? = some a.doc[i] := List.getElem?_eq_getElem hlta
        obtain ⟨y, hy, hyi, hyt⟩ := h1.info i _ h0
        rw [hu] at hy
        cases hy
        refine ⟨_, h0, ?_, by rw [← hyi]; exact hreel⟩
        cases ht : (a.doc[i]).tracked
        · rfl
        · have := hyt ht
          rw [hun] at this
          cases this

theorem scanVideo_rel {E : Type} (det : Detector E) (st : Page E × Nat) (i : Nat) :
    ScanInv det st.1 (scanVideo det st i).1 ∧ SettledAt det (scanVideo det st i).1 i := by
  unfold scanVideo
  cases hv : st.1.doc[i]? with
  | none =>
    refine ⟨scanInv_refl det st.1, ?_⟩
    intro v hv1
    rw [hv] at hv1
    cases hv1
  | some v =>
    dsimp only
    by_cases hc : (!v.tracked && det.isReelVideo v.info) = true
    · rw [if_pos hc]
      simp only [Bool.and_eq_true, Bool.not_eq_true'] at hc
      obtain ⟨hinv, v1, hv1, ht1⟩ := scanInv_trackReel det st.1 st.1 i v
        (scanInv_refl det st.1) hv hc.1 hc.2
      refine ⟨hinv, ?_⟩
      intro u hu _
      rw [hv1] at hu
      cases hu
      exact ht1
    · rw [if_neg hc]
      refine ⟨scanInv_refl det st.1, ?_⟩
      intro u hu hreel
      rw [hv] at hu
      cases hu
      cases ht : v.tracked
      · simp [ht, hreel] at hc
      · rfl

theorem scanFold_rel {E : Type} (det : Detector E) (l : List Nat) :
    ∀ st : Page E × Nat,
      ScanInv det st.1 (l.foldl (scanVideo det) st).1 ∧
      ∀ i ∈ l, SettledAt det (l.foldl (scanVideo det) st).1 i := by
  induction l with
  | nil =>
    intro st
    exact ⟨scanInv_refl det st.1, by simp⟩
  | cons a rest ih =>
    intro st
    obtain ⟨h1, h2⟩ := scanVideo_rel det st a
    obtain ⟨h3, h4⟩ := ih (scanVideo det st a)
    simp only [List.foldl_cons]
    refine ⟨scanInv_trans det h1 h3, ?_⟩
    intro i hi
    rcases List.mem_cons.mp hi with h | h
    · subst h
      exact settledAt_of_scanInv det _ _ _ h3 h2
    · exact h4 i h

theorem mem_querySelectorAll_zero {E : Type} (det : Detector E) (p : Page E)
    (root : Option (List Nat)) (i : Nat) (hlt : i < p.doc.length)
    (hroot : inRoot root i = true) : i ∈ querySelectorAll det p root 0 := by
  unfold querySelectorAll
  rw [List.mem_filter]
  refine ⟨List.mem_range.mpr hlt, ?_⟩
  rw [List.getElem?_eq_getElem hlt]
  simp [hroot, selectorMatches]

theorem querySelectorAll_inRoot {E : Type} (det : Detector E) (p : Page E)
    (root : Option (List Nat)) (k i : Nat) (h : i ∈ querySelectorAll det p root k) :
    inRoot root i = true := by
  unfold querySelectorAll at h
  have := (List.mem_filter.mp h).2
  simp only [Bool.and_eq_true] at this
  exact this.1

theorem selectorPass_rel {E : Type} (det : Detector E) (root : Option (List Nat))
    (st : Page E × Nat) (k : Nat) : ScanInv det st.1 (selectorPass det root st k).1 :=
  (scanFold_rel det _ st).1

theorem selectorPasses_rel {E : Type} (det : Detector E) (root : Option (List Nat))
    (ks : List Nat) :
    ∀ st : Page E × Nat, ScanInv det st.1 (ks.foldl (selectorPass det root) st).1 := by
  induction ks with
  | nil => intro st; exact scanInv_refl det st.1
  | cons k rest ih =>
    intro st
    simp only [List.foldl_cons]
    exact scanInv_trans det (selectorPass_rel det root st k) (ih _)

theorem settledAt_of_not_lt {E : Type} (det : Detector E) (p : Page E) (i : Nat)
    (h : ¬ i < p.doc.length) : SettledAt det p i := by
  intro v hv
  rw [List.getElem?_eq_none (Nat.le_of_not_lt h)] at hv
  cases hv

theorem selectorPasses_settled {E : Type} (det : Detector E) (root : Option (List Nat))
    (p : Page E) (i : Nat) (hroot : inRoot root i = true) :
    SettledAt det ((List.range 8).foldl (selectorPass det root) (p, 0)).1 i := by
  have hr : List.range 8 = 0 :: [1, 2, 3, 4, 5, 6, 7] := by decide
  rw [hr, List.foldl_cons]
  refine settledAt_of_scanInv det _ _ i (selectorPasses_rel det root _ _) ?_
  by_cases hlt : i < p.doc.length
  · exact (scanFold_rel det _ (p, 0)).2 i (mem_querySelectorAll_zero det p root i hlt hroot)
  · apply settledAt_of_not_lt
    rw [(selectorPass_rel det root (p, 0) 0).length]
    exact hlt

theorem checkForReels_eq {E : Type} (det : Detector E) (p : Page E)
    (root : Option (List Nat)) :
    checkForReels det p root =
      if (root.isNone && decide (((List.range 8).foldl (selectorPass det root) (p, 0)).2 = 0))
          = true then
        ((querySelectorAll det ((List.range 8).foldl (selectorPass det root) (p, 0)).1 none
            0).foldl (scanVideo det) ((List.range 8).foldl (selectorPass det root) (p, 0))).1
      else ((List.range 8).foldl (selectorPass det root) (p, 0)).1 := rfl

theorem checkForReels_inv {E : Type} (det : Detector E) (p : Page E)
    (root : Option (List Nat)) :
    ScanInv det p (checkForReels det p root) ∧
    ∀ i, inRoot root i = true → SettledAt det (checkForReels det p root) i := by
  rw [checkForReels_eq]
  have h1 := selectorPasses_rel det root (List.range 8) (p, 0)
  split
  · have h2 := scanFold_rel det
      (querySelectorAll det ((List.range 8).foldl (selectorPass det root) (p, 0)).1 none 0)
      ((List.range 8).foldl (selectorPass det root) (p, 0))
    refine ⟨scanInv_trans det h1 h2.1, ?_⟩
    intro i hroot
    exact settledAt_of_scanInv det _ _ i h2.1 (selectorPasses_settled det root p i hroot)
  · exact ⟨h1, fun i hroot => selectorPasses_settled det root p i hroot⟩

theorem scanVideo_settled {E : Type} (det : Detector E) (st : Page E × Nat) (i : Nat)
    (h : SettledAt det st.1 i) : scanVideo det st i = st := by
  unfold scanVideo
  cases hv : st.1.doc[i]? with
  | none => rfl
  | some v =>
    dsimp only
    by_cases hreel : det.isReelVideo v.info = true
    · have := h v hv hreel
      simp [this]
    · simp [hreel]

theorem scanFold_settled {E : Type} (det : Detector E) (l : List Nat) (st : Page E × Nat)
    (h : ∀ i ∈ l, SettledAt det st.1 i) : l.foldl (scanVideo det) st = st := by
  induction l with
  | nil => rfl
  | cons a rest ih =>
    simp only [List.foldl_cons]
    rw [scanVideo_settled det st a (h a (List.mem_cons_self _ _))]
    exact ih (fun i hi => h i (List.mem_cons_of_mem _ hi))

theorem selectorPasses_settled_eq {E : Type} (det : Detector E) (root : Option (List Nat))
    (ks : List Nat) (st : Page E × Nat)
    (h : ∀ i, inRoot root i = true → SettledAt det st.1 i) :
    ks.foldl (selectorPass det root) st = st := by
  induction ks with
  | nil => rfl
  | cons k rest ih =>
    simp only [List.foldl_cons]
    have : selectorPass det root st k = st := by
      unfold selectorPass
      exact scanFold_settled det _ st
        (fun i hi => h i (querySelectorAll_inRoot det st.1 root k i hi))
    rw [this]
    exact ih

theorem checkForReels_settled {E : Type} (det : Detector E) (p : Page E)
    (root : Option (List Nat)) (h : ∀ i, inRoot root i = true → SettledAt det p i) :
    checkForReels det p root = p := by
  rw [checkForReels_eq, selectorPasses_settled_eq det root (List.range 8) (p, 0) h]
  split
  · rename_i hc
    simp only [Bool.and_eq_true, Option.isNone_iff_eq_none] at hc
    have hnone := hc.1
    subst hnone
    rw [scanFold_settled det _ (p, 0)
      (fun i hi => h i (querySelectorAll_inRoot det p none 0 i hi))]
  · rfl

/-- C20 (scan idempotence).  For every page, detector and root, a second
`checkForReels` on the same root changes nothing: `trackReel` is not called
again and the tracked reels, the listener sets and the tags are those left by
the first scan.  In the first scan `trackReel` is called on pairwise
different elements, each a candidate that did not carry `data-reel-tracked`,
whichever selectors it matches and whether or not the fallback runs. -/
theorem checkForReels_idempotent {E : Type} (det : Detector E) (p : Page E)
    (root : Option (List Nat)) :
    checkForReels det (checkForReels det p root) root = checkForReels det p root ∧
    ∃ new : List Nat,
      (checkForReels det (checkForReels det p root) root).trackCalls = p.trackCalls ++ new ∧
      new.Nodup ∧
      ∀ i ∈ new, ∃ v : Video E, p.doc[i]? = some v ∧ v.tracked = false ∧
        det.isReelVideo v.info = true := by
  obtain ⟨hinv, hset⟩ := checkForReels_inv det p root
  have hid := checkForReels_settled det (checkForReels det p root) root hset
  refine ⟨hid, ?_⟩
  obtain ⟨new, hnew, hnd, hall⟩ := hinv.calls
  exact ⟨new, by rw [hid]; exact hnew, hnd, fun i hi => (hall i hi).1⟩

theorem isReelSize_iff (e : ElementInfo) (hw : 0 < e.rectWidth) :
    isReelSize e = true ↔ 4 * e.rectWidth < 5 * e.rectHeight := by
  unfold isReelSize aspectRatio
  simp only [hw, if_true, Bool.or_eq_true, Bool.and_eq_true, decide_eq_true_eq, gt_iff_lt]
  rw [lt_div_iff hw, lt_div_iff hw, div_lt_iff hw]
  constructor
  · rintro (h | ⟨h, _⟩) <;> linarith
  · intro h
    by_cases h1 : 6 / 5 * e.rectWidth < e.rectHeight
    · exact Or.inl h1
    · refine Or.inr ⟨by linarith, by linarith⟩

/-- C21, as the code has it.  `isReelVideo` is true exactly when the bounding
box is visible (width and height positive) and at least one of the four other
signals holds: known source domain, known container, inline-playback
attribute, or the aspect-ratio test (which for a visible box is
`height / width > 0.8`).  An element whose box has no width or no height is
never a candidate. -/
theorem isReelVideo_iff (e : ElementInfo) :
    (isReelVideo e = true ↔
      (0 < e.rectWidth ∧ 0 < e.rectHeight) ∧
      (hasInstagramSrc e = true ∨ hasReelContainer e = true ∨
        hasInstagramAttributes e = true ∨ isReelSize e = true)) ∧
    (isReelVideo e = true ↔
      (0 < e.rectWidth ∧ 0 < e.rectHeight) ∧
      (hasInstagramSrc e = true ∨ hasReelContainer e = true ∨
        hasInstagramAttributes e = true ∨ 4 * e.rectWidth < 5 * e.rectHeight)) ∧
    (¬ (0 < e.rectWidth ∧ 0 < e.rectHeight) → isReelVideo e = false) := by
  have h1 : isReelVideo e = true ↔
      (0 < e.rectWidth ∧ 0 < e.rectHeight) ∧
      (hasInstagramSrc e = true ∨ hasReelContainer e = true ∨
        hasInstagramAttributes e = true ∨ isReelSize e = true) := by
    unfold isReelVideo isVisible
    simp only [Bool.and_eq_true, Bool.or_eq_true, decide_eq_true_eq]
    tauto
  refine ⟨h1, ?_, ?_⟩
  · rw [h1]
    constructor
    · rintro ⟨hv, h⟩
      refine ⟨hv, ?_⟩
      rw [isReelSize_iff e hv.1] at h
      exact h
    · rintro ⟨hv, h⟩
      refine ⟨hv, ?_⟩
      rw [isReelSize_iff e hv.1]
      exact h
  · intro hv
    cases h : isReelVideo e
    · rfl
    · exact absurd (h1.mp h).1 hv

/-- C21 as stated fails: an element with an `instagram.com` source and a box
of size 0 by 0 is not a candidate, and neither is a visible element (200 by
100) with no other signal. -/
theorem zero_size_is_not_candidate :
    hasInstagramSrc (bareVideo "https://www.instagram.com/v.mp4" "" none 0 0) = true ∧
    isReelVideo (bareVideo "https://www.instagram.com/v.mp4" "" none 0 0) = false ∧
    isVisible (bareVideo "" "" none 200 100) = true ∧
    isReelVideo (bareVideo "" "" none 200 100) = false := by
  decide!

/-- C22, the code at the failing input.  A `video` element with no link,
container, source or poster whose `data-video-id` is a word in Cyrillic
letters reaches Method 6, where `btoa` throws: the exception leaves
`getReelId`.  Without the attribute the same element gets the position
string. -/
theorem getReelId_throws_on_non_latin1 :
    getReelId noUrlBrowser
        (bareVideo "" "" (some "видео") 100 200) =
      Except.error "InvalidCharacterError" ∧
    getReelId noUrlBrowser (bareVideo "" "" none 100 200) = Except.ok "pos_0_0_100_200" := by
  decide!

theorem truthyString_some (s : String) (h : s ≠ "") : truthyString (some s) = some s := by
  simp [truthyString, h]

theorem pathParts_ne_empty (pathname s : String) (h : s ∈ pathParts pathname) : s ≠ "" := by
  unfold pathParts at h
  obtain ⟨seg, hseg, rfl⟩ := List.mem_map.mp h
  have hne : seg ≠ [] := by simpa using (List.mem_filter.mp hseg).2
  intro he
  apply hne
  have := congrArg String.data he
  simpa using this

theorem getReelId_of_poster (br : Browser) (e : ElementInfo) (id : String)
    (h1 : idFromLinks e = none) (h2 : idFromTestid e = none) (h3 : idFromSrc br e = none)
    (h4 : idFromPoster br e = some id) : getReelId br e = Except.ok id := by
  unfold getReelId
  simp only [h1, h2, h3, h4]

/-- C23 (poster fallback).  When the links, the `data-testid` and the source
yield no id, and the poster contains `instagram.com` and parses to a URL whose
path has the non-empty segments `segs` (at least one), `getReelId` returns the
second-to-last segment when there are at least two and the only segment when
there is one. -/
theorem getReelId_poster_segment (br : Browser) (e : ElementInfo) (u : Url)
    (segs : List String) (id : String)
    (h1 : idFromLinks e = none) (h2 : idFromTestid e = none) (h3 : idFromSrc br e = none)
    (hp : e.poster ≠ "") (hinc : includes e.poster "instagram.com" = true)
    (hu : br.parseUrl e.poster = some u)
    (hsegs : pathParts u.pathname = segs)
    (hid : (2 ≤ segs.length ∧ segs[segs.length - 2]? = some id) ∨
      (segs.length = 1 ∧ segs[0]? = some id)) :
    getReelId br e = Except.ok id := by
  apply getReelId_of_poster br e id h1 h2 h3
  unfold idFromPoster
  simp only [hp, hinc, hu, hsegs, ne_eq, not_false_eq_true, decide_True, Bool.and_self, if_true]
  rcases hid with ⟨hlen, hget⟩ | ⟨hlen, hget⟩
  · have hpos : segs.length > 0 := by omega
    have hmem : id ∈ segs := List.getElem?_mem hget
    have hne : id ≠ "" := pathParts_ne_empty u.pathname id (by rw [hsegs]; exact hmem)
    simp only [hpos, if_true, posterSegment, hlen, hget, truthyString_some id hne]
  · have hpos : segs.length > 0 := by omega
    have h2' : ¬ 2 ≤ segs.length := by omega
    simp only [hpos, if_true, posterSegment, h2', if_false, truthyString, hlen]
    simpa using hget

/-- C23 on a poster with path `/media/abc123/thumb.jpg` (the second-to-last
segment is returned) and on one with path `/thumb.jpg` (the only segment is
returned). -/
theorem getReelId_poster_segment_witness :
    getReelId sampleBrowser
        (bareVideo "" "https://www.instagram.com/media/abc123/thumb.jpg" none 100 200) =
      Except.ok "abc123" ∧
    getReelId sampleBrowser (bareVideo "" "https://www.instagram.com/thumb.jpg" none 100 200) =
      Except.ok "thumb.jpg" :=
  ⟨getReelId_poster_segment sampleBrowser
      (bareVideo "" "https://www.instagram.com/media/abc123/thumb.jpg" none 100 200)
      { pathname := "/media/abc123/thumb.jpg", search := "" } ["media", "abc123", "thumb.jpg"]
      "abc123" (by decide) (by decide) (by decide) (by decide) (by decide) (by decide)
      (by decide) (Or.inl ⟨by decide, by decide⟩),
   getReelId_poster_segment sampleBrowser
      (bareVideo "" "https://www.instagram.com/thumb.jpg" none 100 200)
      { pathname := "/thumb.jpg", search := "" } ["thumb.jpg"]
      "thumb.jpg" (by decide) (by decide) (by decide) (by decide) (by decide) (by decide)
      (by decide) (Or.inr ⟨by decide, by decide⟩)⟩

theorem b64Encode_take (n : Nat) :
    ∀ l : List Nat, (b64Encode l).take (4 * n) = (b64Encode (l.take (3 * n))).take (4 * n) := by
  induction n with
  | zero => intro l; simp
  | succ n ih =>
    intro l
    have h3 : 3 * (n + 1) = 3 * n + 3 := by ring
    have h4 : 4 * (n + 1) = 4 * n + 4 := by ring
    rw [h3, h4]
    match l with
    | [] => simp
    | [a] => simp
    | [a, b] => simp
    | a :: b :: c :: rest =>
      simp only [List.take_succ_cons, b64Encode]
      rw [ih rest]

theorem stableId_of_latin1 (s : String) (h : isLatin1 s = true) :
    stableId s =
      Except.ok (String.mk ((b64Encode ((s.toList.take 12).map Char.toNat)).take 16)) := by
  unfold stableId btoa
  simp only [h, if_true]
  have := b64Encode_take 4 (s.toList.map Char.toNat)
  simp only [Nat.reduceMul] at this
  show Except.ok (String.mk (List.take 16 (b64Encode (s.toList.map Char.toNat)))) = _
  rw [this, List.map_take]

/-- C30 (the generated id depends only on the first 12 characters).  For two
Latin-1 property strings that agree on their first 12 characters,
`btoa(props).substring(0, 16)` is the same string, of length at most 16; so
two elements that reach Method 6 of `getReelId` with property strings that
agree on their first 12 characters get the same identity. -/
theorem stableId_depends_on_12_chars (s1 s2 : String)
    (hl1 : isLatin1 s1 = true) (hl2 : isLatin1 s2 = true)
    (h12 : s1.toList.take 12 = s2.toList.take 12) :
    stableId s1 = stableId s2 ∧
    (∃ id : String, stableId s1 = Except.ok id ∧ id.length ≤ 16) ∧
    (∀ (br : Browser) (e1 e2 : ElementInfo),
      idFromLinks e1 = none → idFromTestid e1 = none → idFromSrc br e1 = none →
      idFromPoster br e1 = none → idFromContainer e1 = none →
      idFromLinks e2 = none → idFromTestid e2 = none → idFromSrc br e2 = none →
      idFromPoster br e2 = none → idFromContainer e2 = none →
      videoProps e1 ≠ [] → videoProps e2 ≠ [] →
      joinBar (videoProps e1) = s1 → joinBar (videoProps e2) = s2 →
      getReelId br e1 = getReelId br e2) := by
  have heq : stableId s1 = stableId s2 := by
    rw [stableId_of_latin1 s1 hl1, stableId_of_latin1 s2 hl2, h12]
  refine ⟨heq, ?_, ?_⟩
  · refine ⟨_, stableId_of_latin1 s1 hl1, ?_⟩
    show (List.take 16 _).length ≤ 16
    exact List.length_take_le _ _
  · intro br e1 e2 a1 a2 a3 a4 a5 b1 b2 b3 b4 b5 hp1 hp2 hj1 hj2
    have hlen1 : (videoProps e1).length > 0 := List.length_pos.mpr hp1
    have hlen2 : (videoProps e2).length > 0 := List.length_pos.mpr hp2
    unfold getReelId generatedId
    simp only [a1, a2, a3, a4, a5, b1, b2, b3, b4, b5, hlen1, hlen2, if_true, hj1, hj2, heq]

/-- C30 on two different sources that share their first 12 characters
(`https://vide`): both elements get the id `aHR0cHM6Ly92aWRl`. -/
theorem stableId_depends_on_12_chars_witness :
    stableId "https://video.example.com/a.mp4" = Except.ok "aHR0cHM6Ly92aWRl" ∧
    stableId "https://video.example.com/a.mp4" = stableId "https://video.example.com/b.mp4" ∧
    getReelId noUrlBrowser (bareVideo "https://video.example.com/a.mp4" "" none 100 200) =
      getReelId noUrlBrowser (bareVideo "https://video.example.com/b.mp4" "" none 100 200) :=
  ⟨by decide!,
   (stableId_depends_on_12_chars "https://video.example.com/a.mp4"
      "https://video.example.com/b.mp4" (by decide) (by decide) (by decide)).1,
   (stableId_depends_on_12_chars "https://video.example.com/a.mp4"
      "https://video.example.com/b.mp4" (by decide) (by decide) (by decide)).2.2 noUrlBrowser
      (bareVideo "https://video.example.com/a.mp4" "" none 100 200)
      (bareVideo "https://video.example.com/b.mp4" "" none 100 200)
      (by decide) (by decide) (by decide) (by decide) (by decide)
      (by decide) (by decide) (by decide) (by decide) (by decide)
      (by decide) (by decide) (by decide) (by decide)⟩

theorem withStore_t (w : World) (s : Store) (b : Bool) : (withStore w s b).t = w.t := rfl

theorem hideNotification_withStore (w : World) (s : Store) (b : Bool) :
    hideNotification (withStore w s b) = withStore (hideNotification w) s b := by
  unfold hideNotification
  simp only [withStore_t]
  cases w.t.notificationElement with
  | none => rfl
  | some e =>
    dsimp only
    split <;> rfl

theorem present_withStore (w : World) (s : Store) (b : Bool) (c : String) (x : Shown) :
    present (withStore w s b) c x = withStore (present w c x) s b := rfl

theorem showNotification_withStore (w : World) (s : Store) (b : Bool) (reelId : String) :
    showNotification (withStore w s b) reelId = withStore (showNotification w reelId) s b := by
  unfold showNotification
  simp only [withStore_t]
  cases mapGet w.t.watchedReels reelId with
  | none => rfl
  | some r =>
    dsimp only
    split
    · rfl
    · rw [hideNotification_withStore, present_withStore]

theorem showPositiveReinforcement_withStore (w : World) (s : Store) (b : Bool) (env : Env) :
    showPositiveReinforcement (withStore w s b) env =
      withStore (showPositiveReinforcement w env) s b := by
  unfold showPositiveReinforcement
  simp only [withStore_t]
  split
  · rfl
  · split
    · rfl
    · rw [← present_withStore, ← hideNotification_withStore]
      rfl

theorem showOccasionalEncouragement_withStore (w : World) (s : Store) (b : Bool) (env : Env) :
    showOccasionalEncouragement (withStore w s b) env =
      withStore (showOccasionalEncouragement w env) s b := by
  unfold showOccasionalEncouragement
  simp only [withStore_t]
  split
  · rfl
  · cases w.t.dailyStats with
    | none => rfl
    | some d =>
      dsimp only
      split
      · split
        · exact showPositiveReinforcement_withStore w s b env
        · rfl
      · rfl

theorem stopPeriodicAlerts_withStore (w : World) (s : Store) (b : Bool) :
    stopPeriodicAlerts (withStore w s b) = withStore (stopPeriodicAlerts w) s b := by
  unfold stopPeriodicAlerts
  simp only [withStore_t]
  rw [← hideNotification_withStore]
  cases w.t.limitAlertInterval <;> rfl

theorem showLimitAlert_withStore (w : World) (s : Store) (b : Bool) :
    showLimitAlert (withStore w s b) = withStore (showLimitAlert w) s b := by
  unfold showLimitAlert
  simp only [withStore_t]
  split
  · rfl
  · cases w.t.dailyStats with
    | none => rfl
    | some d =>
      dsimp only
      split
      · exact stopPeriodicAlerts_withStore w s b
      · cases w.t.notificationElement with
        | none => rfl
        | some e =>
          dsimp only
          split
          · rfl
          · rw [hideNotification_withStore, present_withStore]

theorem startPeriodicAlerts_withStore (w : World) (s : Store) (b : Bool) :
    startPeriodicAlerts (withStore w s b) = withStore (startPeriodicAlerts w) s b := by
  unfold startPeriodicAlerts
  simp only [withStore_t]
  split
  · rfl
  · rw [← showLimitAlert_withStore]
    rfl

theorem checkLimitsAndStartAlerts_withStore (w : World) (s : Store) (b : Bool) (env : Env) :
    checkLimitsAndStartAlerts (withStore w s b) env =
      withStore (checkLimitsAndStartAlerts w env) s b := by
  unfold checkLimitsAndStartAlerts
  simp only [withStore_t]
  split
  · rfl
  · cases w.t.dailyStats with
    | none => rfl
    | some d =>
      dsimp only
      split
      · rfl
      · split
        · exact startPeriodicAlerts_withStore w s b
        · split
          · rw [stopPeriodicAlerts_withStore, showPositiveReinforcement_withStore]
          · split
            · exact showOccasionalEncouragement_withStore w s b env
            · rfl

theorem afterSaves_eq_core (w : World) (reelId : String) (duration : Int) (env : Env)
    (r : ReelData) :
    afterSaves w reelId duration env r =
      withStore (commitCore w reelId duration env r)
        (afterSaves w reelId duration env r).store w.writeFails := by
  unfold afterSaves commitCore withStore saveWatchedReels saveDailyStats
  cases hb : w.writeFails <;> cases hd : w.t.dailyStats <;> simp [hb, hd]

theorem commitCore_withStore (w : World) (s : Store) (b : Bool) (reelId : String)
    (duration : Int) (env : Env) (r : ReelData) :
    commitCore (withStore w s b) reelId duration env r =
      withStore (commitCore w reelId duration env r) s b := rfl

theorem withStore_withStore (w : World) (s1 s2 : Store) (b1 b2 : Bool) :
    withStore (withStore w s1 b1) s2 b2 = withStore w s2 b2 := rfl

/-- A counted `recordWatch` is the in-memory commit, the repeat-view check and
the limit check, over whatever the two saves left in the store. -/
theorem recordWatch_eq_core (w : World) (reelId : String) (duration : Int) (env : Env)
    (r : ReelData) (hen : w.t.settings.extensionEnabled = true) (hd : 1000 ≤ duration)
    (hr : mapGet w.t.watchedReels reelId = some r) :
    recordWatch w reelId duration env =
      withStore
        (checkLimitsAndStartAlerts
          (if r.count + 1 ≥ 3 then showNotification (commitCore w reelId duration env r) reelId
           else commitCore w reelId duration env r) env)
        (afterSaves w reelId duration env r).store w.writeFails := by
  rw [recordWatch_counted w reelId duration env r hen hd hr]
  have h := afterSaves_eq_core w reelId duration env r
  generalize (afterSaves w reelId duration env r).store = S at h ⊢
  rw [h]
  split
  · rw [showNotification_withStore, checkLimitsAndStartAlerts_withStore]
  · rw [checkLimitsAndStartAlerts_withStore]

theorem eq_withStore_of_sameMemory {w1 w2 : World} (h : SameMemory w1 w2) :
    w2 = withStore w1 w2.store w2.writeFails := by
  obtain ⟨h1, h2, h3, h4⟩ := h
  cases w1
  cases w2
  simp only at h1 h2 h3 h4
  subst h1 h2 h3 h4
  rfl

theorem sameMemory_withStore (w : World) (s1 s2 : Store) (b1 b2 : Bool) :
    SameMemory (withStore w s1 b1) (withStore w s2 b2) :=
  ⟨rfl, rfl, rfl, rfl⟩

/-- C24 (a failed save does not roll back).  `saveDailyStats` and
`saveWatchedReels` throw when the store rejects the write.  For a tracked reel
and a duration of at least 1000 ms, two runs of `recordWatch` from states with
the same memory (one over a store that rejects writes, one over a store that
accepts them) end with the same memory: same tracker fields (reel entry with
count + 1, added watch time and `lastWatched`, daily aggregate with the added
watch time and one more reel), same presented elements, same timers.
`recordWatch` itself completes: it is the in-memory commit followed by the
repeat-view check and the limit check, whatever the saves did; over a store
that rejects writes nothing is persisted. -/
theorem failed_save_keeps_memory (w1 w2 : World) (reelId : String) (duration : Int)
    (env : Env) (r : ReelData)
    (hmem : SameMemory w1 w2)
    (hen : w1.t.settings.extensionEnabled = true) (hd : 1000 ≤ duration)
    (hr : mapGet w1.t.watchedReels reelId = some r) :
    (w1.writeFails = true → (saveDailyStats w1).2 = true ∧ (saveWatchedReels w1).2 = true) ∧
    SameMemory (recordWatch w1 reelId duration env) (recordWatch w2 reelId duration env) ∧
    mapGet (recordWatch w1 reelId duration env).t.watchedReels reelId =
      some { count := r.count + 1, lastWatched := some env.now,
             totalWatchTime := r.totalWatchTime + duration } ∧
    (recordWatch w1 reelId duration env).t.dailyStats =
      w1.t.dailyStats.map (fun d =>
        { d with watchTime := d.watchTime + duration, reelsWatched := d.reelsWatched + 1 }) ∧
    (∃ S : Store, recordWatch w1 reelId duration env =
      withStore
        (checkLimitsAndStartAlerts
          (if r.count + 1 ≥ 3 then showNotification (commitCore w1 reelId duration env r) reelId
           else commitCore w1 reelId duration env r) env) S w1.writeFails) ∧
    (w1.writeFails = true → (recordWatch w1 reelId duration env).store = w1.store) := by
  refine ⟨?_, ?_, ?_, ?_, ?_, ?_⟩
  · intro hf
    simp [saveDailyStats, saveWatchedReels, hf]
  · have h2 := eq_withStore_of_sameMemory hmem
    have e1 := recordWatch_eq_core w1 reelId duration env r hen hd hr
    have e2 := recordWatch_eq_core (withStore w1 w2.store w2.writeFails) reelId duration env r
      hen hd hr
    rw [h2, e1, e2]
    simp only [commitCore_withStore]
    split
    · rw [showNotification_withStore, checkLimitsAndStartAlerts_withStore]
      exact ⟨rfl, rfl, rfl, rfl⟩
    · rw [checkLimitsAndStartAlerts_withStore]
      exact ⟨rfl, rfl, rfl, rfl⟩
  · rw [recordWatch_watchedReels w1 reelId duration env r hen hd hr, mapGet_mapSet_same]
    rfl
  · rw [recordWatch_dailyStats w1 reelId duration env r hen hd hr]
    rfl
  · exact ⟨_, recordWatch_eq_core w1 reelId duration env r hen hd hr⟩
  · intro hf
    rw [recordWatch_eq_core w1 reelId duration env r hen hd hr]
    show (afterSaves w1 reelId duration env r).store = w1.store
    unfold afterSaves saveWatchedReels saveDailyStats
    cases hds : w1.t.dailyStats <;> simp [hf, hds]

/-- C24 on the sample tracker (reel `B` watched twice) over a store that
rejects writes and over one that accepts them: the two commits of 1500 ms end
with the same memory, and the failing one persists nothing. -/
theorem failed_save_keeps_memory_witness :
    SameMemory
      (recordWatch (withStore (sampleWorld 2) emptyStore true) "B" 1500 sampleEnv)
      (recordWatch (withStore (sampleWorld 2) emptyStore false) "B" 1500 sampleEnv) ∧
    (recordWatch (withStore (sampleWorld 2) emptyStore true) "B" 1500 sampleEnv).store =
      emptyStore :=
  ⟨(failed_save_keeps_memory (withStore (sampleWorld 2) emptyStore true)
      (withStore (sampleWorld 2) emptyStore false) "B" 1500 sampleEnv
      { count := 2, lastWatched := some 10, totalWatchTime := 4000 }
      (sameMemory_withStore (sampleWorld 2) emptyStore emptyStore true false)
      rfl (by decide) rfl).2.1,
   (failed_save_keeps_memory (withStore (sampleWorld 2) emptyStore true)
      (withStore (sampleWorld 2) emptyStore false) "B" 1500 sampleEnv
      { count := 2, lastWatched := some 10, totalWatchTime := 4000 }
      (sameMemory_withStore (sampleWorld 2) emptyStore emptyStore true false)
      rfl (by decide) rfl).2.2.2.2.2 rfl⟩

theorem stopTrackerTimers_watchedReels (w : World) :
    (stopTrackerTimers w).t.watchedReels = w.t.watchedReels := by
  unfold stopTrackerTimers
  dsimp only
  rw [(frame_stopPeriodicAlerts _).watchedReels]
  cases h1 : w.t.periodicCheckInterval <;> cases h2 : w.t.statusLogInterval <;>
    simp [clearTimer, h2]

theorem startPeriodicChecks_watchedReels (w : World) :
    (startPeriodicChecks w).t.watchedReels = w.t.watchedReels := by
  unfold startPeriodicChecks
  dsimp only
  cases h1 : w.t.periodicCheckInterval <;> cases h2 : w.t.statusLogInterval <;>
    simp [clearTimer, setTimer, h2]

theorem timerFires_watchedReels (w : World) (tm : Timer) (env : Env) :
    (timerFires w tm env).t.watchedReels = w.t.watchedReels := by
  unfold timerFires
  split
  · split
    · unfold showSnoozeEndedNotification
      rw [(frame_present _ _ _).watchedReels, (frame_hideNotification _).watchedReels,
        (frame_checkLimitsAndStartAlerts _ env).watchedReels]
    · rw [(frame_showLimitAlert _).watchedReels]
    · rfl
    · rfl
  · rfl

theorem handlePlay_watchedReels (w : World) (s : Session) (env : Env) :
    (handlePlay w s env).1.t.watchedReels = w.t.watchedReels := by
  unfold handlePlay
  split
  · rfl
  · dsimp only
    split
    · rfl
    · rw [(frame_checkLimitsAndStartAlerts _ env).watchedReels,
        (frame_showScrollMilestoneNotification _ _).watchedReels, saveScrollCounter_t]
      cases h : w.t.dailyStats <;> simp [saveDailyStats_t]

theorem recordWatch_watchedReels_cases (w : World) (reelId : String) (duration : Int)
    (env : Env) :
    (recordWatch w reelId duration env).t.watchedReels = w.t.watchedReels ∨
    (1000 ≤ duration ∧ ∃ r, mapGet w.t.watchedReels reelId = some r ∧
      (recordWatch w reelId duration env).t.watchedReels =
        mapSet w.t.watchedReels reelId (committed r duration env.now)) := by
  by_cases hen : w.t.settings.extensionEnabled = true
  · by_cases hd : 1000 ≤ duration
    · cases hr : mapGet w.t.watchedReels reelId with
      | none =>
        left
        unfold recordWatch
        simp [hen, not_lt.mpr hd, hr]
      | some r =>
        right
        exact ⟨hd, r, rfl, recordWatch_watchedReels w reelId duration env r hen hd hr⟩
    · left
      unfold recordWatch
      simp [hen, not_le.mp hd]
  · left
    unfold recordWatch
    simp [hen]

theorem recordWatch_record (w : World) (reelId : String) (duration : Int) (env : Env)
    (id : String) (r : ReelData) (h : mapGet w.t.watchedReels id = some r) :
    ∃ r1, mapGet (recordWatch w reelId duration env).t.watchedReels id = some r1 ∧
      (r1.count = r.count ∨ (r1.count = r.count + 1 ∧ 1000 ≤ duration ∧ id = reelId)) := by
  rcases recordWatch_watchedReels_cases w reelId duration env with hsame | ⟨hd, r0, hr0, hset⟩
  · exact ⟨r, by rw [hsame]; exact h, Or.inl rfl⟩
  · by_cases hid : id = reelId
    · subst hid
      rw [h] at hr0
      cases hr0
      exact ⟨committed r duration env.now, by rw [hset, mapGet_mapSet_same],
        Or.inr ⟨rfl, hd, rfl⟩⟩
    · exact ⟨r, by rw [hset, mapGet_mapSet_ne _ _ _ _ hid]; exact h, Or.inl rfl⟩

theorem step_record (w : World) (c : Call) (env : Env) (id : String) (r : ReelData)
    (h : mapGet w.t.watchedReels id = some r) :
    ∃ r1, mapGet (step w c env).t.watchedReels id = some r1 ∧
      (r1.count = r.count ∨
        (r1.count = r.count + 1 ∧ ∃ d, 1000 ≤ d ∧ commitOf c env = some (id, d))) := by
  have unchanged : ∀ w1 : World, w1.t.watchedReels = w.t.watchedReels →
      ∃ r1, mapGet w1.t.watchedReels id = some r1 ∧
        (r1.count = r.count ∨
          (r1.count = r.count + 1 ∧ ∃ d, 1000 ≤ d ∧ commitOf c env = some (id, d))) :=
    fun w1 h1 => ⟨r, by rw [h1]; exact h, Or.inl rfl⟩
  cases c with
  | play s => exact unchanged _ (handlePlay_watchedReels w s env)
  | pause s =>
    unfold step handlePause commitOf recordWatchCall
    dsimp only
    split
    · obtain ⟨r1, h1, h2⟩ := recordWatch_record w s.reelId _ env id r h
      refine ⟨r1, h1, ?_⟩
      rcases h2 with h2 | ⟨h2, h3, h4⟩
      · exact Or.inl h2
      · exact Or.inr ⟨h2, _, h3, by simp [h4]⟩
    · exact ⟨r, h, Or.inl rfl⟩
  | ended s =>
    unfold step handleEnded commitOf recordWatchCall
    dsimp only
    split
    · obtain ⟨r1, h1, h2⟩ := recordWatch_record w s.reelId _ env id r h
      refine ⟨r1, h1, ?_⟩
      rcases h2 with h2 | ⟨h2, h3, h4⟩
      · exact Or.inl h2
      · exact Or.inr ⟨h2, _, h3, by simp [h4]⟩
    · exact ⟨r, h, Or.inl rfl⟩
  | visibilityChange s hidden =>
    unfold step handleVisibilityChange commitOf recordWatchCall
    dsimp only
    split
    · obtain ⟨r1, h1, h2⟩ := recordWatch_record w s.reelId _ env id r h
      refine ⟨r1, h1, ?_⟩
      rcases h2 with h2 | ⟨h2, h3, h4⟩
      · exact Or.inl h2
      · exact Or.inr ⟨h2, _, h3, by simp [h4]⟩
    · exact ⟨r, h, Or.inl rfl⟩
  | recordWatch reelId duration =>
    obtain ⟨r1, h1, h2⟩ := recordWatch_record w reelId duration env id r h
    refine ⟨r1, h1, ?_⟩
    rcases h2 with h2 | ⟨h2, h3, h4⟩
    · exact Or.inl h2
    · exact Or.inr ⟨h2, duration, h3, by simp [commitOf, h4]⟩
  | checkLimits => exact unchanged _ (frame_checkLimitsAndStartAlerts w env).watchedReels
  | timerFires tm => exact unchanged _ (timerFires_watchedReels w tm env)
  | snooze minutes => exact unchanged _ (frame_snoozeAlerts w minutes env.now).watchedReels
  | stopTimers => exact unchanged _ (stopTrackerTimers_watchedReels w)
  | startChecks => exact unchanged _ (startPeriodicChecks_watchedReels w)

theorem addVideoListeners_w {E : Type} (p : Page E) (i : Nat) (reelId : String) :
    (addVideoListeners p i reelId).w = p.w := by
  unfold addVideoListeners
  cases p.doc[i]? <;> rfl

theorem trackReel_watchedReels {E : Type} (det : Detector E) (p : Page E) (i : Nat)
    (v : Video E) (hv : p.doc[i]? = some v) (hid : det.getReelId v.info ≠ "") :
    (trackReel det p i).w.t.watchedReels =
      if (mapGet p.w.t.watchedReels (det.getReelId v.info)).isNone then
        mapSet p.w.t.watchedReels (det.getReelId v.info)
          { count := 0, lastWatched := none, totalWatchTime := 0 }
      else p.w.t.watchedReels := by
  unfold trackReel
  simp only [hv, hid, ne_eq, not_false_eq_true, if_true, addVideoListeners_w]
  split
  · rename_i r hr
    split
    · rw [(frame_showNotification _ _).watchedReels]
      split <;> rfl
    · split <;> rfl
  · split <;> rfl

theorem trackReel_watchedReels_cases {E : Type} (det : Detector E) (p : Page E) (i : Nat) :
    (trackReel det p i).w.t.watchedReels = p.w.t.watchedReels ∨
    ∃ id, mapGet p.w.t.watchedReels id = none ∧
      (trackReel det p i).w.t.watchedReels =
        mapSet p.w.t.watchedReels id { count := 0, lastWatched := none, totalWatchTime := 0 } := by
  cases hv : p.doc[i]? with
  | none =>
    left
    unfold trackReel
    simp only [hv]
  | some v =>
    by_cases hid : det.getReelId v.info = ""
    · left
      unfold trackReel
      simp only [hv, hid, ne_eq, not_true_eq_false, if_false]
    · rw [trackReel_watchedReels det p i v hv hid]
      cases hm : mapGet p.w.t.watchedReels (det.getReelId v.info) with
      | none =>
        right
        exact ⟨_, hm, by simp⟩
      | some r =>
        left
        simp

theorem keepsRecords_refl {E : Type} (p : Page E) : KeepsRecords p p := fun _ _ h => h

theorem keepsRecords_trans {E : Type} {a b c : Page E} (h1 : KeepsRecords a b)
    (h2 : KeepsRecords b c) : KeepsRecords a c :=
  fun id r h => h2 id r (h1 id r h)

theorem keepsRecords_of_eq {E : Type} {p p1 : Page E}
    (h : p1.w.t.watchedReels = p.w.t.watchedReels) : KeepsRecords p p1 := by
  intro id r hr
  rw [h]
  exact hr

theorem keepsRecords_trackReel {E : Type} (det : Detector E) (p : Page E) (i : Nat) :
    KeepsRecords p (trackReel det p i) := by
  rcases trackReel_watchedReels_cases det p i with h | ⟨id0, hnone, hset⟩
  · exact keepsRecords_of_eq h
  · intro id r hr
    have hne : id ≠ id0 := by
      intro he
      rw [he, hnone] at hr
      cases hr
    rw [hset, mapGet_mapSet_ne _ _ _ _ hne]
    exact hr

theorem keepsRecords_scanVideo {E : Type} (det : Detector E) (st : Page E × Nat) (i : Nat) :
    KeepsRecords st.1 (scanVideo det st i).1 := by
  unfold scanVideo
  cases st.1.doc[i]? with
  | none => exact keepsRecords_refl _
  | some v =>
    dsimp only
    split
    · exact keepsRecords_trackReel det st.1 i
    · exact keepsRecords_refl _

theorem keepsRecords_scanFold {E : Type} (det : Detector E) (l : List Nat) :
    ∀ st : Page E × Nat, KeepsRecords st.1 (l.foldl (scanVideo det) st).1 := by
  induction l with
  | nil => intro st; exact keepsRecords_refl _
  | cons a rest ih =>
    intro st
    simp only [List.foldl_cons]
    exact keepsRecords_trans (keepsRecords_scanVideo det st a) (ih _)

theorem keepsRecords_selectorPasses {E : Type} (det : Detector E) (root : Option (List Nat))
    (ks : List Nat) :
    ∀ st : Page E × Nat, KeepsRecords st.1 (ks.foldl (selectorPass det root) st).1 := by
  induction ks with
  | nil => intro st; exact keepsRecords_refl _
  | cons k rest ih =>
    intro st
    simp only [List.foldl_cons]
    exact keepsRecords_trans (keepsRecords_scanFold det _ st) (ih _)

theorem keepsRecords_checkForReels {E : Type} (det : Detector E) (p : Page E)
    (root : Option (List Nat)) : KeepsRecords p (checkForReels det p root) := by
  rw [checkForReels_eq]
  have h1 := keepsRecords_selectorPasses det root (List.range 8) (p, 0)
  split
  · exact keepsRecords_trans h1 (keepsRecords_scanFold det _ _)
  · exact h1

theorem keepsRecords_stopAllTracking {E : Type} (p : Page E) :
    KeepsRecords p (stopAllTracking p) :=
  keepsRecords_of_eq (stopTrackerTimers_watchedReels p.w)

theorem keepsRecords_restartTracking {E : Type} (det : Detector E) (p : Page E) :
    KeepsRecords p (restartTracking det p) := by
  unfold restartTracking
  refine keepsRecords_trans ?_ (keepsRecords_checkForReels det _ none)
  exact keepsRecords_of_eq (startPeriodicChecks_watchedReels p.w)

theorem keepsRecords_toggleExtension {E : Type} (det : Detector E) (p : Page E)
    (data : Bool) : KeepsRecords p (toggleExtension det p data) := by
  unfold toggleExtension
  dsimp only
  split
  · refine keepsRecords_of_eq ?_
    show (hideNotification (stopTrackerTimers _)).t.watchedReels = _
    rw [hideNotification_watchedReels, stopTrackerTimers_watchedReels]
  · refine keepsRecords_trans ?_ (keepsRecords_restartTracking det _)
    exact keepsRecords_of_eq rfl

/-- C25 (entity record stability).  `trackReel` on an element that resolves to
an id already in `watchedReels` leaves the map as it is; for an id not in the
map it adds the record with count 0, no `lastWatched` and total watch time 0,
keeping every other record.  After any call into the tracker every record is
still present, and its count is unchanged unless the call made
`recordWatch` run on that reel with a duration of at least 1000 ms (then it is
one more).  Scanning, `stopAllTracking`, `restartTracking` and
`toggleExtension` keep every record as it is. -/
theorem entity_record_stability {E : Type} (det : Detector E) (p : Page E) :
    (∀ (i : Nat) (v : Video E) (r : ReelData), p.doc[i]? = some v →
      det.getReelId v.info ≠ "" →
      mapGet p.w.t.watchedReels (det.getReelId v.info) = some r →
      (trackReel det p i).w.t.watchedReels = p.w.t.watchedReels) ∧
    (∀ (i : Nat) (v : Video E), p.doc[i]? = some v → det.getReelId v.info ≠ "" →
      mapGet p.w.t.watchedReels (det.getReelId v.info) = none →
      mapGet (trackReel det p i).w.t.watchedReels (det.getReelId v.info) =
        some { count := 0, lastWatched := none, totalWatchTime := 0 } ∧
      KeepsRecords p (trackReel det p i)) ∧
    (∀ (c : Call) (env : Env) (id : String) (r : ReelData),
      mapGet p.w.t.watchedReels id = some r →
      ∃ r1, mapGet (step p.w c env).t.watchedReels id = some r1 ∧
        (r1.count = r.count ∨
          (r1.count = r.count + 1 ∧ ∃ d, 1000 ≤ d ∧ commitOf c env = some (id, d)))) ∧
    (∀ root : Option (List Nat), KeepsRecords p (checkForReels det p root)) ∧
    KeepsRecords p (stopAllTracking p) ∧
    KeepsRecords p (restartTracking det p) ∧
    (∀ data : Bool, KeepsRecords p (toggleExtension det p data)) := by
  refine ⟨?_, ?_, fun c env id r h => step_record p.w c env id r h,
    fun root => keepsRecords_checkForReels det p root, keepsRecords_stopAllTracking p,
    keepsRecords_restartTracking det p, fun data => keepsRecords_toggleExtension det p data⟩
  · intro i v r hv hid hr
    rw [trackReel_watchedReels det p i v hv hid, hr]
    simp
  · intro i v hv hid hr
    refine ⟨?_, keepsRecords_trackReel det p i⟩
    rw [trackReel_watchedReels det p i v hv hid, hr]
    simp [mapGet_mapSet_same]

/-- C25 on the sample page, whose element resolves to reel `A`: over the
sample tracker (which has a record for `A`) `trackReel` leaves the map as it
is. -/
theorem entity_record_stability_witness :
    (trackReel sampleDetector (samplePage (sampleWorld 4)) 0).w.t.watchedReels =
      (sampleWorld 4).t.watchedReels :=
  (entity_record_stability sampleDetector (samplePage (sampleWorld 4))).1 0
    { info := "A", tracked := false, reelListeners := none, attached := [] }
    { count := 0, lastWatched := none, totalWatchTime := 0 } rfl (by decide) rfl

/-- C26 (full reset preserves limits).  When the store accepts the writes and
holds non-zero `timeLimit` and `reelLimit`, `clearAllData` leaves both limits
at their values, removes `watchedReels`, sets `totalReelsScrolled` to 0 and
`scrolledReels` to the empty list, and writes the zeroed aggregate dated
today. -/
theorem clearAllData_preserves_limits (store : Store) (form : PopupForm) (today : String)
    (tl rl : Int) (ht : store.timeLimit = some tl) (hr : store.reelLimit = some rl)
    (htl : tl ≠ 0) (hrl : rl ≠ 0) :
    (clearAllData store false form today).timeLimit = store.timeLimit ∧
    (clearAllData store false form today).reelLimit = store.reelLimit ∧
    (clearAllData store false form today).watchedReels = none ∧
    (clearAllData store false form today).totalReelsScrolled = some 0 ∧
    (clearAllData store false form today).scrolledReels = some [] ∧
    (clearAllData store false form today).dailyStats =
      some { date := today, watchTime := 0, reelsWatched := 0, reelsScrolled := 0 } := by
  refine ⟨?_, ?_, rfl, rfl, rfl, rfl⟩
  · simp [clearAllData, limitOr, truthyInt, ht, htl]
  · simp [clearAllData, limitOr, truthyInt, hr, hrl]

/-- C26 on a store with limits 45 and 80 and a form that reads 60 and 100. -/
theorem clearAllData_preserves_limits_witness :
    usedStore.timeLimit = some 45 ∧ usedStore.reelLimit = some 80 ∧
    (clearAllData usedStore false sampleForm "Thu Nov 05 2026").timeLimit = some 45 ∧
    (clearAllData usedStore false sampleForm "Thu Nov 05 2026").reelLimit = some 80 ∧
    (clearAllData usedStore false sampleForm "Thu Nov 05 2026").watchedReels = none :=
  have h := clearAllData_preserves_limits usedStore sampleForm "Thu Nov 05 2026" 45 80 rfl rfl
    (by decide) (by decide)
  ⟨rfl, rfl, h.1, h.2.1, h.2.2.1⟩

theorem listener_settings (w : World) (s : Session) (ev : PlaybackEvent) (env : Env) :
    (listener w s ev env).1.t.settings = w.t.settings := by
  cases ev with
  | play => exact handlePlay_settings w s env
  | pause =>
    show (handlePause w s env).1.t.settings = _
    unfold handlePause
    split
    · exact recordWatch_settings _ _ _ _
    · rfl
  | ended =>
    show (handleEnded w s env).1.t.settings = _
    unfold handleEnded
    split
    · exact recordWatch_settings _ _ _ _
    · rfl
  | visibilityChange hidden =>
    show (handleVisibilityChange w s hidden env).1.t.settings = _
    unfold handleVisibilityChange
    split
    · exact recordWatch_settings _ _ _ _
    · rfl

theorem playback_settings (evs : List (PlaybackEvent × Env)) :
    ∀ (w : World) (s : Session), (playback w s evs).1.1.t.settings = w.t.settings := by
  induction evs with
  | nil => intro w s; rfl
  | cons e rest ih =>
    intro w s
    obtain ⟨ev, env⟩ := e
    show (playback (listener w s ev env).1 (listener w s ev env).2 rest).1.1.t.settings = _
    rw [ih, listener_settings]

theorem playback_cons (w : World) (s : Session) (ev : PlaybackEvent) (env : Env)
    (rest : List (PlaybackEvent × Env)) :
    playback w s ((ev, env) :: rest) =
      ((playback (listener w s ev env).1 (listener w s ev env).2 rest).1,
       (recordWatchCall s ev env).toList ++
         (playback (listener w s ev env).1 (listener w s ev env).2 rest).2) := rfl

theorem playback_append (a b : List (PlaybackEvent × Env)) :
    ∀ (w : World) (s : Session),
      playback w s (a ++ b) =
        ((playback (playback w s a).1.1 (playback w s a).1.2 b).1,
         (playback w s a).2 ++ (playback (playback w s a).1.1 (playback w s a).1.2 b).2) := by
  induction a with
  | nil => intro w s; rfl
  | cons e rest ih =>
    intro w s
    obtain ⟨ev, env⟩ := e
    rw [List.cons_append, playback_cons, playback_cons, ih]
    simp only [List.append_assoc]

/-- The listener makes the `recordWatch` call that `recordWatchCall` names, and
no other: with a call the state is the one after `recordWatch` on the reel of
the session, without one (on an event other than `play`) the tracker is as it
was. -/
theorem listener_recordWatchCall (w : World) (s : Session) (ev : PlaybackEvent) (env : Env) :
    (∀ d, recordWatchCall s ev env = some d →
      (listener w s ev env).1 = recordWatch w s.reelId d env) ∧
    (recordWatchCall s ev env = none → ev ≠ PlaybackEvent.play →
      (listener w s ev env).1 = w) := by
  cases ev with
  | play =>
    refine ⟨?_, fun _ h => absurd rfl h⟩
    intro d h
    simp [recordWatchCall] at h
  | pause =>
    simp only [recordWatchCall, listener, handlePause]
    split <;> simp
  | ended =>
    simp only [recordWatchCall, listener, handleEnded]
    split <;> simp
  | visibilityChange hidden =>
    simp only [recordWatchCall, listener, handleVisibilityChange]
    split <;> simp

theorem listener_idle (w : World) (s : Session) (ev : PlaybackEvent) (env : Env)
    (hs : truthyTime s.playStartTime = false) (hev : ev ≠ PlaybackEvent.play) :
    recordWatchCall s ev env = none ∧
    truthyTime (listener w s ev env).2.playStartTime = false := by
  cases ev with
  | play => exact absurd rfl hev
  | pause =>
    simp only [recordWatchCall, listener, handlePause, hs, Bool.false_and, Bool.false_eq_true,
      if_false]
    exact ⟨trivial, rfl⟩
  | ended =>
    simp only [recordWatchCall, listener, handleEnded, hs, Bool.false_and, Bool.false_eq_true,
      if_false]
    exact ⟨trivial, rfl⟩
  | visibilityChange hidden =>
    simp only [recordWatchCall, listener, handleVisibilityChange, hs, Bool.false_and,
      Bool.and_false, Bool.false_eq_true, if_false]
    exact ⟨trivial, trivial⟩

theorem listener_commit (w : World) (s : Session) (ev : PlaybackEvent) (env : Env) (t0 : Nat)
    (hp : s.playStartTime = some t0) (h0 : t0 ≠ 0) (hc : s.hasBeenCounted = false)
    (hev : ev.isTerminating = true) :
    recordWatchCall s ev env = some ((env.now : Int) - (t0 : Int)) ∧
    truthyTime (listener w s ev env).2.playStartTime = false := by
  have hs : truthyTime s.playStartTime = true := by
    rw [hp]
    exact decide_eq_true h0
  cases ev with
  | play => cases hev
  | pause =>
    simp only [recordWatchCall, listener, handlePause, hs, hc, Bool.not_false, Bool.and_self,
      if_true]
    rw [hp]
    exact ⟨rfl, rfl⟩
  | ended =>
    simp only [recordWatchCall, listener, handleEnded, hs, hc, Bool.not_false, Bool.and_self,
      if_true]
    rw [hp]
    exact ⟨rfl, rfl⟩
  | visibilityChange hidden =>
    have hh : hidden = true := hev
    subst hh
    simp only [recordWatchCall, listener, handleVisibilityChange, hs, hc, Bool.not_false,
      Bool.and_self, if_true]
    rw [hp]
    exact ⟨rfl, rfl⟩

theorem listener_waiting (w : World) (s : Session) (ev : PlaybackEvent) (env : Env)
    (hev : ev.isTerminating = false) (hne : ev ≠ PlaybackEvent.play) :
    recordWatchCall s ev env = none ∧ listener w s ev env = (w, s) := by
  cases ev with
  | play => exact absurd rfl hne
  | pause => cases hev
  | ended => cases hev
  | visibilityChange hidden =>
    have hh : hidden = false := hev
    subst hh
    simp only [recordWatchCall, listener, handleVisibilityChange, Bool.false_and,
      Bool.false_eq_true, if_false]
    exact ⟨trivial, trivial⟩

theorem playback_counted (seg : List (PlaybackEvent × Env)) :
    ∀ (w : World) (s : Session), (∀ e ∈ seg, e.1 ≠ PlaybackEvent.play) →
      truthyTime s.playStartTime = false → (playback w s seg).2 = [] := by
  induction seg with
  | nil => intro w s _ _; rfl
  | cons e rest ih =>
    intro w s hseg hs
    obtain ⟨ev, env⟩ := e
    have hrest : ∀ e ∈ rest, e.1 ≠ PlaybackEvent.play :=
      fun e he => hseg e (List.mem_cons_of_mem _ he)
    have hev : ev ≠ PlaybackEvent.play := hseg (ev, env) (List.mem_cons_self _ _)
    have h := listener_idle w s ev env hs hev
    rw [playback_cons, h.1, ih _ _ hrest h.2]
    rfl

theorem expectedCommits_cons_terminating (t0 : Nat) (ev : PlaybackEvent) (env : Env)
    (rest : List (PlaybackEvent × Env)) (hev : ev.isTerminating = true) (h0 : t0 ≠ 0) :
    expectedCommits t0 ((ev, env) :: rest) = [(env.now : Int) - (t0 : Int)] := by
  unfold expectedCommits
  simp [List.find?, hev, h0]

theorem expectedCommits_cons_waiting (t0 : Nat) (ev : PlaybackEvent) (env : Env)
    (rest : List (PlaybackEvent × Env)) (hev : ev.isTerminating = false) :
    expectedCommits t0 ((ev, env) :: rest) = expectedCommits t0 rest := by
  unfold expectedCommits
  simp [List.find?, hev]

theorem expectedCommits_zero (seg : List (PlaybackEvent × Env)) :
    expectedCommits 0 seg = [] := by
  unfold expectedCommits
  split <;> simp

theorem playback_playing (seg : List (PlaybackEvent × Env)) :
    ∀ (w : World) (s : Session) (t0 : Nat), (∀ e ∈ seg, e.1 ≠ PlaybackEvent.play) →
      s.playStartTime = some t0 → s.hasBeenCounted = false →
      (playback w s seg).2 = expectedCommits t0 seg := by
  induction seg with
  | nil => intro w s t0 _ _ _; rfl
  | cons e rest ih =>
    intro w s t0 hseg hp hc
    obtain ⟨ev, env⟩ := e
    have hrest : ∀ e ∈ rest, e.1 ≠ PlaybackEvent.play :=
      fun e he => hseg e (List.mem_cons_of_mem _ he)
    have hev : ev ≠ PlaybackEvent.play := hseg (ev, env) (List.mem_cons_self _ _)
    by_cases h0 : t0 = 0
    · have hs : truthyTime s.playStartTime = false := by
        rw [hp, h0]
        rfl
      rw [playback_counted _ w s hseg hs, h0, expectedCommits_zero]
    · cases hterm : ev.isTerminating with
      | true =>
        have h := listener_commit w s ev env t0 hp h0 hc hterm
        rw [playback_cons, h.1, playback_counted _ _ _ hrest h.2,
          expectedCommits_cons_terminating t0 ev env rest hterm h0]
        rfl
      | false =>
        have h := listener_waiting w s ev env hterm hev
        rw [playback_cons, h.1, h.2, ih w s t0 hrest hp hc,
          expectedCommits_cons_waiting t0 ev env rest hterm]
        rfl

theorem handlePlay_session (w : World) (s : Session) (env : Env)
    (hen : w.t.settings.extensionEnabled = true) :
    (handlePlay w s env).2.playStartTime = some env.now ∧
    (handlePlay w s env).2.hasBeenCounted = false := by
  unfold handlePlay
  simp only [hen, Bool.not_true, Bool.false_eq_true, if_false]
  split <;> exact ⟨rfl, rfl⟩

/-- C27 (one commit per play).  With the extension enabled, take any events
`pre`, then a play at `env0`, then events `seg` none of which is a play.  The
`recordWatch` calls made over the whole sequence are those made over `pre`
followed by those of the segment, which are at most one: none when no event
of `seg` is a pause, an ended or a visibility change to hidden, and otherwise
(the clock reading of the play not being 0) one call at the first such event,
with the duration from the play to that event.  After a pause, an ended, or a
visibility change that makes a `recordWatch` call, `playStartTime` is null. -/
theorem one_commit_per_play (w : World) (s : Session) (pre seg : List (PlaybackEvent × Env))
    (env0 : Env) (hen : w.t.settings.extensionEnabled = true)
    (hseg : ∀ e ∈ seg, e.1 ≠ PlaybackEvent.play) :
    (playback w s (pre ++ (PlaybackEvent.play, env0) :: seg)).2 =
      (playback w s pre).2 ++ expectedCommits env0.now seg ∧
    (expectedCommits env0.now seg).length ≤ 1 ∧
    (∀ d ∈ expectedCommits env0.now seg,
      ∃ e, seg.find? (fun e => e.1.isTerminating) = some e ∧
        d = (e.2.now : Int) - (env0.now : Int)) ∧
    (env0.now ≠ 0 → (∃ e ∈ seg, e.1.isTerminating = true) →
      (expectedCommits env0.now seg).length = 1) ∧
    (∀ (w1 : World) (s1 : Session) (ev : PlaybackEvent) (env : Env),
      (ev = PlaybackEvent.pause ∨ ev = PlaybackEvent.ended ∨
        (∃ hidden, ev = PlaybackEvent.visibilityChange hidden ∧
          (recordWatchCall s1 ev env).isSome = true)) →
      (listener w1 s1 ev env).2.playStartTime = none) := by
  refine ⟨?_, ?_, ?_, ?_, ?_⟩
  · rw [playback_append]
    show _ ++ (playback _ _ ((PlaybackEvent.play, env0) :: seg)).2 = _
    have hen1 : (playback w s pre).1.1.t.settings.extensionEnabled = true := by
      rw [playback_settings]
      exact hen
    have hs := handlePlay_session (playback w s pre).1.1 (playback w s pre).1.2 env0 hen1
    rw [playback_cons]
    show _ ++ ([] ++ (playback (handlePlay _ _ env0).1 (handlePlay _ _ env0).2 seg).2) = _
    rw [List.nil_append, playback_playing seg _ _ env0.now hseg hs.1 hs.2]
  · unfold expectedCommits
    split
    · split <;> simp
    · simp
  · intro d hd
    unfold expectedCommits at hd
    split at hd
    · rename_i e he
      split at hd
      · simp at hd
      · simp only [List.mem_singleton] at hd
        exact ⟨e, he, hd⟩
    · simp at hd
  · rintro h0 ⟨e, he, hterm⟩
    unfold expectedCommits
    cases hf : seg.find? (fun e => e.1.isTerminating) with
    | none =>
      rw [List.find?_eq_none] at hf
      exact absurd hterm (by simpa using hf e he)
    | some e1 => simp [h0]
  · intro w1 s1 ev env h
    rcases h with h | h | ⟨hidden, h, hc⟩
    · subst h
      simp only [listener, handlePause]
      split <;> rfl
    · subst h
      simp only [listener, handleEnded]
      split <;> rfl
    · subst h
      simp only [recordWatchCall] at hc
      simp only [listener, handleVisibilityChange]
      split
      · rfl
      · rename_i hn
        rw [if_neg hn] at hc
        simp at hc

/-- C27 on the sample tracker: a play at 1000000 followed by a visibility
change to visible, a pause at 1005000, an ended and a visibility change to
hidden makes one `recordWatch` call, with duration 5000. -/
theorem one_commit_per_play_witness :
    (sampleWorld 0).t.settings.extensionEnabled = true ∧
    (playback (sampleWorld 0) playingSession
      ([] ++ (PlaybackEvent.play, sampleEnv) :: sampleSegment)).2 = [5000] :=
  ⟨rfl, (one_commit_per_play (sampleWorld 0) playingSession [] sampleSegment sampleEnv rfl
    (by decide)).1.trans (by decide)⟩

/-- C28, the code at the failing input.  Reel `B` has count 2 and the daily
watch time is 5000 ms under a one-minute limit.  A commit of 60000 ms moves
the count to 3 and the watch time over the limit: `recordWatch` presents the
repeat-view notification, whose element has the class name `limit-alert`,
and `checkLimitsAndStartAlerts` then enters `Alerting` (flag set, repeat
interval pending under handle 3), but `showLimitAlert` returns at its
class-name test and no limit alert is presented: the repeat-view
notification is still the one on the page.  The same holds for
`checkLimitsAndStartAlerts` called with a repeat-view element on the page,
while an element of another class (a scroll milestone) is replaced by the
limit alert. -/
theorem repeat_view_masks_limit_alert :
    (sampleWorld 2).t.isShowingLimitAlert = false ∧
    (recordWatch (sampleWorld 2) "B" 60000 sampleEnv).t.isShowingLimitAlert = true ∧
    (recordWatch (sampleWorld 2) "B" 60000 sampleEnv).t.limitAlertInterval = some 3 ∧
    ({ id := 3, kind := TimerKind.limitAlert, delay := 2500 } : Timer) ∈
      (recordWatch (sampleWorld 2) "B" 60000 sampleEnv).timers ∧
    (recordWatch (sampleWorld 2) "B" 60000 sampleEnv).shown = [Shown.repeatView "B" 3] ∧
    (recordWatch (sampleWorld 2) "B" 60000 sampleEnv).t.notificationElement =
      some { className := "limit-alert", content := Shown.repeatView "B" 3, attached := true } ∧
    (showingWorld "limit-alert" (Shown.repeatView "B" 3)).t.isShowingLimitAlert = false ∧
    (checkLimitsAndStartAlerts (showingWorld "limit-alert" (Shown.repeatView "B" 3))
      sampleEnv).t.isShowingLimitAlert = true ∧
    (checkLimitsAndStartAlerts (showingWorld "limit-alert" (Shown.repeatView "B" 3))
      sampleEnv).t.limitAlertInterval = some 3 ∧
    (checkLimitsAndStartAlerts (showingWorld "limit-alert" (Shown.repeatView "B" 3))
      sampleEnv).shown = [Shown.repeatView "B" 3] ∧
    (checkLimitsAndStartAlerts (showingWorld "limit-alert" (Shown.repeatView "B" 3))
      sampleEnv).t.notificationElement =
      some { className := "limit-alert", content := Shown.repeatView "B" 3, attached := true } ∧
    (checkLimitsAndStartAlerts
      (showingWorld "scroll-milestone-notification" (Shown.scrollMilestone "m"))
      sampleEnv).shown = [Shown.scrollMilestone "m", Shown.limitExceeded true false] ∧
    (checkLimitsAndStartAlerts
      (showingWorld "scroll-milestone-notification" (Shown.scrollMilestone "m"))
      sampleEnv).t.notificationElement =
      some { className := "limit-alert", content := Shown.limitExceeded true false,
             attached := true } := by
  decide

theorem alertKeep_refl (w : World) : AlertKeep w w := ⟨rfl, rfl, List.Sublist.refl _⟩

theorem alertKeep_trans {a b c : World} (h1 : AlertKeep a b) (h2 : AlertKeep b c) :
    AlertKeep a c :=
  ⟨h2.1.trans h1.1, h2.2.1.trans h1.2.1, h2.2.2.trans h1.2.2⟩

theorem alertKeep_of_alertFrame {w w1 : World} (h : AlertFrame w w1) : AlertKeep w w1 :=
  ⟨h.isShowingLimitAlert, h.limitAlertInterval, by unfold limitTimers; rw [h.timers]⟩

theorem alertInv_of_keep {w w1 : World} (h : AlertKeep w w1) (hi : AlertInv w) :
    AlertInv w1 := by
  refine ⟨?_, le_trans h.2.2.length_le hi.2.1, ?_⟩
  · rw [h.1, h.2.1]
    exact hi.1
  · intro tm htm
    rw [h.2.1]
    exact hi.2.2 tm (h.2.2.subset htm)

theorem alertKeep_clearTimer (w : World) (id : Nat) : AlertKeep w (clearTimer w id) :=
  ⟨rfl, rfl, (List.filter_sublist _).filter _⟩

theorem alertKeep_setTimer (w : World) (kind : TimerKind) (delay : Nat)
    (hk : kind ≠ TimerKind.limitAlert) : AlertKeep w (setTimer w kind delay).1 := by
  refine ⟨rfl, rfl, ?_⟩
  have : Timer.isLimitAlert { id := w.nextTimerId + 1, kind := kind, delay := delay } = false := by
    cases kind <;> simp_all [Timer.isLimitAlert]
  simp [limitTimers, setTimer, this]

theorem limitTimers_of_no_interval (w : World) (hi : AlertInv w)
    (hint : w.t.limitAlertInterval = none) : limitTimers w = [] := by
  cases hl : limitTimers w with
  | nil => rfl
  | cons a rest =>
    have h := hi.2.2 a (by rw [hl]; exact List.mem_cons_self _ _)
    rw [hint] at h
    cases h

theorem limitTimers_stopPeriodicAlerts (w : World) (hi : AlertInv w) :
    limitTimers (stopPeriodicAlerts w) = [] := by
  unfold limitTimers
  rw [stopPeriodicAlerts_timers]
  cases hint : w.t.limitAlertInterval with
  | none => exact limitTimers_of_no_interval w hi hint
  | some id =>
    rw [List.filter_eq_nil_iff]
    intro tm htm hs
    have hmem := List.mem_filter.mp htm
    have hin : tm ∈ limitTimers w := List.mem_filter.mpr ⟨hmem.1, hs⟩
    have hh := hi.2.2 tm hin
    rw [hint] at hh
    have hg := hmem.2
    rw [← Option.some.inj hh] at hg
    simp at hg

theorem alertInv_stopPeriodicAlerts (w : World) (hi : AlertInv w) :
    AlertInv (stopPeriodicAlerts w) := by
  unfold AlertInv
  rw [limitTimers_stopPeriodicAlerts w hi, stopPeriodicAlerts_flag, stopPeriodicAlerts_interval]
  refine ⟨by simp, by simp, ?_⟩
  intro tm htm
  cases htm

theorem alertInv_showLimitAlert (w : World) (hi : AlertInv w) :
    AlertInv (showLimitAlert w) := by
  unfold showLimitAlert
  split
  · exact hi
  · split
    · exact hi
    · split
      · exact alertInv_stopPeriodicAlerts w hi
      · dsimp only
        split
        · split
          · exact hi
          · exact alertInv_of_keep (alertKeep_of_alertFrame
              (alertFrame_trans (alertFrame_hideNotification w) (alertFrame_present _ _ _))) hi
        · exact alertInv_of_keep (alertKeep_of_alertFrame (alertFrame_present _ _ _)) hi

theorem alertInv_armedWorld (w : World) (hi : AlertInv w)
    (hint : w.t.limitAlertInterval = none) : AlertInv (armedWorld w) := by
  have hnil := limitTimers_of_no_interval w hi hint
  have hl : limitTimers (armedWorld w) =
      [{ id := w.nextTimerId + 1, kind := TimerKind.limitAlert,
         delay := getNotificationInterval }] := by
    unfold limitTimers at hnil ⊢
    show List.filter Timer.isLimitAlert (w.timers ++ _) = _
    rw [List.filter_append, hnil]
    simp [Timer.isLimitAlert]
  unfold AlertInv
  rw [hl]
  refine ⟨?_, by simp, ?_⟩
  · show (true = true ↔ (some (w.nextTimerId + 1)).isSome = true)
    simp
  · intro tm htm
    simp only [List.mem_singleton] at htm
    rw [htm]
    rfl

theorem alertInv_startPeriodicAlerts (w : World) (hi : AlertInv w) :
    AlertInv (startPeriodicAlerts w) := by
  cases hint : w.t.limitAlertInterval with
  | some id =>
    have : startPeriodicAlerts w = w := by
      unfold startPeriodicAlerts
      simp [hint]
    rw [this]
    exact hi
  | none =>
    rw [startPeriodicAlerts_eq w hint]
    exact alertInv_showLimitAlert _ (alertInv_armedWorld w hi hint)

theorem alertInv_checkLimitsAndStartAlerts (w : World) (env : Env) (hi : AlertInv w) :
    AlertInv (checkLimitsAndStartAlerts w env) := by
  unfold checkLimitsAndStartAlerts
  split
  · exact hi
  · split
    · exact hi
    · split
      · exact hi
      · dsimp only
        split
        · exact alertInv_startPeriodicAlerts w hi
        · split
          · exact alertInv_of_keep
              (alertKeep_of_alertFrame (alertFrame_showPositiveReinforcement _ env))
              (alertInv_stopPeriodicAlerts w hi)
          · split
            · exact alertInv_of_keep
                (alertKeep_of_alertFrame (alertFrame_showOccasionalEncouragement w env)) hi
            · exact hi

theorem alertInv_recordWatch (w : World) (reelId : String) (duration : Int) (env : Env)
    (hi : AlertInv w) : AlertInv (recordWatch w reelId duration env) := by
  by_cases hen : w.t.settings.extensionEnabled = true
  · by_cases hd : 1000 ≤ duration
    · cases hr : mapGet w.t.watchedReels reelId with
      | none =>
        have : recordWatch w reelId duration env = w := by
          unfold recordWatch
          simp [hen, not_lt.mpr hd, hr]
        rw [this]
        exact hi
      | some r =>
        rw [recordWatch_counted w reelId duration env r hen hd hr]
        apply alertInv_checkLimitsAndStartAlerts
        split
        · exact alertInv_of_keep (alertKeep_of_alertFrame
            (alertFrame_trans (alertFrame_afterSaves w reelId duration env r)
              (alertFrame_showNotification _ reelId))) hi
        · exact alertInv_of_keep
            (alertKeep_of_alertFrame (alertFrame_afterSaves w reelId duration env r)) hi
    · have : recordWatch w reelId duration env = w := by
        unfold recordWatch
        simp [hen, not_le.mp hd]
      rw [this]
      exact hi
  · have : recordWatch w reelId duration env = w := by
      unfold recordWatch
      simp [hen]
    rw [this]
    exact hi

theorem alertInv_handlePlay (w : World) (s : Session) (env : Env) (hi : AlertInv w) :
    AlertInv (handlePlay w s env).1 := by
  unfold handlePlay
  split
  · exact hi
  · dsimp only
    split
    · exact hi
    · apply alertInv_checkLimitsAndStartAlerts
      refine alertInv_of_keep (alertKeep_of_alertFrame ?_) hi
      refine alertFrame_trans ?_ (alertFrame_showScrollMilestoneNotification _ _)
      refine alertFrame_trans ?_ (alertFrame_saveScrollCounter _)
      cases w.t.dailyStats with
      | none => exact ⟨rfl, rfl, rfl, rfl, rfl, rfl, rfl, rfl, rfl⟩
      | some d =>
        refine alertFrame_trans ?_ (alertFrame_saveDailyStats _)
        exact ⟨rfl, rfl, rfl, rfl, rfl, rfl, rfl, rfl, rfl⟩

theorem alertInv_handlePause (w : World) (s : Session) (env : Env) (hi : AlertInv w) :
    AlertInv (handlePause w s env).1 := by
  unfold handlePause
  split
  · exact alertInv_recordWatch _ _ _ _ hi
  · exact hi

theorem alertInv_handleEnded (w : World) (s : Session) (env : Env) (hi : AlertInv w) :
    AlertInv (handleEnded w s env).1 := by
  unfold handleEnded
  split
  · exact alertInv_recordWatch _ _ _ _ hi
  · exact hi

theorem alertInv_handleVisibilityChange (w : World) (s : Session) (hidden : Bool) (env : Env)
    (hi : AlertInv w) : AlertInv (handleVisibilityChange w s hidden env).1 := by
  unfold handleVisibilityChange
  split
  · exact alertInv_recordWatch _ _ _ _ hi
  · exact hi

theorem alertInv_timerFires (w : World) (tm : Timer) (env : Env) (hi : AlertInv w) :
    AlertInv (timerFires w tm env) := by
  unfold timerFires
  split
  · split
    · rename_i minutes hk
      refine alertInv_of_keep
        (alertKeep_of_alertFrame (alertFrame_showSnoozeEndedNotification _ minutes)) ?_
      apply alertInv_checkLimitsAndStartAlerts
      refine @alertInv_of_keep w _ ⟨rfl, rfl, ?_⟩ hi
      show (List.filter Timer.isLimitAlert (w.timers.erase tm)).Sublist
        (List.filter Timer.isLimitAlert w.timers)
      exact (List.erase_sublist tm w.timers).filter _
    · apply alertInv_showLimitAlert
      exact @alertInv_of_keep w _ ⟨rfl, rfl, List.Sublist.refl _⟩ hi
    · exact hi
    · exact hi
  · exact hi

theorem alertInv_snoozeAlerts (w : World) (minutes : ℚ) (now : Nat) (hi : AlertInv w) :
    AlertInv (snoozeAlerts w minutes now) := by
  unfold snoozeAlerts
  dsimp only
  refine alertInv_of_keep ?_ (alertInv_stopPeriodicAlerts w hi)
  refine alertKeep_trans ?_ (alertKeep_of_alertFrame (alertFrame_showSnoozeConfirmation _ minutes))
  generalize stopPeriodicAlerts w = v
  have h3 : AlertKeep v
      (match v.t.snoozeTimeout with
        | some id =>
          let w0 := clearTimer { v with t := { v.t with snoozeUntil := some (now + snoozeMs minutes) } } id
          { w0 with t := { w0.t with snoozeTimeout := none } }
        | none => { v with t := { v.t with snoozeUntil := some (now + snoozeMs minutes) } }) := by
    cases v.t.snoozeTimeout with
    | none => exact ⟨rfl, rfl, List.Sublist.refl _⟩
    | some id => exact ⟨rfl, rfl, (List.filter_sublist _).filter _⟩
  refine alertKeep_trans h3 ?_
  generalize (match v.t.snoozeTimeout with
        | some id =>
          let w0 := clearTimer { v with t := { v.t with snoozeUntil := some (now + snoozeMs minutes) } } id
          { w0 with t := { w0.t with snoozeTimeout := none } }
        | none => { v with t := { v.t with snoozeUntil := some (now + snoozeMs minutes) } }) = u
  refine alertKeep_trans
    (alertKeep_setTimer u (TimerKind.snoozeResume minutes) (snoozeMs minutes) (by simp)) ?_
  exact ⟨rfl, rfl, List.Sublist.refl _⟩

theorem alertInv_stopTrackerTimers (w : World) (hi : AlertInv w) :
    AlertInv (stopTrackerTimers w) := by
  unfold stopTrackerTimers
  dsimp only
  refine alertInv_of_keep ⟨rfl, rfl, List.Sublist.refl _⟩ (alertInv_stopPeriodicAlerts _ ?_)
  have h1 : AlertKeep w
      (match w.t.periodicCheckInterval with
        | some id =>
          let w0 := clearTimer w id
          { w0 with t := { w0.t with periodicCheckInterval := none } }
        | none => w) := by
    cases w.t.periodicCheckInterval with
    | none => exact alertKeep_refl w
    | some id =>
      exact alertKeep_trans (alertKeep_clearTimer w id) ⟨rfl, rfl, List.Sublist.refl _⟩
  have hv := alertInv_of_keep h1 hi
  generalize (match w.t.periodicCheckInterval with
        | some id =>
          let w0 := clearTimer w id
          { w0 with t := { w0.t with periodicCheckInterval := none } }
        | none => w) = v at hv ⊢
  refine alertInv_of_keep ?_ hv
  cases v.t.statusLogInterval with
  | none => exact alertKeep_refl v
  | some id =>
    exact alertKeep_trans (alertKeep_clearTimer v id) ⟨rfl, rfl, List.Sublist.refl _⟩

theorem alertInv_startPeriodicChecks (w : World) (hi : AlertInv w) :
    AlertInv (startPeriodicChecks w) := by
  unfold startPeriodicChecks
  dsimp only
  have h1 : AlertKeep w
      (match w.t.periodicCheckInterval with
        | some id => clearTimer w id
        | none => w) := by
    cases w.t.periodicCheckInterval with
    | none => exact alertKeep_refl w
    | some id => exact alertKeep_clearTimer w id
  generalize (match w.t.periodicCheckInterval with
        | some id => clearTimer w id
        | none => w) = v at h1 ⊢
  have h2 : AlertKeep v
      (match v.t.statusLogInterval with
        | some id => clearTimer v id
        | none => v) := by
    cases v.t.statusLogInterval with
    | none => exact alertKeep_refl v
    | some id => exact alertKeep_clearTimer v id
  generalize (match v.t.statusLogInterval with
        | some id => clearTimer v id
        | none => v) = u at h2 ⊢
  refine alertInv_of_keep ?_ hi
  refine alertKeep_trans (alertKeep_trans h1 h2) ?_
  refine alertKeep_trans (alertKeep_setTimer u TimerKind.periodicCheck 5000 (by simp)) ?_
  refine alertKeep_trans ⟨rfl, rfl, List.Sublist.refl _⟩
    (alertKeep_trans (alertKeep_setTimer _ TimerKind.statusLog 30000 (by simp))
      ⟨rfl, rfl, List.Sublist.refl _⟩)

theorem alertInv_step (w : World) (c : Call) (env : Env) (hi : AlertInv w) :
    AlertInv (step w c env) := by
  cases c with
  | play s => exact alertInv_handlePlay w s env hi
  | pause s => exact alertInv_handlePause w s env hi
  | ended s => exact alertInv_handleEnded w s env hi
  | visibilityChange s hidden => exact alertInv_handleVisibilityChange w s hidden env hi
  | recordWatch reelId duration => exact alertInv_recordWatch w reelId duration env hi
  | checkLimits => exact alertInv_checkLimitsAndStartAlerts w env hi
  | timerFires tm => exact alertInv_timerFires w tm env hi
  | snooze minutes => exact alertInv_snoozeAlerts w minutes env.now hi
  | stopTimers => exact alertInv_stopTrackerTimers w hi
  | startChecks => exact alertInv_startPeriodicChecks w hi

theorem alertInv_schedulerStep (w : World) (c : SchedulerCall) (env : Env) (hi : AlertInv w) :
    AlertInv (schedulerStep w c env) := by
  cases c with
  | call c => exact alertInv_step w c env hi
  | startAlerts => exact alertInv_startPeriodicAlerts w hi
  | stopAlerts => exact alertInv_stopPeriodicAlerts w hi
  | showAlert => exact alertInv_showLimitAlert w hi

theorem alertInv_schedulerRun (calls : List (SchedulerCall × Env)) :
    ∀ w : World, AlertInv w → AlertInv (schedulerRun w calls) := by
  induction calls with
  | nil => intro w hi; exact hi
  | cons e rest ih =>
    intro w hi
    obtain ⟨c, env⟩ := e
    exact ih _ (alertInv_schedulerStep w c env hi)

/-- C29 (alerting flag and repeat interval agree).  Start from a state as the
constructor leaves it: flag not set, no interval handle stored, no repeat
interval pending.  After every sequence of calls of
`checkLimitsAndStartAlerts`, `startPeriodicAlerts`, `stopPeriodicAlerts`,
`showLimitAlert`, `snoozeAlerts`, timers firing (the interval tick and the
snooze expiry among them), the timer part of `stopAllTracking` and every
other call into the tracker, `isShowingLimitAlert` is true exactly when
`limitAlertInterval` is not null, so the guard that enters (flag not set) and
the guard that leaves (handle stored) are complementary; at most one repeat
interval is pending, and a pending one is the one whose handle is stored. -/
theorem alerting_flag_matches_interval (w : World) (calls : List (SchedulerCall × Env))
    (hflag : w.t.isShowingLimitAlert = false) (hint : w.t.limitAlertInterval = none)
    (htimers : limitTimers w = []) :
    ((schedulerRun w calls).t.isShowingLimitAlert = true ↔
      (schedulerRun w calls).t.limitAlertInterval ≠ none) ∧
    (!(schedulerRun w calls).t.isShowingLimitAlert) =
      !(schedulerRun w calls).t.limitAlertInterval.isSome ∧
    (limitTimers (schedulerRun w calls)).length ≤ 1 ∧
    ∀ tm ∈ limitTimers (schedulerRun w calls),
      (schedulerRun w calls).t.limitAlertInterval = some tm.id := by
  have h0 : AlertInv w := by
    unfold AlertInv
    rw [hflag, hint, htimers]
    refine ⟨by simp, by simp, ?_⟩
    intro tm htm
    cases htm
  have h := alertInv_schedulerRun calls w h0
  refine ⟨?_, ?_, h.2.1, h.2.2⟩
  · rw [h.1, Option.isSome_iff_ne_none]
  · have h1 := h.1
    cases hf : (schedulerRun w calls).t.isShowingLimitAlert <;>
      cases hs : (schedulerRun w calls).t.limitAlertInterval.isSome <;>
      simp [hf, hs] at h1 ⊢

/-- C29 on the sample tracker over the limit: after a check, a start, a tick
of the interval, a snooze of one minute, its expiry and a further
`showLimitAlert`, the flag is set, the handle 5 is stored, and the one
pending repeat interval is the timer 5. -/
theorem alerting_flag_matches_interval_witness :
    (limitWorld 61000 none).t.isShowingLimitAlert = false ∧
    (limitWorld 61000 none).t.limitAlertInterval = none ∧
    limitTimers (limitWorld 61000 none) = [] ∧
    (schedulerRun (limitWorld 61000 none) sampleCalls).t.isShowingLimitAlert = true ∧
    (schedulerRun (limitWorld 61000 none) sampleCalls).t.limitAlertInterval = some 5 ∧
    limitTimers (schedulerRun (limitWorld 61000 none) sampleCalls) =
      [{ id := 5, kind := TimerKind.limitAlert, delay := 2500 }] ∧
    ((schedulerRun (limitWorld 61000 none) sampleCalls).t.isShowingLimitAlert = true ↔
      (schedulerRun (limitWorld 61000 none) sampleCalls).t.limitAlertInterval ≠ none) :=
  ⟨rfl, rfl, rfl, by decide, by decide, by decide,
   (alerting_flag_matches_interval (limitWorld 61000 none) sampleCalls rfl rfl rfl).1⟩

theorem getReelId_position (br : Browser) (e : ElementInfo)
    (h1 : idFromLinks e = none) (h2 : idFromTestid e = none) (h3 : idFromSrc br e = none)
    (h4 : idFromPoster br e = none) (h5 : idFromContainer e = none)
    (hp : videoProps e = []) : getReelId br e = Except.ok (positionId e) := by
  unfold getReelId generatedId
  simp only [h1, h2, h3, h4, h5, hp, List.length_nil, gt_iff_lt, lt_self_iff_false, if_false]

theorem getReelId_error_iff (br : Browser) (e : ElementInfo) (msg : String) :
    getReelId br e = Except.error msg ↔
      idFromLinks e = none ∧ idFromTestid e = none ∧ idFromSrc br e = none ∧
      idFromPoster br e = none ∧ idFromContainer e = none ∧ videoProps e ≠ [] ∧
      isLatin1 (joinBar (videoProps e)) = false ∧ msg = "InvalidCharacterError" := by
  unfold getReelId
  cases h1 : idFromLinks e with
  | some id => simp
  | none =>
    cases h2 : idFromTestid e with
    | some id => simp
    | none =>
      cases h3 : idFromSrc br e with
      | some id => simp
      | none =>
        cases h4 : idFromPoster br e with
        | some id => simp
        | none =>
          cases h5 : idFromContainer e with
          | some id => simp
          | none =>
            simp only [true_and]
            unfold generatedId
            cases hp : videoProps e with
            | nil => simp
            | cons a rest =>
              simp only [List.length_cons, gt_iff_lt, Nat.zero_lt_succ, if_true, ne_eq,
                not_false_eq_true, true_and, reduceCtorEq]
              unfold stableId btoa
              cases hl : isLatin1 (joinBar (a :: rest)) with
              | true => simp [Except.map]
              | false =>
                simp only [Bool.false_eq_true, if_false, Except.map, true_and]
                constructor
                · intro h
                  exact (Except.error.inj h).symm
                · intro h
                  rw [h]

end ReelAware
